import Mathlib

/-! # Bond setting of NetworkManager (`libnm-core/nm-setting-bond.c`)

A shallow embedding of the bond option registry, the per-option validator and
the option store, followed by the properties proved about them.

Conventions of the embedding:

* a C string is a `String` (its bytes are `String.data`), a nullable
  `const char *` is an `Option String`;
* the `GHashTable` of options is an association list with unique keys
  (`AList`), so that `g_hash_table_insert`, `g_hash_table_remove` and
  `g_hash_table_lookup` are `AList.insert`, `AList.erase` and `AList.lookup`;
* a function that mutates the setting returns the new private state next to
  its C return value;
* `guint`, `guint64` values are natural numbers, the bound `G_MAXUINT64`
  being checked explicitly where the C code can overflow;
* the GObject property notification `_notify (setting, PROP_OPTIONS)` has no
  effect on the private state and is left out.
-/

namespace NMBond

/-! ## Option names -/

/-- Modelled from the spec: the option-name literals `NM_SETTING_BOND_OPTION_*`
are defined in `nm-setting-bond.h`, which is not among the sources; they are the
lower-case spellings of the 27 option families of the specification (§3.3), four
of which the source itself spells out in `options_equal_asym`. -/
abbrev NM_SETTING_BOND_OPTION_MODE : String := "mode"
abbrev NM_SETTING_BOND_OPTION_MIIMON : String := "miimon"
abbrev NM_SETTING_BOND_OPTION_DOWNDELAY : String := "downdelay"
abbrev NM_SETTING_BOND_OPTION_UPDELAY : String := "updelay"
abbrev NM_SETTING_BOND_OPTION_ARP_INTERVAL : String := "arp_interval"
abbrev NM_SETTING_BOND_OPTION_ARP_IP_TARGET : String := "arp_ip_target"
abbrev NM_SETTING_BOND_OPTION_ARP_VALIDATE : String := "arp_validate"
abbrev NM_SETTING_BOND_OPTION_PRIMARY : String := "primary"
abbrev NM_SETTING_BOND_OPTION_PRIMARY_RESELECT : String := "primary_reselect"
abbrev NM_SETTING_BOND_OPTION_FAIL_OVER_MAC : String := "fail_over_mac"
abbrev NM_SETTING_BOND_OPTION_USE_CARRIER : String := "use_carrier"
abbrev NM_SETTING_BOND_OPTION_AD_SELECT : String := "ad_select"
abbrev NM_SETTING_BOND_OPTION_XMIT_HASH_POLICY : String := "xmit_hash_policy"
abbrev NM_SETTING_BOND_OPTION_RESEND_IGMP : String := "resend_igmp"
abbrev NM_SETTING_BOND_OPTION_LACP_RATE : String := "lacp_rate"
abbrev NM_SETTING_BOND_OPTION_ACTIVE_SLAVE : String := "active_slave"
abbrev NM_SETTING_BOND_OPTION_AD_ACTOR_SYS_PRIO : String := "ad_actor_sys_prio"
abbrev NM_SETTING_BOND_OPTION_AD_ACTOR_SYSTEM : String := "ad_actor_system"
abbrev NM_SETTING_BOND_OPTION_AD_USER_PORT_KEY : String := "ad_user_port_key"
abbrev NM_SETTING_BOND_OPTION_ALL_SLAVES_ACTIVE : String := "all_slaves_active"
abbrev NM_SETTING_BOND_OPTION_ARP_ALL_TARGETS : String := "arp_all_targets"
abbrev NM_SETTING_BOND_OPTION_MIN_LINKS : String := "min_links"
abbrev NM_SETTING_BOND_OPTION_NUM_GRAT_ARP : String := "num_grat_arp"
abbrev NM_SETTING_BOND_OPTION_NUM_UNSOL_NA : String := "num_unsol_na"
abbrev NM_SETTING_BOND_OPTION_PACKETS_PER_SLAVE : String := "packets_per_slave"
abbrev NM_SETTING_BOND_OPTION_TLB_DYNAMIC_LB : String := "tlb_dynamic_lb"
abbrev NM_SETTING_BOND_OPTION_LP_INTERVAL : String := "lp_interval"

/-- The array `valid_options_lst` (without its terminating `NULL`). -/
def valid_options_lst : List String :=
  [ NM_SETTING_BOND_OPTION_MODE,
    NM_SETTING_BOND_OPTION_MIIMON,
    NM_SETTING_BOND_OPTION_DOWNDELAY,
    NM_SETTING_BOND_OPTION_UPDELAY,
    NM_SETTING_BOND_OPTION_ARP_INTERVAL,
    NM_SETTING_BOND_OPTION_ARP_IP_TARGET,
    NM_SETTING_BOND_OPTION_ARP_VALIDATE,
    NM_SETTING_BOND_OPTION_PRIMARY,
    NM_SETTING_BOND_OPTION_PRIMARY_RESELECT,
    NM_SETTING_BOND_OPTION_FAIL_OVER_MAC,
    NM_SETTING_BOND_OPTION_USE_CARRIER,
    NM_SETTING_BOND_OPTION_AD_SELECT,
    NM_SETTING_BOND_OPTION_XMIT_HASH_POLICY,
    NM_SETTING_BOND_OPTION_RESEND_IGMP,
    NM_SETTING_BOND_OPTION_LACP_RATE,
    NM_SETTING_BOND_OPTION_ACTIVE_SLAVE,
    NM_SETTING_BOND_OPTION_AD_ACTOR_SYS_PRIO,
    NM_SETTING_BOND_OPTION_AD_ACTOR_SYSTEM,
    NM_SETTING_BOND_OPTION_AD_USER_PORT_KEY,
    NM_SETTING_BOND_OPTION_ALL_SLAVES_ACTIVE,
    NM_SETTING_BOND_OPTION_ARP_ALL_TARGETS,
    NM_SETTING_BOND_OPTION_MIN_LINKS,
    NM_SETTING_BOND_OPTION_NUM_GRAT_ARP,
    NM_SETTING_BOND_OPTION_NUM_UNSOL_NA,
    NM_SETTING_BOND_OPTION_PACKETS_PER_SLAVE,
    NM_SETTING_BOND_OPTION_TLB_DYNAMIC_LB,
    NM_SETTING_BOND_OPTION_LP_INTERVAL ]

/-! ## The registry -/

/-- The enumeration `NMBondOptionType` (`NM_BOND_OPTION_TYPE_*`). -/
inductive NMBondOptionType where
  | INT
  | BOTH
  | IP
  | MAC
  | IFNAME
  deriving DecidableEq, Repr

/-- The struct `OptionMeta`; a `NULL` default or list is `none`, and the fields
an initialiser of the table leaves out are zero, as in C. -/
structure OptionMeta where
  val : Option String
  opt_type : NMBondOptionType
  min : Nat := 0
  max : Nat := 0
  list : Option (List String) := none
  deriving DecidableEq, Repr

/-- The constant `G_MAXINT` of GLib on the platforms NetworkManager builds for. -/
def G_MAXINT : Nat := 2147483647

/-- The constant `G_MAXUINT64` of GLib. -/
def G_MAXUINT64 : Nat := 18446744073709551615

def _option_default_strv_ad_select : List String := ["stable", "bandwidth", "count"]
def _option_default_strv_arp_all_targets : List String := ["any", "all"]
def _option_default_strv_arp_validate : List String :=
  ["none", "active", "backup", "all", "filter", "filter_active", "filter_backup"]
def _option_default_strv_fail_over_mac : List String := ["none", "active", "follow"]
def _option_default_strv_lacp_rate : List String := ["slow", "fast"]
def _option_default_strv_mode : List String :=
  ["balance-rr", "active-backup", "balance-xor", "broadcast", "802.3ad", "balance-tlb",
   "balance-alb"]
def _option_default_strv_primary_reselect : List String := ["always", "better", "failure"]
def _option_default_strv_xmit_hash_policy : List String :=
  ["layer2", "layer3+4", "layer2+3", "encap2+3", "encap3+4"]

/-- The rows `LIST` of the lookup table `_get_option_meta`, in source order. -/
def _get_option_meta_LIST : List (String × OptionMeta) :=
  [ ( NM_SETTING_BOND_OPTION_ACTIVE_SLAVE,      { val := some "",           opt_type := .IFNAME }),
    ( NM_SETTING_BOND_OPTION_AD_ACTOR_SYS_PRIO, { val := some "65535",      opt_type := .INT,  min := 1, max := 65535 }),
    ( NM_SETTING_BOND_OPTION_AD_ACTOR_SYSTEM,   { val := none,              opt_type := .MAC }),
    ( NM_SETTING_BOND_OPTION_AD_SELECT,         { val := some "stable",     opt_type := .BOTH, min := 0, max := 2, list := some _option_default_strv_ad_select }),
    ( NM_SETTING_BOND_OPTION_AD_USER_PORT_KEY,  { val := some "0",          opt_type := .INT,  min := 0, max := 1023 }),
    ( NM_SETTING_BOND_OPTION_ALL_SLAVES_ACTIVE, { val := some "0",          opt_type := .INT,  min := 0, max := 1 }),
    ( NM_SETTING_BOND_OPTION_ARP_ALL_TARGETS,   { val := some "any",        opt_type := .BOTH, min := 0, max := 1, list := some _option_default_strv_arp_all_targets }),
    ( NM_SETTING_BOND_OPTION_ARP_INTERVAL,      { val := some "0",          opt_type := .INT,  min := 0, max := G_MAXINT }),
    ( NM_SETTING_BOND_OPTION_ARP_IP_TARGET,     { val := some "",           opt_type := .IP }),
    ( NM_SETTING_BOND_OPTION_ARP_VALIDATE,      { val := some "none",       opt_type := .BOTH, min := 0, max := 6, list := some _option_default_strv_arp_validate }),
    ( NM_SETTING_BOND_OPTION_DOWNDELAY,         { val := some "0",          opt_type := .INT,  min := 0, max := G_MAXINT }),
    ( NM_SETTING_BOND_OPTION_FAIL_OVER_MAC,     { val := some "none",       opt_type := .BOTH, min := 0, max := 2, list := some _option_default_strv_fail_over_mac }),
    ( NM_SETTING_BOND_OPTION_LACP_RATE,         { val := some "slow",       opt_type := .BOTH, min := 0, max := 1, list := some _option_default_strv_lacp_rate }),
    ( NM_SETTING_BOND_OPTION_LP_INTERVAL,       { val := some "1",          opt_type := .INT,  min := 1, max := G_MAXINT }),
    ( NM_SETTING_BOND_OPTION_MIIMON,            { val := some "100",        opt_type := .INT,  min := 0, max := G_MAXINT }),
    ( NM_SETTING_BOND_OPTION_MIN_LINKS,         { val := some "0",          opt_type := .INT,  min := 0, max := G_MAXINT }),
    ( NM_SETTING_BOND_OPTION_MODE,              { val := some "balance-rr", opt_type := .BOTH, min := 0, max := 6, list := some _option_default_strv_mode }),
    ( NM_SETTING_BOND_OPTION_NUM_GRAT_ARP,      { val := some "1",          opt_type := .INT,  min := 0, max := 255 }),
    ( NM_SETTING_BOND_OPTION_NUM_UNSOL_NA,      { val := some "1",          opt_type := .INT,  min := 0, max := 255 }),
    ( NM_SETTING_BOND_OPTION_PACKETS_PER_SLAVE, { val := some "1",          opt_type := .INT,  min := 0, max := 65535 }),
    ( NM_SETTING_BOND_OPTION_PRIMARY,           { val := some "",           opt_type := .IFNAME }),
    ( NM_SETTING_BOND_OPTION_PRIMARY_RESELECT,  { val := some "always",     opt_type := .BOTH, min := 0, max := 2, list := some _option_default_strv_primary_reselect }),
    ( NM_SETTING_BOND_OPTION_RESEND_IGMP,       { val := some "1",          opt_type := .INT,  min := 0, max := 255 }),
    ( NM_SETTING_BOND_OPTION_TLB_DYNAMIC_LB,    { val := some "1",          opt_type := .INT,  min := 0, max := 1 }),
    ( NM_SETTING_BOND_OPTION_UPDELAY,           { val := some "0",          opt_type := .INT,  min := 0, max := G_MAXINT }),
    ( NM_SETTING_BOND_OPTION_USE_CARRIER,       { val := some "1",          opt_type := .INT,  min := 0, max := 1 }),
    ( NM_SETTING_BOND_OPTION_XMIT_HASH_POLICY,  { val := some "layer2",     opt_type := .BOTH, min := 0, max := 4, list := some _option_default_strv_xmit_hash_policy }) ]

/-- The lookup `_get_option_meta` generated by
`NM_UTILS_STRING_TABLE_LOOKUP_STRUCT_DEFINE`: the row whose key equals `name`,
or `NULL` (`none`) when there is none. The generated code searches the rows,
which are sorted and pairwise distinct, by bisection; the first row with the key
is therefore the only one. -/
def _get_option_meta (name : String) : Option OptionMeta :=
  (_get_option_meta_LIST.find? (fun row => row.1 == name)).map Prod.snd

/-! ## The validator -/

/-- The GLib predicate `g_ascii_isdigit`: the byte is one of `0` .. `9`. -/
def g_ascii_isdigit (ch : Char) : Bool :=
  decide ('0' ≤ ch) && decide (ch ≤ '9')

/-- The macro `NM_STRCHAR_ALL (str, ch, cond)`: every byte of the string
satisfies the condition (true for the empty string). -/
def NM_STRCHAR_ALL (str : String) (cond : Char → Bool) : Bool :=
  str.data.all cond

/-- The value of a decimal digit, `ch - '0'`. -/
def digit_value (ch : Char) : Nat :=
  ch.toNat - '0'.toNat

/-- The accumulation loop of an unsigned decimal conversion: each digit is
appended to the number read so far. -/
def decimal_accumulate (acc : Nat) : List Char → Nat
  | [] => acc
  | ch :: rest => decimal_accumulate (acc * 10 + digit_value ch) rest

/-- The number a string of decimal digits denotes, most significant digit
first: the reading of "parsed as unsigned decimal" the validator is compared
with. -/
def decimal_value (v : String) : Nat :=
  Nat.ofDigits 10 (v.data.reverse.map digit_value)

/-- The `errno` value `EINVAL`. -/
def EINVAL : Nat := 22

/-- The `errno` value `ERANGE`. -/
def ERANGE : Nat := 34

/-- Modelled from the spec: `_nm_utils_ascii_str_to_uint64 (str, 10, min, max,
fallback)` lives in the shared utility library, which is not among the sources.
Following the specification (§4.B2, `INT`), the string is parsed as an unsigned
decimal number and the result has to lie in `[min, max]`, both bounds included;
the function returns the number and leaves `errno` at zero, or returns
`fallback` with `errno` set when the string is empty, is not a decimal number,
does not fit 64 bits or is out of range. The result is the pair of the returned
value and `errno`. -/
def _nm_utils_ascii_str_to_uint64 (str : String) (min max fallback : Nat) : Nat × Nat :=
  if str.data = [] then (fallback, EINVAL)
  else if !str.data.all g_ascii_isdigit then (fallback, EINVAL)
  else
    let v := decimal_accumulate 0 str.data
    if v > G_MAXUINT64 then (fallback, ERANGE)
    else if v > max || v < min then (fallback, ERANGE)
    else (v, 0)

/-- The function `validate_int`. -/
def validate_int (_name : String) (value : String) (option_meta : OptionMeta) : Bool :=
  if !NM_STRCHAR_ALL value g_ascii_isdigit then false
  else
    let r := _nm_utils_ascii_str_to_uint64 value option_meta.min option_meta.max G_MAXUINT64
    if r.1 == G_MAXUINT64 && r.2 != 0 then false
    else true

/-- The function `validate_list`; the list is asserted to be non-`NULL`. -/
def validate_list (_name : String) (value : String) (option_meta : OptionMeta) : Bool :=
  match option_meta.list with
  | none => false
  | some list => list.any (fun item => item == value)

/-- The C library function `inet_pton (AF_INET, src, &addr)`, as a scan over
the remaining bytes `src` with the local state of the textbook implementation:
`saw_digit`, the count `octets` of octets started and the value `tp` of the
octet being read. An address is four decimal octets of at most 255, written
without a superfluous leading zero and separated by single dots. -/
def inet_pton4 : List Char → Bool → Nat → Nat → Bool
  | [], _, octets, _ => decide (4 ≤ octets)
  | ch :: src, saw_digit, octets, tp =>
    if g_ascii_isdigit ch then
      if saw_digit && tp == 0 then false
      else if tp * 10 + digit_value ch > 255 then false
      else if !saw_digit then
        if octets + 1 > 4 then false
        else inet_pton4 src true (octets + 1) (tp * 10 + digit_value ch)
      else inet_pton4 src true octets (tp * 10 + digit_value ch)
    else if ch == '.' && saw_digit then
      if octets == 4 then false
      else inet_pton4 src false octets 0
    else false

/-- The test `inet_pton (AF_INET, value, &addr) == 1` of the sources. -/
def inet_pton (value : List Char) : Bool :=
  inet_pton4 value false 0 0

/-- The C library function `strchr (value, c)`: the offset of the first
occurrence of the byte, or `NULL`. -/
def strchr : List Char → Char → Option Nat
  | [], _ => none
  | ch :: rest, c => if ch == c then some 0 else (strchr rest c).map (· + 1)

/-- The loop `for (;;)` of `validate_ip`, run on the bytes at `value`. The word
up to the next comma (or to the end) must be an address; without a comma the
loop ends, otherwise it goes on behind the comma. Every round consumes a comma,
so that `fuel` above the length of the string is never used up. -/
def validate_ip_loop : Nat → List Char → Bool
  | 0, _ => false
  | fuel + 1, value =>
    match strchr value ',' with
    | none => inet_pton value
    | some eow =>
      if !inet_pton (value.take eow) then false
      else validate_ip_loop fuel (value.drop (eow + 1))

/-- The function `validate_ip`. -/
def validate_ip (_name : String) (value : Option String) : Bool :=
  match value with
  | none => false
  | some value =>
    if value.data = [] then false
    else validate_ip_loop (value.data.length + 1) value.data

/-- The GLib predicate `g_ascii_isspace`: space, form feed, newline, carriage
return, horizontal and vertical tab. -/
def g_ascii_isspace (ch : Char) : Bool :=
  ch == ' ' || (decide ('\t' ≤ ch) && decide (ch ≤ '\r'))

/-- The constant `IFNAMSIZ` of the kernel headers. -/
def IFNAMSIZ : Nat := 16

/-- Modelled from the spec: `nm_utils_ifname_valid_kernel` lives in the shared
utility library, which is not among the sources. Following the specification
(§4.B2, `IFNAME`) a kernel interface name is non-empty, at most 15 bytes long,
has no `/`, no whitespace and no `:`, and is neither `.` nor `..`. -/
def nm_utils_ifname_valid_kernel (name : String) : Bool :=
  name.data != [] && decide (name.utf8ByteSize < IFNAMSIZ)
    && name.data.all (fun ch => ch != '/' && ch != ':' && !g_ascii_isspace ch)
    && name != "." && name != ".."

/-- The function `validate_ifname`. -/
def validate_ifname (_name : String) (value : String) : Bool :=
  nm_utils_ifname_valid_kernel value

/-- The predicate `g_ascii_isxdigit` of GLib. -/
def g_ascii_isxdigit (ch : Char) : Bool :=
  g_ascii_isdigit ch || (decide ('a' ≤ ch) && decide (ch ≤ 'f'))
    || (decide ('A' ≤ ch) && decide (ch ≤ 'F'))

/-- Modelled from the spec: `nm_utils_hwaddr_valid (asc, ETH_ALEN)` lives in
`nm-utils.c`, which is not among the sources. Following the specification
(§4.B2, `MAC`) the text is 6 octets in colon-separated hexadecimal, two digits
each. -/
def nm_utils_hwaddr_valid : List Char → Nat → Bool
  | [h, l], 1 => g_ascii_isxdigit h && g_ascii_isxdigit l
  | h :: l :: sep :: rest, n + 1 =>
    g_ascii_isxdigit h && g_ascii_isxdigit l && sep == ':' && nm_utils_hwaddr_valid rest n
  | _, _ => false

/-- The constant `ETH_ALEN` of the kernel headers. -/
def ETH_ALEN : Nat := 6

/-- The function `nm_setting_bond_validate_option`. -/
def nm_setting_bond_validate_option (name : String) (value : Option String) : Bool :=
  match _get_option_meta name with
  | none => false
  | some option_meta =>
    match value with
    | none => true
    | some value =>
      match option_meta.opt_type with
      | .INT => validate_int name value option_meta
      | .BOTH => validate_int name value option_meta || validate_list name value option_meta
      | .IP => validate_ip name (some value)
      | .MAC => nm_utils_hwaddr_valid value.data ETH_ALEN
      | .IFNAME => validate_ifname name value

/-! ## The option store -/

/-- The hash table of options: option names to option values, at most one
value a name. -/
abbrev GHashTable : Type := AList (fun _ : String => String)

/-- The struct `NMSettingBondPrivate`: the options and the sorted index that
`_ensure_options_idx_cache` builds on demand (`NULL` is `none`), an array of
`NMUtilsNamedValue` (name, value). -/
structure NMSettingBondPrivate where
  options : GHashTable
  options_idx_cache : Option (List (String × String))

/-- The function `nm_setting_bond_get_option_by_name`. -/
def nm_setting_bond_get_option_by_name (priv : NMSettingBondPrivate) (name : String) :
    Option String :=
  if !nm_setting_bond_validate_option name none then none
  else priv.options.lookup name

/-- The function `nm_setting_bond_add_option`: its return value and the
private state it leaves. -/
def nm_setting_bond_add_option (priv : NMSettingBondPrivate) (name : String)
    (value : Option String) : Bool × NMSettingBondPrivate :=
  match value with
  | none => (false, priv)
  | some value =>
    if !nm_setting_bond_validate_option name (some value) then (false, priv)
    else
      let priv : NMSettingBondPrivate := { priv with options_idx_cache := none }
      let priv : NMSettingBondPrivate := { priv with options := priv.options.insert name value }
      let priv : NMSettingBondPrivate :=
        if name == NM_SETTING_BOND_OPTION_MIIMON then
          if value != "0" then
            { priv with
              options := (priv.options.erase NM_SETTING_BOND_OPTION_ARP_INTERVAL).erase
                NM_SETTING_BOND_OPTION_ARP_IP_TARGET }
          else priv
        else if name == NM_SETTING_BOND_OPTION_ARP_INTERVAL then
          if value != "0" then
            { priv with
              options := ((priv.options.erase NM_SETTING_BOND_OPTION_MIIMON).erase
                NM_SETTING_BOND_OPTION_DOWNDELAY).erase NM_SETTING_BOND_OPTION_UPDELAY }
          else priv
        else priv
      (true, priv)

/-- The function `nm_setting_bond_remove_option`: its return value and the
private state it leaves; `g_hash_table_remove` tells whether the key was there. -/
def nm_setting_bond_remove_option (priv : NMSettingBondPrivate) (name : String) :
    Bool × NMSettingBondPrivate :=
  if !nm_setting_bond_validate_option name none then (false, priv)
  else
    let priv : NMSettingBondPrivate := { priv with options_idx_cache := none }
    let found := (priv.options.lookup name).isSome
    (found, { priv with options := priv.options.erase name })

/-- The instance initialiser `nm_setting_bond_init`: a new hash table, the
index not built, and the default mode added. -/
def nm_setting_bond_init : NMSettingBondPrivate :=
  (nm_setting_bond_add_option { options := ∅, options_idx_cache := none }
    NM_SETTING_BOND_OPTION_MODE (some "balance-rr")).2

/-- A call of one of the two mutators of the store. -/
inductive StoreCall where
  | add_option (name : String) (value : Option String)
  | remove_option (name : String)

/-- The state a call leaves, its return value dropped. -/
def StoreCall.run (priv : NMSettingBondPrivate) : StoreCall → NMSettingBondPrivate
  | .add_option name value => (nm_setting_bond_add_option priv name value).2
  | .remove_option name => (nm_setting_bond_remove_option priv name).2

/-- The setting after a sequence of calls on a freshly constructed one. -/
def run_calls (calls : List StoreCall) : NMSettingBondPrivate :=
  calls.foldl StoreCall.run nm_setting_bond_init

/-- The stored pairs of a setting all pass the validator. -/
def pairs_valid (priv : NMSettingBondPrivate) : Prop :=
  ∀ n v : String, priv.options.lookup n = some v →
    nm_setting_bond_validate_option n (some v) = true

/-! ## Indexed iteration -/

/-- The function `nm_setting_bond_get_num_options`: the size of the hash
table. -/
def nm_setting_bond_get_num_options (priv : NMSettingBondPrivate) : Nat :=
  priv.options.entries.length

/-- The C library function `strcmp`, reduced to the sign of its result: the
strings are compared byte by byte, the shorter one first when it is a prefix of
the other. (The bytes of a string are compared through its characters; UTF-8
keeps their order.) -/
def strcmp : List Char → List Char → Int
  | [], [] => 0
  | [], _ :: _ => -1
  | _ :: _, [] => 1
  | a :: as, b :: bs => if a < b then -1 else if b < a then 1 else strcmp as bs

/-- The comparison `_get_option_sort` of two option names.
`NM_CMP_DIRECT (x, y)` returns -1 or 1 when `x` differs from `y`, here for the
tests "`b` is mode" and "`a` is mode"; `NM_CMP_DIRECT_STRCMP` returns the sign
of `strcmp` unless it is zero; the final `return 0` is asserted not to be
reached. -/
def _get_option_sort (a b : String) : Int :=
  if (b == NM_SETTING_BOND_OPTION_MODE) != (a == NM_SETTING_BOND_OPTION_MODE) then
    if !(b == NM_SETTING_BOND_OPTION_MODE) && (a == NM_SETTING_BOND_OPTION_MODE) then -1 else 1
  else if strcmp a.data b.data != 0 then
    if strcmp a.data b.data < 0 then -1 else 1
  else 0

/-- Modelled from the spec: `nm_utils_named_values_from_str_dict_with_sort`
lives in the shared utility library, which is not among the sources. It copies
the pairs of the hash table into an array and sorts the array with the
comparison of the names (specification §4.B4: the order of iteration is
deterministic and sorted); for a table without entries it returns `NULL`, which
is why `verify` tests the index before its first loop. The names of a table are
pairwise distinct, so that the sorted array does not depend on the sorting
algorithm; the model sorts by insertion. -/
def nm_utils_named_values_from_str_dict_with_sort (hash : GHashTable)
    (compare_func : String → String → Int) : Option (List (String × String)) :=
  if hash.entries.isEmpty then none
  else
    some ((hash.entries.map (fun entry => (entry.1, entry.2))).insertionSort
      (fun x y => compare_func x.1 y.1 ≤ 0))

/-- The function `_ensure_options_idx_cache`. -/
def _ensure_options_idx_cache (priv : NMSettingBondPrivate) : NMSettingBondPrivate :=
  match priv.options_idx_cache with
  | some _ => priv
  | none =>
    { priv with
      options_idx_cache :=
        nm_utils_named_values_from_str_dict_with_sort priv.options _get_option_sort }

/-- The function `nm_setting_bond_get_option`: `none` for the return value
`FALSE`, otherwise the name and the value written to `out_name` and
`out_value`; next to it the private state, in which the index may have been
built. The index has an entry at every `idx` below the size of the table when
it was built from the current options. -/
def nm_setting_bond_get_option (priv : NMSettingBondPrivate) (idx : Nat) :
    Option (String × String) × NMSettingBondPrivate :=
  if idx ≥ priv.options.entries.length then (none, priv)
  else
    let priv := _ensure_options_idx_cache priv
    match priv.options_idx_cache with
    | some cache => (cache[idx]?, priv)
    | none => (none, priv)

/-- The index, when there is one, is the sorted array of the current options:
every function that changes the options drops the index. -/
def cache_coherent (priv : NMSettingBondPrivate) : Prop :=
  priv.options_idx_cache = none ∨
    priv.options_idx_cache
      = nm_utils_named_values_from_str_dict_with_sort priv.options _get_option_sort

/-- The property setter `set_property` for `PROP_OPTIONS`: the index is
dropped and the options are replaced by a copy of the given dictionary. -/
def set_property (_priv : NMSettingBondPrivate) (value : GHashTable) : NMSettingBondPrivate :=
  { options := value, options_idx_cache := none }

/-! ## Defaults -/

/-- The macro `NM_IN_STRSET (x, ...)` for a set of non-`NULL` literals: false
for `NULL`. -/
def NM_IN_STRSET (x : Option String) (set : List String) : Bool :=
  match x with
  | none => false
  | some x => set.contains x

/-- The function `nm_setting_bond_get_option_default`; for a name without
metadata `g_return_val_if_fail` returns `NULL`. -/
def nm_setting_bond_get_option_default (priv : NMSettingBondPrivate) (name : String) :
    Option String :=
  match _get_option_meta name with
  | none => none
  | some option_meta =>
    if name == NM_SETTING_BOND_OPTION_AD_ACTOR_SYSTEM then
      if NM_IN_STRSET (nm_setting_bond_get_option_by_name priv NM_SETTING_BOND_OPTION_MODE)
          ["4", "802.3ad"] then
        some "00:00:00:00:00:00"
      else some ""
    else option_meta.val

/-! ## Comparison of the options -/

/-- Modelled from the spec: the compare flag `NM_SETTING_COMPARE_FLAG_INFERRABLE`
is declared in a header that is not among the sources; a set of compare flags
is a bit mask (`NMSettingCompareFlags`), in which `INFERRABLE` (specification
§4.B4, §4.C) is one bit. -/
def NM_SETTING_COMPARE_FLAG_INFERRABLE : Nat := 0x80000000

/-- The macro `NM_FLAGS_HAS (flags, check)` for a single bit `check`. -/
def NM_FLAGS_HAS (flags check : Nat) : Bool :=
  (flags &&& check) != 0

/-- The second operand of the comparison in `options_equal_asym`: the value of
the other setting under the key, else for `num_grat_arp` and `num_unsol_na` its
value under the twin key, else its default for the key (`NULL` for a key
without metadata). -/
def options_equal_asym_value2 (s_bond2 : NMSettingBondPrivate) (key : String) :
    Option String :=
  let value2 := s_bond2.options.lookup key
  let value2 :=
    match value2 with
    | some value2 => some value2
    | none =>
      if key == "num_grat_arp" then s_bond2.options.lookup "num_unsol_na"
      else if key == "num_unsol_na" then s_bond2.options.lookup "num_grat_arp"
      else none
  match value2 with
  | some value2 => some value2
  | none => nm_setting_bond_get_option_default s_bond2 key

/-- The loop of `options_equal_asym` over the pairs of the first setting that
the iterator still has to visit. The result is `none` when `nm_streq` would be
handed the `NULL` default of a key without metadata, which C leaves
undefined. -/
def options_equal_asym_loop (s_bond2 : NMSettingBondPrivate) (flags : Nat) :
    List (String × String) → Option Bool
  | [] => some true
  | (key, value) :: rest =>
    if NM_FLAGS_HAS flags NM_SETTING_COMPARE_FLAG_INFERRABLE
        && NM_IN_STRSET (some key) ["fail_over_mac", "active_slave"] then
      options_equal_asym_loop s_bond2 flags rest
    else
      match options_equal_asym_value2 s_bond2 key with
      | none => none
      | some value2 =>
        if value != value2 then some false
        else options_equal_asym_loop s_bond2 flags rest

/-- The function `options_equal_asym`. -/
def options_equal_asym (s_bond s_bond2 : NMSettingBondPrivate) (flags : Nat) : Option Bool :=
  options_equal_asym_loop s_bond2 flags
    (s_bond.options.entries.map (fun entry => (entry.1, entry.2)))

/-- The function `options_equal`: the second comparison runs only when the
first one returned true. -/
def options_equal (s_bond s_bond2 : NMSettingBondPrivate) (flags : Nat) : Option Bool :=
  match options_equal_asym s_bond s_bond2 flags with
  | none => none
  | some false => some false
  | some true => options_equal_asym s_bond2 s_bond flags

/-- Every key of the setting is a name of the registry. -/
def keys_in_registry (priv : NMSettingBondPrivate) : Prop :=
  ∀ key ∈ priv.options.keys, key ∈ valid_options_lst

instance (priv : NMSettingBondPrivate) : Decidable (keys_in_registry priv) :=
  inferInstanceAs (Decidable (∀ key ∈ priv.options.keys, key ∈ valid_options_lst))

/-- The effective value of a key in a setting, in the words of the
specification (§4.B4): the stored value, else for `num_grat_arp` and
`num_unsol_na` the value stored under the twin key, else the default of the
option. -/
def effective_value (s : NMSettingBondPrivate) (k : String) : Option String :=
  match s.options.lookup k with
  | some v => some v
  | none =>
    match (if k = "num_grat_arp" then s.options.lookup "num_unsol_na"
      else if k = "num_unsol_na" then s.options.lookup "num_grat_arp" else none) with
    | some v => some v
    | none => nm_setting_bond_get_option_default s k

/-- The reference definition of the equality of two settings, in the words of
the specification: for every key stored in either, except `fail_over_mac` and
`active_slave` under `INFERRABLE`, the effective values agree. -/
def options_equal_reference (a b : NMSettingBondPrivate) (flags : Nat) : Bool :=
  (a.options.keys ++ b.options.keys).all (fun k =>
    (NM_FLAGS_HAS flags NM_SETTING_COMPARE_FLAG_INFERRABLE
        && (k == "fail_over_mac" || k == "active_slave"))
      || effective_value a k == effective_value b k)

/-! ## The verifier -/

/-- The error codes of the domain `NM_CONNECTION_ERROR` that the verifier and
the check it delegates to use. -/
inductive NMConnectionError where
  | INVALID_PROPERTY
  | MISSING_PROPERTY
  deriving DecidableEq, Repr

/-- A `GError` of the domain `NM_CONNECTION_ERROR`: its code and its message. -/
structure GError where
  code : NMConnectionError
  message : String
  deriving DecidableEq, Repr

/-- What `verify` returns: `TRUE`, or `FALSE` with the error it set (a fatal
error), or `NM_SETTING_VERIFY_NORMALIZABLE` with the error it set. -/
inductive NMSettingVerifyResult where
  | SUCCESS
  | ERROR (error : GError)
  | NORMALIZABLE (error : GError)
  deriving DecidableEq, Repr

/-- The calls `g_set_error (error, NM_CONNECTION_ERROR,
NM_CONNECTION_ERROR_INVALID_PROPERTY, message)` and `g_prefix_error (error,
"%s.%s: ", NM_SETTING_BOND_SETTING_NAME, NM_SETTING_BOND_OPTIONS)` of the
verifier, for the message already formatted. -/
def bond_options_error (message : String) : GError :=
  { code := .INVALID_PROPERTY, message := "bond.options: " ++ message }

/-- What `%s` prints for a string that may be `NULL`. -/
def printf_s (s : Option String) : String :=
  s.getD "(null)"

/-- Modelled from the spec: the connection that may surround the setting
(specification §3.1, §4.B3). Only two facts about it reach the verifier:
whether it holds an infiniband setting (`nm_connection_get_setting_infiniband`)
and the interface name that the delegated check asks for. -/
structure NMConnection where
  setting_infiniband : Bool
  interface_name : Option String

/-- Modelled from the spec: `_nm_connection_verify_required_interface_name`
belongs to the connection, which is not among the sources (specification
§4.B3, step 13: delegated to the connection-level check). It passes without a
connection and for a connection with an interface name; `none` is success. -/
def _nm_connection_verify_required_interface_name (connection : Option NMConnection) :
    Option GError :=
  match connection with
  | none => none
  | some connection =>
    match connection.interface_name with
    | some _ => none
    | none =>
      some { code := .MISSING_PROPERTY,
             message := "connection.interface-name: property is missing" }

/-- The constant `LONG_MAX` of a 64-bit platform. -/
def LONG_MAX : Int := 9223372036854775807

/-- The C library function `atoi`, that is `(int) strtol (nptr, NULL, 10)`:
white space is skipped, a sign is read, then digits as far as they go; `strtol`
saturates at the bounds of `long` and the conversion to `int` keeps the low 32
bits. -/
def atoi (nptr : String) : Int :=
  let s := nptr.data.dropWhile g_ascii_isspace
  let negative := s.head? == some '-'
  let s := if s.head? == some '-' || s.head? == some '+' then s.tail else s
  let v : Int := decimal_accumulate 0 (s.takeWhile g_ascii_isdigit)
  let l : Int := if negative then max (-v) (-LONG_MAX - 1) else min v LONG_MAX
  (l + 2147483648) % 4294967296 - 2147483648

/-- Modelled from the spec: `_nm_utils_ascii_str_to_int64 (str, 10, min, max,
fallback)` is the signed sibling of `_nm_utils_ascii_str_to_uint64`, in the
same library: a decimal number with an optional minus sign, which has to lie in
`[min, max]`; otherwise `fallback` is returned and `errno` set. The result is
the pair of the returned value and `errno`. -/
def _nm_utils_ascii_str_to_int64 (str : String) (min max fallback : Int) : Int × Nat :=
  let negative := str.data.head? == some '-'
  let digits := if negative then str.data.tail else str.data
  if digits = [] then (fallback, EINVAL)
  else if !digits.all g_ascii_isdigit then (fallback, EINVAL)
  else
    let v : Int := if negative then -(decimal_accumulate 0 digits : Int)
      else (decimal_accumulate 0 digits : Int)
    if v > LONG_MAX || v < -LONG_MAX - 1 then (fallback, ERANGE)
    else if v > max || v < min then (fallback, ERANGE)
    else (v, 0)

/-- The function `_atoi`; in a build with assertions the result is asserted
not to be negative. -/
def _atoi (value : String) : Int :=
  (_nm_utils_ascii_str_to_int64 value 0 G_MAXINT (-1)).1

/-- Modelled from the spec: the table behind `nm_utils_bond_mode_string_to_int`
and `nm_utils_bond_mode_int_to_string` (`nm-utils.c`, not among the sources):
the name of every bond mode and its decimal index, in the order of the indices
of the specification (§3.3): `balance-rr=0` .. `balance-alb=6`. -/
def bond_mode_table : List (String × String) :=
  [("balance-rr", "0"), ("active-backup", "1"), ("balance-xor", "2"), ("broadcast", "3"),
   ("802.3ad", "4"), ("balance-tlb", "5"), ("balance-alb", "6")]

/-- Modelled from the spec: `nm_utils_bond_mode_string_to_int` (`nm-utils.c`,
not among the sources). Following the specification (§4.B3, step 5, and §6)
the mode is given by its name or by its decimal index `0` .. `6`; the index of
the row is returned, and -1 for `NULL`, the empty string and anything else. -/
def nm_utils_bond_mode_string_to_int (mode : Option String) : Int :=
  match mode with
  | none => -1
  | some mode =>
    if mode.data = [] then -1
    else
      match bond_mode_table.findIdx? (fun row => row.1 == mode || row.2 == mode) with
      | some i => i
      | none => -1

/-- Modelled from the spec: `nm_utils_bond_mode_int_to_string` (`nm-utils.c`,
not among the sources): the name at the index, `NULL` outside the table. -/
def nm_utils_bond_mode_int_to_string (mode : Int) : Option String :=
  if 0 ≤ mode ∧ mode < bond_mode_table.length then
    (bond_mode_table[mode.toNat]?).map Prod.fst
  else none

/-- The enumeration `NMBondMode`. Its numeric values are declared in a header
that is not among the sources; the embedding does not use them. -/
inductive NMBondMode where
  | UNKNOWN
  | ROUNDROBIN
  | ACTIVEBACKUP
  | XOR
  | BROADCAST
  | MODE_8023AD
  | TLB
  | ALB
  deriving DecidableEq, Repr

/-- The lookup `_nm_setting_bond_mode_from_string` generated by
`NM_UTILS_STRING_TABLE_LOOKUP_DEFINE`. -/
def _nm_setting_bond_mode_from_string (name : Option String) : NMBondMode :=
  match name with
  | none => .UNKNOWN
  | some name =>
    if name == "802.3ad" then .MODE_8023AD
    else if name == "active-backup" then .ACTIVEBACKUP
    else if name == "balance-alb" then .ALB
    else if name == "balance-rr" then .ROUNDROBIN
    else if name == "balance-tlb" then .TLB
    else if name == "balance-xor" then .XOR
    else if name == "broadcast" then .BROADCAST
    else .UNKNOWN

/-- A `guint32` whose bits are indexed by the values of `NMBondMode` (asserted
to lie in 0 .. 31): the bond modes whose bit is set. Bits that belong to no
mode are never tested. -/
abbrev ModeMask : Type := NMBondMode → Bool

/-- The macro `BIT (x)`. -/
def BIT (x : NMBondMode) : ModeMask :=
  fun mode => mode == x

/-- The operator `|` on masks. -/
def mask_or (a b : ModeMask) : ModeMask :=
  fun mode => a mode || b mode

/-- The operator `~` on masks. -/
def mask_not (a : ModeMask) : ModeMask :=
  fun mode => !a mode

/-- The mask `0`. -/
def mask_zero : ModeMask :=
  fun _ => false

/-- The macro `NM_FLAGS_ANY (flags, BIT (mode))`: the only bit of the check is
the one of the mode. -/
def NM_FLAGS_ANY_BIT (flags : ModeMask) (mode : NMBondMode) : Bool :=
  flags mode

/-- The rows of the lookup table `_bond_option_unsupp_mode`, in source order. -/
def _bond_option_unsupp_mode_LIST : List (String × ModeMask) :=
  [ ( NM_SETTING_BOND_OPTION_ACTIVE_SLAVE,
      mask_not (mask_or (mask_or (BIT .ACTIVEBACKUP) (BIT .TLB)) (BIT .ALB))),
    ( NM_SETTING_BOND_OPTION_AD_ACTOR_SYS_PRIO, mask_not (BIT .MODE_8023AD)),
    ( NM_SETTING_BOND_OPTION_AD_ACTOR_SYSTEM, mask_not (BIT .MODE_8023AD)),
    ( NM_SETTING_BOND_OPTION_AD_USER_PORT_KEY, mask_not (BIT .MODE_8023AD)),
    ( NM_SETTING_BOND_OPTION_ARP_INTERVAL,
      mask_or (mask_or (BIT .MODE_8023AD) (BIT .TLB)) (BIT .ALB)),
    ( NM_SETTING_BOND_OPTION_ARP_IP_TARGET,
      mask_or (mask_or (BIT .MODE_8023AD) (BIT .TLB)) (BIT .ALB)),
    ( NM_SETTING_BOND_OPTION_ARP_VALIDATE,
      mask_or (mask_or (BIT .MODE_8023AD) (BIT .TLB)) (BIT .ALB)),
    ( NM_SETTING_BOND_OPTION_LACP_RATE, mask_not (BIT .MODE_8023AD)),
    ( NM_SETTING_BOND_OPTION_PACKETS_PER_SLAVE, mask_not (BIT .ROUNDROBIN)),
    ( NM_SETTING_BOND_OPTION_PRIMARY,
      mask_not (mask_or (mask_or (BIT .ACTIVEBACKUP) (BIT .TLB)) (BIT .ALB))),
    ( NM_SETTING_BOND_OPTION_TLB_DYNAMIC_LB, mask_not (BIT .TLB)) ]

/-- The lookup `_bond_option_unsupp_mode` generated by
`NM_UTILS_STRING_TABLE_LOOKUP_DEFINE`: the mask of the row with the name, 0 for
a name without a row. -/
def _bond_option_unsupp_mode (name : String) : ModeMask :=
  match _bond_option_unsupp_mode_LIST.find? (fun row => row.1 == name) with
  | some row => row.2
  | none => mask_zero

/-- The function `_nm_setting_bond_option_supported`. -/
def _nm_setting_bond_option_supported (option : String) (mode : NMBondMode) : Bool :=
  !NM_FLAGS_ANY_BIT (_bond_option_unsupp_mode option) mode

/-- The GLib function `g_strsplit (string, ",", -1)`: no token for the empty
string, otherwise the tokens between the commas, empty ones included. -/
def g_strsplit_comma (string : String) : List (List Char) :=
  if string.data = [] then [] else string.data.splitOn ','

/-- Modelled from the spec: the text of the error that
`nm_utils_ifname_valid_kernel` reports is not specified; the model names the
rule of the specification (§4.B2, `IFNAME`) that the name breaks. -/
def nm_utils_ifname_valid_kernel_message (name : String) : String :=
  if name.data = [] then "interface name is missing"
  else if name = "." || name = ".." then "interface name is reserved"
  else if ¬ (name.utf8ByteSize < IFNAMSIZ) then "interface name is too long"
  else "interface name contains an invalid character"

/-- The statements `value = g_hash_table_lookup (...); if (value) x = atoi
(value);` of `verify`, for a variable `x` initialised with `init`. -/
def atoi_if_set (value : Option String) (init : Int) : Int :=
  match value with
  | some value => atoi value
  | none => init

/-- The test `delayopt && _atoi (delayopt) > 0` of `verify`. -/
def delayopt_positive (delayopt : Option String) : Bool :=
  match delayopt with
  | some delayopt => decide (_atoi delayopt > 0)
  | none => false

/-- The first loop of `verify`, which runs when the index is not `NULL`: the
first entry of the index that fails the validator. -/
def first_invalid_option (cache : Option (List (String × String))) :
    Option (String × String) :=
  match cache with
  | some cache =>
    cache.find? (fun n : String × String => !nm_setting_bond_validate_option n.1 (some n.2))
  | none => none

/-- The end of `verify`, below the comment "errors above here should be always
fatal, below NORMALIZABLE_ERROR", for the stored mode `mode_orig` and its
canonical name `mode_new`. The result is `none` where C leaves the behaviour
undefined: the loop reads the index without testing it for `NULL`. -/
def verify_normalizable (priv : NMSettingBondPrivate) (mode_orig : String)
    (mode_new : Option String) : Option NMSettingVerifyResult :=
  if !(some mode_orig == mode_new) then
    some (.NORMALIZABLE (bond_options_error
      ("'" ++ NM_SETTING_BOND_OPTION_MODE ++ "' option should be string")))
  else
  match priv.options_idx_cache with
  | none => none
  | some cache =>
    match cache.find?
        (fun n : String × String => !_nm_setting_bond_option_supported n.1
          (_nm_setting_bond_mode_from_string mode_new)) with
    | some n =>
      some (.NORMALIZABLE (bond_options_error
        ("'" ++ n.1 ++ "' option is not valid with mode '" ++ printf_s mode_new ++ "'")))
    | none => some .SUCCESS

/-- The function `verify` after `_ensure_options_idx_cache`, for the private
state `priv` in which the index has been built. Every `return` of the C
function is an `.ERROR` (for `FALSE`), a `.NORMALIZABLE` or `.SUCCESS` (for
`TRUE`) here, in the same order, the last ones in `verify_normalizable`; the
variable `value` keeps the result of the last lookup, the one of
`num_unsol_na`. -/
def verify_checks (priv : NMSettingBondPrivate) (connection : Option NMConnection) :
    Option NMSettingVerifyResult :=
  match first_invalid_option priv.options_idx_cache with
  | some n =>
    some (.ERROR (bond_options_error
      ("invalid option '" ++ n.1 ++ "' or its value '" ++ n.2 ++ "'")))
  | none =>
  let miimon : Int := atoi_if_set (priv.options.lookup NM_SETTING_BOND_OPTION_MIIMON) 0
  let arp_interval : Int :=
    atoi_if_set (priv.options.lookup NM_SETTING_BOND_OPTION_ARP_INTERVAL) 0
  let num_grat_arp : Int :=
    atoi_if_set (priv.options.lookup NM_SETTING_BOND_OPTION_NUM_GRAT_ARP) (-1)
  let value := priv.options.lookup NM_SETTING_BOND_OPTION_NUM_UNSOL_NA
  let num_unsol_na : Int := atoi_if_set value (-1)
  if miimon > 0 && arp_interval > 0 then
    some (.ERROR (bond_options_error
      ("only one of '" ++ NM_SETTING_BOND_OPTION_MIIMON ++ "' and '"
        ++ NM_SETTING_BOND_OPTION_ARP_INTERVAL ++ "' can be set")))
  else
  match priv.options.lookup NM_SETTING_BOND_OPTION_MODE with
  | none =>
    some (.ERROR (bond_options_error
      ("mandatory option '" ++ NM_SETTING_BOND_OPTION_MODE ++ "' is missing")))
  | some mode_orig =>
  let mode := nm_utils_bond_mode_string_to_int (some mode_orig)
  if mode == -1 then
    some (.ERROR (bond_options_error
      ("'" ++ printf_s value ++ "' is not a valid value for '"
        ++ NM_SETTING_BOND_OPTION_MODE ++ "'")))
  else
  let mode_new := nm_utils_bond_mode_int_to_string mode
  if NM_IN_STRSET mode_new ["balance-alb", "balance-tlb"] && arp_interval > 0 then
    some (.ERROR (bond_options_error
      ("'" ++ NM_SETTING_BOND_OPTION_MODE ++ "=" ++ printf_s mode_new
        ++ "' is incompatible with '" ++ NM_SETTING_BOND_OPTION_ARP_INTERVAL ++ " > 0'")))
  else
  let primary := priv.options.lookup NM_SETTING_BOND_OPTION_PRIMARY
  let primary_error : Option GError :=
    if NM_IN_STRSET mode_new ["active-backup"] then
      match primary with
      | some primary =>
        if !nm_utils_ifname_valid_kernel primary then
          some (bond_options_error
            ("'" ++ primary ++ "' is not valid for the '" ++ NM_SETTING_BOND_OPTION_PRIMARY
              ++ "' option: " ++ nm_utils_ifname_valid_kernel_message primary))
        else none
      | none => none
    else
      match primary with
      | some _ =>
        some (bond_options_error
          ("'" ++ NM_SETTING_BOND_OPTION_PRIMARY ++ "' option is only valid for '"
            ++ NM_SETTING_BOND_OPTION_MODE ++ "=" ++ "active-backup" ++ "'"))
      | none => none
  match primary_error with
  | some error => some (.ERROR error)
  | none =>
  if (match connection with
      | some connection => connection.setting_infiniband
      | none => false) && !NM_IN_STRSET mode_new ["active-backup"] then
    some (.ERROR (bond_options_error
      ("'" ++ NM_SETTING_BOND_OPTION_MODE ++ "=" ++ printf_s mode_new
        ++ "' is not a valid configuration for '" ++ "infiniband" ++ "'")))
  else
  let delay_error : Option GError :=
    if miimon == 0 then
      if delayopt_positive (priv.options.lookup NM_SETTING_BOND_OPTION_UPDELAY) then
        some (bond_options_error
          ("'" ++ NM_SETTING_BOND_OPTION_UPDELAY ++ "' option requires '"
            ++ NM_SETTING_BOND_OPTION_MIIMON ++ "' option to be enabled"))
      else if delayopt_positive
          (priv.options.lookup NM_SETTING_BOND_OPTION_DOWNDELAY) then
        some (bond_options_error
          ("'" ++ NM_SETTING_BOND_OPTION_DOWNDELAY ++ "' option requires '"
            ++ NM_SETTING_BOND_OPTION_MIIMON ++ "' option to be enabled"))
      else none
    else none
  match delay_error with
  | some error => some (.ERROR error)
  | none =>
  let arp_ip_target := priv.options.lookup NM_SETTING_BOND_OPTION_ARP_IP_TARGET
  let arp_error : Option GError :=
    if arp_interval > 0 then
      match arp_ip_target with
      | none =>
        some (bond_options_error
          ("'" ++ NM_SETTING_BOND_OPTION_ARP_INTERVAL ++ "' option requires '"
            ++ NM_SETTING_BOND_OPTION_ARP_IP_TARGET ++ "' option to be set"))
      | some arp_ip_target =>
        if (g_strsplit_comma arp_ip_target).isEmpty then
          some (bond_options_error
            ("'" ++ NM_SETTING_BOND_OPTION_ARP_IP_TARGET ++ "' option is empty"))
        else
          match (g_strsplit_comma arp_ip_target).find? (fun addr => !inet_pton addr) with
          | some addr =>
            some (bond_options_error
              ("'" ++ NM_SETTING_BOND_OPTION_ARP_IP_TARGET
                ++ "' is not a valid IPv4 address for '" ++ String.mk addr ++ "' option"))
          | none => none
    else
      match arp_ip_target with
      | some _ =>
        some (bond_options_error
          ("'" ++ NM_SETTING_BOND_OPTION_ARP_IP_TARGET ++ "' option requires '"
            ++ NM_SETTING_BOND_OPTION_ARP_INTERVAL ++ "' option to be set"))
      | none => none
  match arp_error with
  | some error => some (.ERROR error)
  | none =>
  let lacp_rate := priv.options.lookup NM_SETTING_BOND_OPTION_LACP_RATE
  if lacp_rate.isSome && !(mode_new == some "802.3ad")
      && !NM_IN_STRSET lacp_rate ["0", "slow"] then
    some (.ERROR (bond_options_error
      ("'" ++ NM_SETTING_BOND_OPTION_LACP_RATE ++ "' option is only valid with mode '"
        ++ "802.3ad" ++ "'")))
  else
  if (num_grat_arp != -1 && num_unsol_na != -1) && num_grat_arp != num_unsol_na then
    some (.ERROR (bond_options_error
      ("'" ++ NM_SETTING_BOND_OPTION_NUM_GRAT_ARP ++ "' and '"
        ++ NM_SETTING_BOND_OPTION_NUM_UNSOL_NA ++ "' cannot have different values")))
  else
  match _nm_connection_verify_required_interface_name connection with
  | some error => some (.ERROR error)
  | none =>
  verify_normalizable priv mode_orig mode_new

/-- The function `verify`: its result and the private state it leaves, in
which the index has been built. -/
def verify (priv : NMSettingBondPrivate) (connection : Option NMConnection) :
    Option NMSettingVerifyResult × NMSettingBondPrivate :=
  (verify_checks (_ensure_options_idx_cache priv) connection, _ensure_options_idx_cache priv)

/-! ## The rules of the verifier, in the words of the specification -/

/-- The number stored under an option that holds a string of digits; 0 when
the option is absent ("missing ⇒ 0"). -/
def option_number (priv : NMSettingBondPrivate) (name : String) : Nat :=
  match priv.options.lookup name with
  | some v => decimal_value v
  | none => 0

/-- The canonical name of the stored mode, when the mode is stored and known. -/
def canonical_mode (priv : NMSettingBondPrivate) : Option String :=
  nm_utils_bond_mode_int_to_string
    (nm_utils_bond_mode_string_to_int (priv.options.lookup "mode"))

/-- The disjunction of the fatal rules of the specification (§4.B3, steps 1
to 12): true when at least one of them is broken. -/
def fatal_rules (priv : NMSettingBondPrivate) (connection : Option NMConnection) : Bool :=
  -- some stored pair fails the validator
  priv.options.entries.any (fun entry =>
      !nm_setting_bond_validate_option entry.1 (some entry.2))
  -- miimon > 0 and arp_interval > 0
  || (decide (0 < option_number priv "miimon")
      && decide (0 < option_number priv "arp_interval"))
  -- mode is absent
  || (priv.options.lookup "mode").isNone
  -- the mode is unknown
  || nm_utils_bond_mode_string_to_int (priv.options.lookup "mode") == -1
  -- mode is balance-tlb or balance-alb and arp_interval > 0
  || ((canonical_mode priv == some "balance-tlb" || canonical_mode priv == some "balance-alb")
      && decide (0 < option_number priv "arp_interval"))
  -- primary is stored and mode is not active-backup
  || ((priv.options.lookup "primary").isSome && canonical_mode priv != some "active-backup")
  -- the connection has an infiniband setting and mode is not active-backup
  || ((match connection with
        | some connection => connection.setting_infiniband
        | none => false) && canonical_mode priv != some "active-backup")
  -- miimon is absent or 0 and updelay > 0 or downdelay > 0
  || (option_number priv "miimon" == 0
      && (decide (0 < option_number priv "updelay")
        || decide (0 < option_number priv "downdelay")))
  -- arp_interval > 0 and arp_ip_target is absent
  || (decide (0 < option_number priv "arp_interval")
      && (priv.options.lookup "arp_ip_target").isNone)
  -- arp_interval is absent or 0 and arp_ip_target is stored
  || (option_number priv "arp_interval" == 0
      && (priv.options.lookup "arp_ip_target").isSome)
  -- lacp_rate is stored, mode is not 802.3ad, lacp_rate is neither slow nor 0
  || ((priv.options.lookup "lacp_rate").isSome && canonical_mode priv != some "802.3ad"
      && priv.options.lookup "lacp_rate" != some "slow"
      && priv.options.lookup "lacp_rate" != some "0")
  -- num_grat_arp and num_unsol_na are both stored with different numbers
  || ((priv.options.lookup "num_grat_arp").isSome && (priv.options.lookup "num_unsol_na").isSome
      && option_number priv "num_grat_arp" != option_number priv "num_unsol_na")

/-- The result is a fatal error (`FALSE`). -/
def NMSettingVerifyResult.is_fatal : Option NMSettingVerifyResult → Bool
  | some (.ERROR _) => true
  | _ => false

/-! ## The list of options and the indices of the modes -/

/-- The function `nm_setting_bond_get_valid_options`: the array
`valid_options_lst`, whatever the setting is. -/
def nm_setting_bond_get_valid_options (_setting : NMSettingBondPrivate) : List String :=
  valid_options_lst

/-- Modelled from the spec: the numeric values of the enumeration `NMBondMode`
are declared in a header that is not among the sources. The specification
(§3.3) fixes the indices of the seven modes, `balance-rr=0` ..
`balance-alb=6`; it gives no index to the unknown mode. -/
def NMBondMode.index : NMBondMode → Option Nat
  | .UNKNOWN => none
  | .ROUNDROBIN => some 0
  | .ACTIVEBACKUP => some 1
  | .XOR => some 2
  | .BROADCAST => some 3
  | .MODE_8023AD => some 4
  | .TLB => some 5
  | .ALB => some 6

/-! ## The assertions on the registry -/

/-- The function `_nm_assert_bond_meta`: the conjunction of its assertions, in
source order; it returns `TRUE` when none of them fails. The types `IP` and
`IFNAME` fall through to the assertions of `MAC`. -/
def _nm_assert_bond_meta (option_meta : OptionMeta) : Bool :=
  match option_meta.opt_type with
  | .BOTH =>
    option_meta.val.isSome
    && (match option_meta.list with
        | none => false
        | some list =>
          !list.isEmpty
          && option_meta.min == 0
          && option_meta.max == list.length - 1
          && (match option_meta.val with
              | some val => list.contains val
              | none => false))
  | .INT =>
    (match option_meta.val with
     | none => false
     | some val =>
       option_meta.list.isNone
       && decide (option_meta.min < option_meta.max)
       && NM_STRCHAR_ALL val g_ascii_isdigit
       && (_nm_utils_ascii_str_to_uint64 val option_meta.min option_meta.max 0).2 == 0)
  | .IP | .IFNAME =>
    option_meta.val.isSome
    && option_meta.list.isNone && option_meta.min == 0 && option_meta.max == 0
  | .MAC => option_meta.list.isNone && option_meta.min == 0 && option_meta.max == 0

/-! ## The calls that reach the index -/

/-- A call of one of the functions of the setting that write or read the
index: the two mutators, the property setter, `nm_setting_bond_get_option`
and `verify`. -/
inductive SettingCall where
  | add_option (name : String) (value : Option String)
  | remove_option (name : String)
  | set_property (value : GHashTable)
  | get_option (idx : Nat)
  | verify (connection : Option NMConnection)

/-- The state a call leaves, its return value dropped. -/
def SettingCall.run (priv : NMSettingBondPrivate) : SettingCall → NMSettingBondPrivate
  | .add_option name value => (nm_setting_bond_add_option priv name value).2
  | .remove_option name => (nm_setting_bond_remove_option priv name).2
  | .set_property value => NMBond.set_property priv value
  | .get_option idx => (nm_setting_bond_get_option priv idx).2
  | .verify connection => (NMBond.verify priv connection).2

/-- The setting after a sequence of calls on a freshly constructed one. -/
def run_setting_calls (calls : List SettingCall) : NMSettingBondPrivate :=
  calls.foldl SettingCall.run nm_setting_bond_init

/-- An implementation of `get_option` without the index, in the words of the
specification (§4.B4): the pair at `idx` of the sorted view, which is computed
from the options at every call. -/
def get_option_uncached (priv : NMSettingBondPrivate) (idx : Nat) : Option (String × String) :=
  match nm_utils_named_values_from_str_dict_with_sort priv.options _get_option_sort with
  | some view => view[idx]?
  | none => none

/-- An iteration: the calls of `nm_setting_bond_get_option` at the given
indices, one after the other on the state that the call before left; the
results of the calls and the state after the last one. -/
def get_option_sequence (priv : NMSettingBondPrivate) :
    List Nat → List (Option (String × String)) × NMSettingBondPrivate
  | [] => ([], priv)
  | idx :: rest =>
    ((nm_setting_bond_get_option priv idx).1
        :: (get_option_sequence (nm_setting_bond_get_option priv idx).2 rest).1,
      (get_option_sequence (nm_setting_bond_get_option priv idx).2 rest).2)

/-! ## The culling of unsupported options -/

/-- The setting obtained by deleting every stored option that
`_nm_setting_bond_option_supported` rejects for the mode, and changing nothing
else; the deletions drop the index, as `nm_setting_bond_remove_option` does.
This is the healing step that the specification (§4.B3, §7) leaves to the
caller of `verify`. -/
def cull_unsupported_options (priv : NMSettingBondPrivate) (mode : NMBondMode) :
    NMSettingBondPrivate :=
  { options :=
      priv.options.keys.foldl
        (fun options name =>
          if _nm_setting_bond_option_supported name mode then options else options.erase name)
        priv.options,
    options_idx_cache := none }

end NMBond

/-! # Wi-Fi connection completer of NetworkManager (`src/tests/test-wifi-ap-utils.c`)

The completer `nm_ap_utils_complete_connection` is called by the tests of
`src/tests/test-wifi-ap-utils.c`; its own file, `nm-wifi-ap-utils.c`, and the
headers of the settings are not among the sources. The embedding follows the
specification (§3.4, §3.5, §4.W2) and, where the specification says nothing,
the outcomes that the tests expect.
-/

namespace NMWifi

/-! ## Data model -/

/-- The type `GByteArray`: a sequence of bytes. -/
abbrev GByteArray : Type := List Nat

/-- The bytes of a C string, as the tests build an SSID with
`g_byte_array_append (tmp, (const guint8 *) ssid, strlen (ssid))`. -/
def g_byte_array_from_string (s : String) : GByteArray :=
  s.data.map Char.toNat

/-- Modelled from the spec: the enumeration `NM80211Mode` is declared in a
header that is not among the sources; the specification (§3.4) knows the modes
`infrastructure` and `adhoc`, for which the tests write `NM_802_11_MODE_INFRA`
and `NM_802_11_MODE_ADHOC`. -/
inductive NM80211Mode where
  | NM_802_11_MODE_INFRA
  | NM_802_11_MODE_ADHOC
  deriving DecidableEq, Repr

/-- Modelled from the spec: the bits of the security flags of an access point,
declared in a header that is not among the sources (specification §3.4:
`pair_wep40` .. `keymgmt_802_1x`). -/
inductive NM80211ApSecurityFlags where
  | NM_802_11_AP_SEC_PAIR_WEP40
  | NM_802_11_AP_SEC_PAIR_WEP104
  | NM_802_11_AP_SEC_PAIR_TKIP
  | NM_802_11_AP_SEC_PAIR_CCMP
  | NM_802_11_AP_SEC_GROUP_WEP40
  | NM_802_11_AP_SEC_GROUP_WEP104
  | NM_802_11_AP_SEC_GROUP_TKIP
  | NM_802_11_AP_SEC_GROUP_CCMP
  | NM_802_11_AP_SEC_KEY_MGMT_PSK
  | NM_802_11_AP_SEC_KEY_MGMT_802_1X
  deriving DecidableEq, Repr

/-- The value `NM_802_11_AP_SEC_NONE`: no bit is set. A set of flags is the
list of its bits. -/
def NM_802_11_AP_SEC_NONE : List NM80211ApSecurityFlags := []

/-- The value `WPA_PSK_CAPS` of the tests:
`NM_802_11_AP_SEC_PAIR_TKIP | NM_802_11_AP_SEC_KEY_MGMT_PSK`. -/
def WPA_PSK_CAPS : List NM80211ApSecurityFlags :=
  [.NM_802_11_AP_SEC_PAIR_TKIP, .NM_802_11_AP_SEC_KEY_MGMT_PSK]

/-- Modelled from the spec: the capability descriptor of an access point
(§3.4), whose fields the tests pass to the completer one by one (`ssid`,
`bssid`, `mode`, `flags`, `wpa_flags`, `rsn_flags`); `privacy` is the bit
`NM_802_11_AP_FLAGS_PRIVACY` of `flags`. -/
structure NMAccessPoint where
  ssid : GByteArray
  bssid : Option GByteArray
  mode : NM80211Mode
  privacy : Bool
  wpa_flags : List NM80211ApSecurityFlags
  rsn_flags : List NM80211ApSecurityFlags
  deriving DecidableEq, Repr

/-- Modelled from the spec: the setting `802-11-wireless`
(`nm-setting-wireless.h`, not among the sources) with the properties that the
completer writes: `ssid`, `bssid` and `mode` (§4.W2, preamble) and `security`,
which the tests expect to name the security setting when the access point is
not open. -/
structure NMSettingWireless where
  ssid : Option GByteArray := none
  bssid : Option GByteArray := none
  mode : Option String := none
  security : Option String := none
  deriving DecidableEq, Repr

/-- Modelled from the spec: the setting `802-11-wireless-security`
(`nm-setting-wireless-security.h`, not among the sources) with the keys that
the completer consumes (§3.5): `key-mgmt`, `auth-alg`, `leap-username`, `psk`
and the ordered sets `proto`, `pairwise` and `group`. The other keys of the
setting (the WEP keys among them) are not consumed and are left out. -/
structure NMSettingWirelessSecurity where
  key_mgmt : Option String := none
  auth_alg : Option String := none
  leap_username : Option String := none
  psk : Option String := none
  proto : List String := []
  pairwise : List String := []
  group : List String := []
  deriving DecidableEq, Repr

/-- Modelled from the spec: the setting `802-1x` (`nm-setting-8021x.h`, not
among the sources) with the properties that the tests set: the EAP methods,
`identity` and `phase2-auth`. -/
structure NMSetting8021x where
  eap : List String := []
  identity : Option String := none
  phase2_auth : Option String := none
  deriving DecidableEq, Repr

/-- Modelled from the spec: a connection (§3.1) as far as the completer reads
and writes it: at most one setting of each of the groups `802-11-wireless`,
`802-11-wireless-security` and `802-1x`. -/
structure NMConnection where
  s_wifi : Option NMSettingWireless := none
  s_wsec : Option NMSettingWirelessSecurity := none
  s_8021x : Option NMSetting8021x := none
  deriving DecidableEq, Repr

/-- The errors that the tests expect of the completer, each named by its error
code; the first two belong to the domain `NM_SETTING_WIRELESS_SECURITY_ERROR`,
the third to `NM_SETTING_802_1X_ERROR` (specification §4.W2:
`WirelessSecurityInvalidProperty`, `WirelessSecurityLeapRequiresUsername`,
`EapMissingProperty`). -/
inductive NMWifiError where
  | NM_SETTING_WIRELESS_SECURITY_ERROR_INVALID_PROPERTY
  | NM_SETTING_WIRELESS_SECURITY_ERROR_LEAP_REQUIRES_USERNAME
  | NM_SETTING_802_1X_ERROR_MISSING_PROPERTY
  deriving DecidableEq, Repr

deriving instance DecidableEq for Except

/-- The name `NM_SETTING_WIRELESS_SECURITY_SETTING_NAME` of the security
setting (§3.1). -/
def NM_SETTING_WIRELESS_SECURITY_SETTING_NAME : String := "802-11-wireless-security"

/-- The mode of the wireless setting for the mode of an access point, as
`create_basic` of the tests writes it: "infrastructure" or "adhoc". -/
def NM80211Mode.name : NM80211Mode → String
  | .NM_802_11_MODE_INFRA => "infrastructure"
  | .NM_802_11_MODE_ADHOC => "adhoc"

/-- The function `create_basic` of the tests: a connection with a wireless
setting only. -/
def create_basic (ssid : GByteArray) (bssid : Option GByteArray) (mode : NM80211Mode)
    (set_security : Bool) : NMConnection :=
  { s_wifi := some
      { ssid := some ssid
        bssid := bssid
        mode := some mode.name
        security :=
          if set_security then some NM_SETTING_WIRELESS_SECURITY_SETTING_NAME else none } }

/-! ## The completer -/

/-- The predicate `has_wpa` of the specification (§3.4): `wpa_flags ≠ ∅`. -/
def has_wpa (ap : NMAccessPoint) : Bool :=
  !ap.wpa_flags.isEmpty

/-- The predicate `has_rsn` of the specification (§3.4): `rsn_flags ≠ ∅`. -/
def has_rsn (ap : NMAccessPoint) : Bool :=
  !ap.rsn_flags.isEmpty

/-- The predicate `is_wpa_capable` of the specification (§3.4). -/
def is_wpa_capable (ap : NMAccessPoint) : Bool :=
  has_wpa ap || has_rsn ap

/-- The classes of access points of the specification (§4.W2, "Classify AP"). -/
inductive APClass where
  | OPEN
  | WEP_OR_LEAP_OR_DYNWEP
  | WPA
  deriving DecidableEq, Repr

/-- Modelled from the spec: the classification of an access point (§4.W2):
`OPEN` is `¬privacy ∧ ¬is_wpa_capable`, `WEP_OR_LEAP_OR_DYNWEP` is
`privacy ∧ ¬is_wpa_capable`, `WPA` is `is_wpa_capable`. -/
def classify (ap : NMAccessPoint) : APClass :=
  if is_wpa_capable ap then .WPA
  else if ap.privacy then .WEP_OR_LEAP_OR_DYNWEP
  else .OPEN

/-- Modelled from the spec: the verification of the 802.1X setting that the
completer asks for (`nm-setting-8021x.c`, not among the sources). The
specification names one failure, `EapMissingProperty` for an empty block
(§4.W2), which the tests expect of a setting without an EAP method; it does
not list the methods, so that any method counts as a valid one. -/
def nm_setting_802_1x_verify (s_8021x : NMSetting8021x) : Option NMWifiError :=
  if s_8021x.eap.isEmpty then some .NM_SETTING_802_1X_ERROR_MISSING_PROPERTY
  else none

/-- Modelled from the spec: the rules of a privacy-only access point for
`key-mgmt = ieee8021x`, "LEAP or Dynamic WEP" (§4.W2). With a `leap-username`
the setting is LEAP: an 802.1X setting must be absent and `auth-alg` is forced
to `leap`. Without one it is Dynamic WEP: `auth-alg = leap` without an 802.1X
setting fails with `LEAP_REQUIRES_USERNAME`; `auth-alg` must be `open` (an
unset one passes, as in `test_priv_ap_wpa_eap_connection_1`; `shared` is
rejected); the 802.1X setting must be present and pass its verification; then
`pairwise` and `group` become `wep40, wep104`. -/
def complete_leap_or_dynamic_wep (s_wsec : NMSettingWirelessSecurity)
    (s_8021x : Option NMSetting8021x) : Except NMWifiError NMSettingWirelessSecurity :=
  match s_wsec.leap_username with
  | some _ =>
    match s_8021x with
    | some _ => .error .NM_SETTING_WIRELESS_SECURITY_ERROR_INVALID_PROPERTY
    | none => .ok { s_wsec with key_mgmt := some "ieee8021x", auth_alg := some "leap" }
  | none =>
    if s_wsec.auth_alg == some "leap" && s_8021x.isNone then
      .error .NM_SETTING_WIRELESS_SECURITY_ERROR_LEAP_REQUIRES_USERNAME
    else if !(s_wsec.auth_alg == none || s_wsec.auth_alg == some "open") then
      .error .NM_SETTING_WIRELESS_SECURITY_ERROR_INVALID_PROPERTY
    else
      match s_8021x with
      | none => .error .NM_SETTING_WIRELESS_SECURITY_ERROR_INVALID_PROPERTY
      | some s_8021x =>
        match nm_setting_802_1x_verify s_8021x with
        | some error => .error error
        | none =>
          .ok { s_wsec with
                key_mgmt := some "ieee8021x"
                auth_alg := some "open"
                pairwise := ["wep40", "wep104"]
                group := ["wep40", "wep104"] }

/-- Modelled from the spec: the rules of a privacy-only access point (§4.W2).
Without a security setting one with `key-mgmt = none` is made. With one, the
rules dispatch on `key-mgmt`: `none` passes through, `ieee8021x` is LEAP or
Dynamic WEP, `wpa-psk` and `wpa-eap` are rejected, and so is any other value.
The specification says nothing of an unset `key-mgmt`; the model reads each of
its rules on the intent of the setting, as the tests expect: with a
`leap-username`, an 802.1X setting or `auth-alg = leap` the setting is treated
as `ieee8021x` (`test_priv_ap_dynamic_wep_2`, `_3`,
`test_priv_ap_wpa_eap_connection_1` .. `_4`); otherwise a `psk` asks for
WPA-PSK and is rejected (`test_priv_ap_wpa_psk_connection_1` .. `_4`);
otherwise the setting is static WEP and gets `key-mgmt = none`. -/
def complete_privacy_only (s_wsec : Option NMSettingWirelessSecurity)
    (s_8021x : Option NMSetting8021x) : Except NMWifiError NMSettingWirelessSecurity :=
  match s_wsec with
  | none => .ok { key_mgmt := some "none" }
  | some s_wsec =>
    match s_wsec.key_mgmt with
    | some key_mgmt =>
      if key_mgmt == "none" then .ok s_wsec
      else if key_mgmt == "ieee8021x" then complete_leap_or_dynamic_wep s_wsec s_8021x
      else .error .NM_SETTING_WIRELESS_SECURITY_ERROR_INVALID_PROPERTY
    | none =>
      if s_wsec.leap_username.isSome || s_8021x.isSome || s_wsec.auth_alg == some "leap" then
        complete_leap_or_dynamic_wep s_wsec s_8021x
      else if s_wsec.psk.isSome then
        .error .NM_SETTING_WIRELESS_SECURITY_ERROR_INVALID_PROPERTY
      else .ok { s_wsec with key_mgmt := some "none" }

/-- Modelled from the spec: the rules of a WPA-capable access point for
`key-mgmt = wpa-eap` (§4.W2): the 802.1X setting is required and must pass its
verification; `auth-alg` becomes `open`. -/
def complete_wpa_eap (s_wsec : NMSettingWirelessSecurity) (s_8021x : Option NMSetting8021x) :
    Except NMWifiError NMSettingWirelessSecurity :=
  match s_8021x with
  | none => .error .NM_SETTING_WIRELESS_SECURITY_ERROR_INVALID_PROPERTY
  | some s_8021x =>
    match nm_setting_802_1x_verify s_8021x with
    | some error => .error error
    | none => .ok { s_wsec with key_mgmt := some "wpa-eap", auth_alg := some "open" }

/-- Modelled from the spec: the rules of a WPA-capable access point for
`key-mgmt = wpa-psk` (§4.W2): "For `wpa-psk`, a PSK is required"; `auth-alg`
becomes `open`. The specification names no error for the missing PSK; of the
errors it lists for the completer (§4.W2, §7) the model returns the one of the
security setting that is not about LEAP,
`NM_SETTING_WIRELESS_SECURITY_ERROR_INVALID_PROPERTY`. -/
def complete_wpa_psk (s_wsec : NMSettingWirelessSecurity) :
    Except NMWifiError NMSettingWirelessSecurity :=
  if s_wsec.psk.isNone then .error .NM_SETTING_WIRELESS_SECURITY_ERROR_INVALID_PROPERTY
  else .ok { s_wsec with key_mgmt := some "wpa-psk", auth_alg := some "open" }

/-- Modelled from the spec: the rules of a WPA-capable access point (§4.W2).
Without a security setting one with `key-mgmt = wpa-psk` and `auth-alg = open`
is made (`test_wpa_ap_empty_connection`; it has no `psk`). A setting that
implies LEAP (a `leap-username`), Dynamic WEP or static WEP (`key-mgmt`
`ieee8021x` or `none`) is rejected, and so is an `auth-alg` other than `open`
(`shared`, `leap`); an unset `auth-alg` is set to `open`. A `key-mgmt` that is
set must be `wpa-psk`, for which a PSK is required, or `wpa-eap`, for which the
802.1X setting is required; an unset one is taken as `wpa-eap` with an 802.1X
setting and as `wpa-psk` without one (`test_wpa_ap_wpa_psk_connection_1`). -/
def complete_wpa (s_wsec : Option NMSettingWirelessSecurity)
    (s_8021x : Option NMSetting8021x) : Except NMWifiError NMSettingWirelessSecurity :=
  match s_wsec with
  | none => .ok { key_mgmt := some "wpa-psk", auth_alg := some "open" }
  | some s_wsec =>
    if s_wsec.leap_username.isSome || s_wsec.key_mgmt == some "ieee8021x"
        || s_wsec.key_mgmt == some "none" then
      .error .NM_SETTING_WIRELESS_SECURITY_ERROR_INVALID_PROPERTY
    else if !(s_wsec.auth_alg == none || s_wsec.auth_alg == some "open") then
      .error .NM_SETTING_WIRELESS_SECURITY_ERROR_INVALID_PROPERTY
    else
      match s_wsec.key_mgmt with
      | some key_mgmt =>
        if key_mgmt == "wpa-psk" then complete_wpa_psk s_wsec
        else if key_mgmt == "wpa-eap" then complete_wpa_eap s_wsec s_8021x
        else .error .NM_SETTING_WIRELESS_SECURITY_ERROR_INVALID_PROPERTY
      | none =>
        if s_8021x.isSome then complete_wpa_eap s_wsec s_8021x
        else complete_wpa_psk s_wsec

/-- Modelled from the spec: the preamble of the completer (§4.W2): the
wireless setting of the connection, a new one when there is none, with `ssid`
set to the SSID of the access point, `bssid` set to its BSSID when
`lock_bssid` holds and unset otherwise, and `mode` set from its mode. -/
def complete_wireless (ap : NMAccessPoint) (connection : NMConnection) (lock_bssid : Bool) :
    NMSettingWireless :=
  { connection.s_wifi.getD {} with
    ssid := some ap.ssid
    bssid := if lock_bssid then ap.bssid else none
    mode := some ap.mode.name }

/-- Modelled from the spec: the completer `nm_ap_utils_complete_connection`
(`nm-wifi-ap-utils.c`, not among the sources; the tests call it), which is
`complete(ap, lock_bssid, conn)` of the specification (§4.W2): the completed
connection, or the error. After the preamble the access point is classified.
For an open one a security setting or an 802.1X setting in the connection is
an error, and the result is the wireless setting alone. For the other classes
the rules of the class give the security setting, the property `security` of
the wireless setting names it, and the 802.1X setting stays as it is. -/
def nm_ap_utils_complete_connection (ap : NMAccessPoint) (connection : NMConnection)
    (lock_bssid : Bool) : Except NMWifiError NMConnection :=
  let s_wifi := complete_wireless ap connection lock_bssid
  match classify ap with
  | .OPEN =>
    if connection.s_wsec.isSome || connection.s_8021x.isSome then
      .error .NM_SETTING_WIRELESS_SECURITY_ERROR_INVALID_PROPERTY
    else .ok { s_wifi := some { s_wifi with security := none } }
  | .WEP_OR_LEAP_OR_DYNWEP =>
    match complete_privacy_only connection.s_wsec connection.s_8021x with
    | .error error => .error error
    | .ok s_wsec =>
      .ok { s_wifi :=
              some { s_wifi with security := some NM_SETTING_WIRELESS_SECURITY_SETTING_NAME }
            s_wsec := some s_wsec
            s_8021x := connection.s_8021x }
  | .WPA =>
    match complete_wpa connection.s_wsec connection.s_8021x with
    | .error error => .error error
    | .ok s_wsec =>
      .ok { s_wifi :=
              some { s_wifi with security := some NM_SETTING_WIRELESS_SECURITY_SETTING_NAME }
            s_wsec := some s_wsec
            s_8021x := connection.s_8021x }

/-! ## The tests -/

/-- Modelled from the spec: the flags of an access point (`NM80211ApFlags`,
declared in a header that is not among the sources); the tests and the
specification (§3.4) use the privacy bit only. -/
inductive NM80211ApFlags where
  | NM_802_11_AP_FLAGS_PRIVACY
  deriving DecidableEq, Repr

/-- The value `NM_802_11_AP_FLAGS_NONE`: no bit is set. -/
def NM_802_11_AP_FLAGS_NONE : List NM80211ApFlags := []

/-- The value `NM_802_11_AP_FLAGS_PRIVACY` as a set of flags. -/
def NM_802_11_AP_FLAGS_PRIVACY : List NM80211ApFlags := [.NM_802_11_AP_FLAGS_PRIVACY]

/-- The function `complete_connection` of the tests: the completer called
with the bytes of `ssid` and the fields of the access point. -/
def complete_connection (ssid : String) (bssid : GByteArray) (mode : NM80211Mode)
    (flags : List NM80211ApFlags) (wpa_flags rsn_flags : List NM80211ApSecurityFlags)
    (lock_bssid : Bool) (src : NMConnection) : Except NMWifiError NMConnection :=
  nm_ap_utils_complete_connection
    { ssid := g_byte_array_from_string ssid
      bssid := some bssid
      mode := mode
      privacy := flags.contains .NM_802_11_AP_FLAGS_PRIVACY
      wpa_flags := wpa_flags
      rsn_flags := rsn_flags }
    src lock_bssid

/-- The BSSID `01:02:03:04:05:06` of the tests. -/
def test_bssid : GByteArray := [0x01, 0x02, 0x03, 0x04, 0x05, 0x06]

end NMWifi

/-! # Properties -/

namespace NMBond

/-! ## Facts about the registry -/

theorem get_option_meta_mem {name : String} {option_meta : OptionMeta}
    (h : _get_option_meta name = some option_meta) :
    (name, option_meta) ∈ _get_option_meta_LIST := by
  unfold _get_option_meta at h
  rw [Option.map_eq_some'] at h
  obtain ⟨row, hrow, hsnd⟩ := h
  have hkey := List.find?_some hrow
  have hmem := List.mem_of_find?_eq_some hrow
  have : row = (name, option_meta) := by
    cases row
    simp at hkey hsnd
    simp [hkey, hsnd]
  rw [← this]; exact hmem

theorem registry_rows_sound :
    ∀ row ∈ _get_option_meta_LIST, row.1 ∈ valid_options_lst ∧ row.2.max ≤ G_MAXUINT64 := by
  decide

theorem registry_names_found :
    ∀ name ∈ valid_options_lst, (_get_option_meta name).isSome = true := by
  decide

/-- The keys of the lookup table increase strictly in byte order, as the
bisection of the generated lookup requires; they are pairwise distinct. -/
theorem registry_keys_sorted :
    (_get_option_meta_LIST.map (fun row => row.1.data)).Pairwise (· < ·) := by
  decide

/-- The lookup table and the list of valid options know the same names. -/
theorem get_option_meta_isSome_iff (name : String) :
    (_get_option_meta name).isSome = true ↔ name ∈ valid_options_lst := by
  constructor
  · intro h
    obtain ⟨option_meta, hm⟩ := Option.isSome_iff_exists.mp h
    exact (registry_rows_sound _ (get_option_meta_mem hm)).1
  · exact registry_names_found name

/-- Name-only validation succeeds exactly on the names of the registry. -/
theorem validate_option_none_iff (name : String) :
    nm_setting_bond_validate_option name none = true ↔ name ∈ valid_options_lst := by
  rw [← get_option_meta_isSome_iff]
  unfold nm_setting_bond_validate_option
  cases _get_option_meta name <;> simp

/-- Claim C1. `nm_setting_bond_validate_option` rejects every name outside the
27 names of the registry whatever the value is, an absent value included, and
accepts every name of the registry when the value is absent. -/
theorem validate_option_unknown_name_and_absent_value (name : String) :
    (valid_options_lst.length = 27 ∧ valid_options_lst.Nodup) ∧
    (name ∉ valid_options_lst →
      ∀ value : Option String, nm_setting_bond_validate_option name value = false) ∧
    (name ∈ valid_options_lst → nm_setting_bond_validate_option name none = true) := by
  refine ⟨⟨by decide, by decide⟩, ?_, (validate_option_none_iff name).mpr⟩
  intro hname value
  have hnone : _get_option_meta name = none := by
    cases h : _get_option_meta name with
    | none => rfl
    | some option_meta =>
      exact absurd ((get_option_meta_isSome_iff name).mp (by simp [h])) hname
  simp [nm_setting_bond_validate_option, hnone]

/-! ## Integer values -/

theorem decimal_accumulate_eq (acc : Nat) (l : List Char) :
    decimal_accumulate acc l
      = acc * 10 ^ l.length + Nat.ofDigits 10 (l.reverse.map digit_value) := by
  induction l generalizing acc with
  | nil =>
    show acc = acc * 10 ^ 0 + Nat.ofDigits 10 []
    rw [Nat.ofDigits_nil]; omega
  | cons ch rest ih =>
    show decimal_accumulate (acc * 10 + digit_value ch) rest = _
    rw [ih, List.reverse_cons, List.map_append, Nat.ofDigits_append]
    simp only [List.map_cons, List.map_nil, Nat.ofDigits_singleton, List.length_map,
      List.length_reverse, List.length_cons]
    ring

theorem decimal_accumulate_zero (v : String) :
    decimal_accumulate 0 v.data = decimal_value v := by
  rw [decimal_accumulate_eq, decimal_value]; simp

theorem all_isdigit_iff (l : List Char) :
    l.all g_ascii_isdigit = true ↔ ∀ ch ∈ l, '0' ≤ ch ∧ ch ≤ '9' := by
  simp [List.all_eq_true, g_ascii_isdigit]

theorem string_ne_empty_iff (v : String) : v ≠ "" ↔ v.data ≠ [] := by
  constructor
  · intro h hd
    apply h
    cases v
    simp_all
  · intro h hv
    apply h
    rw [hv]

/-- What `validate_int` accepts, for bounds that fit 64 bits. -/
theorem validate_int_iff (name v : String) (option_meta : OptionMeta)
    (hmax : option_meta.max ≤ G_MAXUINT64) :
    validate_int name v option_meta = true ↔
      v ≠ "" ∧ (∀ ch ∈ v.data, '0' ≤ ch ∧ ch ≤ '9') ∧
        option_meta.min ≤ decimal_value v ∧ decimal_value v ≤ option_meta.max := by
  rw [string_ne_empty_iff, ← all_isdigit_iff, ← decimal_accumulate_zero]
  unfold validate_int NM_STRCHAR_ALL _nm_utils_ascii_str_to_uint64
  by_cases hd : v.data.all g_ascii_isdigit = true
  · by_cases he : v.data = []
    · simp [hd, he, EINVAL, G_MAXUINT64]
    · by_cases hover : decimal_accumulate 0 v.data > G_MAXUINT64
      · have : ¬ decimal_accumulate 0 v.data ≤ option_meta.max := by omega
        simp [hd, he, hover, this, ERANGE]
      · by_cases hhi : decimal_accumulate 0 v.data > option_meta.max
        · have : ¬ decimal_accumulate 0 v.data ≤ option_meta.max := by omega
          simp [hd, he, hover, hhi, this, ERANGE]
        · by_cases hlo : decimal_accumulate 0 v.data < option_meta.min
          · have : ¬ option_meta.min ≤ decimal_accumulate 0 v.data := by omega
            simp [hd, he, hover, hhi, hlo, this, ERANGE]
          · have h1 : option_meta.min ≤ decimal_accumulate 0 v.data := by omega
            have h2 : decimal_accumulate 0 v.data ≤ option_meta.max := by omega
            simp [hd, he, hover, hhi, hlo, h1, h2]
  · simp [hd]

/-- Claim C2. For an option of kind `INT` the validator accepts a value exactly
when it is a non-empty string of the digits `0` .. `9` whose decimal value lies
between the `min` and the `max` of the registry, both bounds included. -/
theorem validate_option_int (name : String) (option_meta : OptionMeta) (v : String)
    (hmeta : _get_option_meta name = some option_meta)
    (hkind : option_meta.opt_type = NMBondOptionType.INT) :
    nm_setting_bond_validate_option name (some v) = true ↔
      v ≠ "" ∧ (∀ ch ∈ v.data, '0' ≤ ch ∧ ch ≤ '9') ∧
        option_meta.min ≤ decimal_value v ∧ decimal_value v ≤ option_meta.max := by
  rw [← validate_int_iff name v option_meta (registry_rows_sound _ (get_option_meta_mem hmeta)).2]
  simp [nm_setting_bond_validate_option, hmeta, hkind]

/-- The witnesses of C2: for `ad_actor_sys_prio`, whose bounds are 1 and 65535,
the values `1` and `65535` are accepted and `0`, `65536`, the empty string and
`+5` are rejected. -/
theorem validate_option_int_witness :
    _get_option_meta "ad_actor_sys_prio"
        = some { val := some "65535", opt_type := .INT, min := 1, max := 65535 } ∧
      nm_setting_bond_validate_option "ad_actor_sys_prio" (some "1") = true ∧
      nm_setting_bond_validate_option "ad_actor_sys_prio" (some "65535") = true ∧
      nm_setting_bond_validate_option "ad_actor_sys_prio" (some "0") = false ∧
      nm_setting_bond_validate_option "ad_actor_sys_prio" (some "65536") = false ∧
      nm_setting_bond_validate_option "ad_actor_sys_prio" (some "") = false ∧
      nm_setting_bond_validate_option "ad_actor_sys_prio" (some "+5") = false := by
  have hmeta : _get_option_meta "ad_actor_sys_prio"
      = some { val := some "65535", opt_type := .INT, min := 1, max := 65535 } := by decide
  refine ⟨hmeta, ?_, ?_, ?_, ?_, ?_, ?_⟩
  · exact (validate_option_int _ _ "1" hmeta rfl).mpr
      ⟨by decide, by decide, by decide, by decide⟩
  · exact (validate_option_int _ _ "65535" hmeta rfl).mpr
      ⟨by decide, by decide, by decide, by decide⟩
  · exact Bool.eq_false_iff.mpr fun h =>
      absurd ((validate_option_int _ _ "0" hmeta rfl).mp h).2.2.1 (by decide)
  · exact Bool.eq_false_iff.mpr fun h =>
      absurd ((validate_option_int _ _ "65536" hmeta rfl).mp h).2.2.2 (by decide)
  · exact Bool.eq_false_iff.mpr fun h =>
      absurd ((validate_option_int _ _ "" hmeta rfl).mp h).1 (by decide)
  · exact Bool.eq_false_iff.mpr fun h =>
      absurd ((validate_option_int _ _ "+5" hmeta rfl).mp h).2.1 (by decide)

/-! ## Values that are an integer or a literal -/

theorem registry_both_rows :
    ∀ row ∈ _get_option_meta_LIST, row.2.opt_type = NMBondOptionType.BOTH →
      ∃ list, row.2.list = some list ∧ row.2.min = 0 ∧ row.2.max = list.length - 1 := by
  decide

theorem validate_list_iff (name v : String) (option_meta : OptionMeta) (list : List String)
    (hlist : option_meta.list = some list) :
    validate_list name v option_meta = true ↔ v ∈ list := by
  unfold validate_list
  rw [hlist]
  simp

/-- Claim C3. For an option of kind `INT_OR_LIST` (`NM_BOND_OPTION_TYPE_BOTH`)
the registry holds a list of literals, and the validator accepts a value
exactly when it is one of the literals or a non-empty string of digits whose
decimal value is at most the number of literals minus one. -/
theorem validate_option_int_or_list (name : String) (option_meta : OptionMeta) (v : String)
    (hmeta : _get_option_meta name = some option_meta)
    (hkind : option_meta.opt_type = NMBondOptionType.BOTH) :
    ∃ list, option_meta.list = some list ∧
      (nm_setting_bond_validate_option name (some v) = true ↔
        v ∈ list ∨
          (v ≠ "" ∧ (∀ ch ∈ v.data, '0' ≤ ch ∧ ch ≤ '9') ∧
            decimal_value v ≤ list.length - 1)) := by
  have hrow := get_option_meta_mem hmeta
  obtain ⟨list, hlist, hmin, hmax⟩ := registry_both_rows _ hrow hkind
  refine ⟨list, hlist, ?_⟩
  have hval : nm_setting_bond_validate_option name (some v)
      = (validate_int name v option_meta || validate_list name v option_meta) := by
    simp [nm_setting_bond_validate_option, hmeta, hkind]
  rw [hval, Bool.or_eq_true, validate_list_iff name v option_meta list hlist,
    validate_int_iff name v option_meta (registry_rows_sound _ hrow).2]
  have hmin0 : option_meta.min = 0 := hmin
  have hmax0 : option_meta.max = list.length - 1 := hmax
  rw [hmin0, hmax0]
  constructor
  · rintro (⟨h1, h2, _, h4⟩ | h)
    · exact Or.inr ⟨h1, h2, h4⟩
    · exact Or.inl h
  · rintro (h | ⟨h1, h2, h4⟩)
    · exact Or.inr h
    · exact Or.inl ⟨h1, h2, Nat.zero_le _, h4⟩

/-- The witnesses of C3: for `mode` the literals are the 7 canonical names, so
that exactly these and the digit strings denoting 0 .. 6 are accepted; `7` is
rejected. -/
theorem validate_option_int_or_list_witness :
    _get_option_meta "mode"
        = some { val := some "balance-rr", opt_type := .BOTH, min := 0, max := 6,
                 list := some ["balance-rr", "active-backup", "balance-xor", "broadcast",
                   "802.3ad", "balance-tlb", "balance-alb"] } ∧
      (∀ v : String, nm_setting_bond_validate_option "mode" (some v) = true ↔
        v ∈ ["balance-rr", "active-backup", "balance-xor", "broadcast", "802.3ad",
            "balance-tlb", "balance-alb"] ∨
          (v ≠ "" ∧ (∀ ch ∈ v.data, '0' ≤ ch ∧ ch ≤ '9') ∧ decimal_value v ≤ 6)) ∧
      nm_setting_bond_validate_option "mode" (some "7") = false ∧
      nm_setting_bond_validate_option "mode" (some "6") = true ∧
      nm_setting_bond_validate_option "mode" (some "0") = true ∧
      nm_setting_bond_validate_option "mode" (some "balance-alb") = true := by
  have hmeta : _get_option_meta "mode"
      = some { val := some "balance-rr", opt_type := .BOTH, min := 0, max := 6,
               list := some ["balance-rr", "active-backup", "balance-xor", "broadcast",
                 "802.3ad", "balance-tlb", "balance-alb"] } := by decide
  refine ⟨hmeta, ?_, by decide, by decide, by decide, by decide⟩
  intro v
  obtain ⟨list, hlist, hiff⟩ := validate_option_int_or_list "mode" _ v hmeta rfl
  cases hlist
  exact hiff

/-! ## Lists of IPv4 addresses -/

theorem strchr_none {l : List Char} {c : Char} (h : strchr l c = none) :
    l.splitOn c = [l] := by
  induction l with
  | nil => rfl
  | cons ch rest ih =>
    unfold strchr at h
    by_cases hc : (ch == c) = true
    · simp [hc] at h
    · simp only [hc, Bool.false_eq_true, if_false, Option.map_eq_none'] at h
      have hrest := ih h
      unfold List.splitOn at hrest ⊢
      rw [List.splitOnP_cons, if_neg hc, hrest]
      rfl

theorem strchr_some {l : List Char} {c : Char} {eow : Nat} (h : strchr l c = some eow) :
    eow < l.length ∧ l.splitOn c = l.take eow :: (l.drop (eow + 1)).splitOn c := by
  induction l generalizing eow with
  | nil => simp [strchr] at h
  | cons ch rest ih =>
    unfold strchr at h
    by_cases hc : (ch == c) = true
    · simp only [hc, if_true, Option.some.injEq] at h
      subst h
      refine ⟨by simp, ?_⟩
      unfold List.splitOn
      rw [List.splitOnP_cons, if_pos hc]
      rfl
    · simp only [hc, Bool.false_eq_true, if_false, Option.map_eq_some'] at h
      obtain ⟨j, hj, rfl⟩ := h
      obtain ⟨hlt, hsplit⟩ := ih hj
      refine ⟨by simp; omega, ?_⟩
      unfold List.splitOn at hsplit ⊢
      rw [List.splitOnP_cons, if_neg hc, hsplit]
      rfl

/-- With enough fuel the loop of `validate_ip` checks every word between
commas. -/
theorem validate_ip_loop_eq (fuel : Nat) (value : List Char) (hfuel : value.length < fuel) :
    validate_ip_loop fuel value = (value.splitOn ',').all inet_pton := by
  induction fuel generalizing value with
  | zero => omega
  | succ fuel ih =>
    unfold validate_ip_loop
    cases h : strchr value ',' with
    | none => simp [strchr_none h]
    | some eow =>
      obtain ⟨hlt, hsplit⟩ := strchr_some h
      have hdrop : (value.drop (eow + 1)).length < fuel := by
        rw [List.length_drop]; omega
      simp only [hsplit, List.all_cons, ih _ hdrop]
      cases inet_pton (List.take eow value) <;> simp

/-- Claim C4. The validator accepts a value of `arp_ip_target` exactly when it is
not empty and every word obtained by splitting it at each comma, empty words
kept, is an IPv4 address for `inet_pton`. A trailing, a leading or a doubled
comma is therefore rejected, and a list of two addresses is accepted. -/
theorem validate_option_arp_ip_target :
    (∀ v : String, nm_setting_bond_validate_option "arp_ip_target" (some v) = true ↔
      v ≠ "" ∧ ∀ word ∈ v.data.splitOn ',', inet_pton word = true) ∧
    nm_setting_bond_validate_option "arp_ip_target" (some "192.168.1.1,") = false ∧
    nm_setting_bond_validate_option "arp_ip_target" (some ",192.168.1.1") = false ∧
    nm_setting_bond_validate_option "arp_ip_target" (some "1.1.1.1,,2.2.2.2") = false ∧
    nm_setting_bond_validate_option "arp_ip_target" (some "192.168.1.1,10.0.0.1") = true ∧
    ("1.1.1.1,,2.2.2.2" : String).data.splitOn ','
      = ["1.1.1.1".data, "".data, "2.2.2.2".data] := by
  refine ⟨?_, by decide, by decide, by decide, by decide, by decide⟩
  intro v
  have hmeta : _get_option_meta "arp_ip_target"
      = some { val := some "", opt_type := .IP } := by decide
  have hval : nm_setting_bond_validate_option "arp_ip_target" (some v)
      = validate_ip "arp_ip_target" (some v) := by
    simp [nm_setting_bond_validate_option, hmeta]
  rw [hval, string_ne_empty_iff]
  unfold validate_ip
  by_cases he : v.data = []
  · simp [he]
  · simp [he, validate_ip_loop_eq]

/-! ## The option store: invariant and frame -/

theorem lookup_erase_some {s : GHashTable} {a n v : String}
    (h : (s.erase a).lookup n = some v) : s.lookup n = some v := by
  by_cases hn : n = a
  · subst hn
    rw [AList.lookup_erase] at h
    cases h
  · rwa [AList.lookup_erase_ne hn] at h

theorem lookup_insert_some {s : GHashTable} {a b n v : String}
    (h : (s.insert a b).lookup n = some v) : (n = a ∧ v = b) ∨ s.lookup n = some v := by
  by_cases hn : n = a
  · subst hn
    rw [AList.lookup_insert] at h
    exact Or.inl ⟨rfl, (Option.some.inj h).symm⟩
  · rw [AList.lookup_insert_ne hn] at h
    exact Or.inr h

theorem add_option_pairs_valid (priv : NMSettingBondPrivate) (name : String)
    (value : Option String) (hinv : pairs_valid priv) :
    pairs_valid (nm_setting_bond_add_option priv name value).2 := by
  unfold nm_setting_bond_add_option
  cases value with
  | none => exact hinv
  | some value =>
    by_cases hvalid : nm_setting_bond_validate_option name (some value) = true
    · have hins : ∀ n v : String, (priv.options.insert name value).lookup n = some v →
          nm_setting_bond_validate_option n (some v) = true := by
        intro n v h
        rcases lookup_insert_some h with ⟨rfl, rfl⟩ | h
        · exact hvalid
        · exact hinv n v h
      intro n v h
      simp only [hvalid, Bool.not_true, Bool.false_eq_true, if_false] at h
      split_ifs at h
      · exact hins n v (lookup_erase_some (lookup_erase_some h))
      · exact hins n v h
      · exact hins n v (lookup_erase_some (lookup_erase_some (lookup_erase_some h)))
      · exact hins n v h
      · exact hins n v h
    · simpa [hvalid] using hinv

theorem remove_option_pairs_valid (priv : NMSettingBondPrivate) (name : String)
    (hinv : pairs_valid priv) :
    pairs_valid (nm_setting_bond_remove_option priv name).2 := by
  unfold nm_setting_bond_remove_option
  split_ifs
  · exact hinv
  · intro n v h
    exact hinv n v (lookup_erase_some h)

theorem init_pairs_valid : pairs_valid nm_setting_bond_init := by
  apply add_option_pairs_valid
  intro n v h
  rw [AList.lookup_empty] at h
  cases h

theorem foldl_pairs_valid (calls : List StoreCall) (priv : NMSettingBondPrivate)
    (hinv : pairs_valid priv) : pairs_valid (calls.foldl StoreCall.run priv) := by
  induction calls generalizing priv with
  | nil => exact hinv
  | cons call calls ih =>
    apply ih
    cases call with
    | add_option name value => exact add_option_pairs_valid priv name value hinv
    | remove_option name => exact remove_option_pairs_valid priv name hinv

/-- Claim C5. Store validity invariant: in the setting that any sequence of
`add_option` and `remove_option` calls leaves of a freshly constructed one,
every stored pair passes `nm_setting_bond_validate_option`. -/
theorem store_pairs_valid (calls : List StoreCall) (n v : String)
    (hstored : (run_calls calls).options.lookup n = some v) :
    nm_setting_bond_validate_option n (some v) = true :=
  foldl_pairs_valid calls nm_setting_bond_init init_pairs_valid n v hstored

/-- A witness of C5: after adding `arp_interval`, then `miimon`, and removing
`mode`, the pair stored under `miimon` is valid. -/
theorem store_pairs_valid_witness :
    (run_calls [.add_option "arp_interval" (some "5"), .add_option "miimon" (some "100"),
        .add_option "bogus" (some "1"), .remove_option "mode"]).options.lookup "miimon"
      = some "100" ∧
    nm_setting_bond_validate_option "miimon" (some "100") = true :=
  ⟨by decide,
    store_pairs_valid
      [.add_option "arp_interval" (some "5"), .add_option "miimon" (some "100"),
        .add_option "bogus" (some "1"), .remove_option "mode"]
      "miimon" "100" (by decide)⟩

theorem lookup_erase_ite (s : GHashTable) (a k : String) :
    (s.erase a).lookup k = if k = a then none else s.lookup k := by
  by_cases h : k = a
  · subst h
    simp [AList.lookup_erase]
  · simp [h, AList.lookup_erase_ne h]

theorem lookup_insert_ite (s : GHashTable) (a b k : String) :
    (s.insert a b).lookup k = if k = a then some b else s.lookup k := by
  by_cases h : k = a
  · subst h
    simp [AList.lookup_insert]
  · simp [h, AList.lookup_insert_ne h]

/-- The return value of `add_option`: it succeeds exactly on a present value
that passes the validator. -/
theorem add_option_fst (priv : NMSettingBondPrivate) (name : String) (value : Option String) :
    (nm_setting_bond_add_option priv name value).1
      = (value.isSome && nm_setting_bond_validate_option name value) := by
  unfold nm_setting_bond_add_option
  cases value with
  | none => rfl
  | some v =>
    cases h : nm_setting_bond_validate_option name (some v) <;> simp [h]

/-- The options a successful `add_option` leaves, key by key. -/
theorem add_option_lookup (priv : NMSettingBondPrivate) (name v k : String)
    (hvalid : nm_setting_bond_validate_option name (some v) = true) :
    (nm_setting_bond_add_option priv name (some v)).2.options.lookup k =
      if k = name then some v
      else if (name = "miimon" ∧ v ≠ "0" ∧ (k = "arp_interval" ∨ k = "arp_ip_target")) ∨
          (name = "arp_interval" ∧ v ≠ "0" ∧
            (k = "miimon" ∨ k = "downdelay" ∨ k = "updelay")) then none
      else priv.options.lookup k := by
  unfold nm_setting_bond_add_option
  simp only [hvalid, Bool.not_true, Bool.false_eq_true, if_false, beq_iff_eq, bne_iff_ne, ne_eq,
    ite_not, NM_SETTING_BOND_OPTION_MIIMON, NM_SETTING_BOND_OPTION_ARP_INTERVAL,
    NM_SETTING_BOND_OPTION_ARP_IP_TARGET, NM_SETTING_BOND_OPTION_DOWNDELAY,
    NM_SETTING_BOND_OPTION_UPDELAY]
  by_cases h1 : name = "miimon"
  · subst h1
    by_cases h0 : v = "0"
    · subst h0
      simp [lookup_insert_ite]
    · simp only [h0, if_true, if_false, lookup_erase_ite, lookup_insert_ite]
      by_cases ha : k = "arp_interval"
      · subst ha; simp
      · by_cases hb : k = "arp_ip_target"
        · subst hb; simp
        · simp [ha, hb]
  · by_cases h2 : name = "arp_interval"
    · subst h2
      by_cases h0 : v = "0"
      · subst h0
        simp [lookup_insert_ite]
      · simp only [h0, h1, if_true, if_false, lookup_erase_ite, lookup_insert_ite]
        by_cases ha : k = "miimon"
        · subst ha; simp
        · by_cases hb : k = "downdelay"
          · subst hb; simp
          · by_cases hc : k = "updelay"
            · subst hc; simp
            · simp [ha, hb, hc]
    · simp [h1, h2, lookup_insert_ite]

/-- For a name of the registry `nm_setting_bond_get_option_by_name` is the
lookup in the hash table; for any other name it is `NULL`. -/
theorem get_option_by_name_eq (priv : NMSettingBondPrivate) (name : String) :
    nm_setting_bond_get_option_by_name priv name
      = if name ∈ valid_options_lst then priv.options.lookup name else none := by
  unfold nm_setting_bond_get_option_by_name
  by_cases h : name ∈ valid_options_lst
  · simp [h, (validate_option_none_iff name).mpr h]
  · have : nm_setting_bond_validate_option name none = false :=
      Bool.eq_false_iff.mpr fun hv => h ((validate_option_none_iff name).mp hv)
    simp [h, this]

theorem add_option_valid_of_success {priv : NMSettingBondPrivate} {name v : String}
    (hadd : (nm_setting_bond_add_option priv name (some v)).1 = true) :
    nm_setting_bond_validate_option name (some v) = true := by
  rw [add_option_fst] at hadd
  simpa using hadd

/-- Claim C6. When `add_option` stores a value other than `0` under `miimon`,
the options `arp_interval` and `arp_ip_target` are absent afterwards and
`miimon` has the new value. -/
theorem add_option_miimon_removes_arp (priv : NMSettingBondPrivate) (v : String)
    (hv : v ≠ "0")
    (hadd : (nm_setting_bond_add_option priv "miimon" (some v)).1 = true) :
    nm_setting_bond_get_option_by_name
        (nm_setting_bond_add_option priv "miimon" (some v)).2 "arp_interval" = none ∧
      nm_setting_bond_get_option_by_name
        (nm_setting_bond_add_option priv "miimon" (some v)).2 "arp_ip_target" = none ∧
      nm_setting_bond_get_option_by_name
        (nm_setting_bond_add_option priv "miimon" (some v)).2 "miimon" = some v := by
  have hvalid := add_option_valid_of_success hadd
  simp only [get_option_by_name_eq, add_option_lookup priv "miimon" v _ hvalid]
  refine ⟨?_, ?_, ?_⟩
  · simp [hv]
  · simp [hv]
  · rw [if_pos (by decide)]; simp

/-- A witness of C6: a setting holding `arp_interval` and `arp_ip_target`, to
which `miimon=100` is added. -/
theorem add_option_miimon_removes_arp_witness :
    nm_setting_bond_get_option_by_name
        (run_calls [.add_option "arp_interval" (some "5"),
          .add_option "arp_ip_target" (some "10.0.0.1")]) "arp_interval" = some "5" ∧
    nm_setting_bond_get_option_by_name
        (run_calls [.add_option "arp_interval" (some "5"),
          .add_option "arp_ip_target" (some "10.0.0.1")]) "arp_ip_target" = some "10.0.0.1" ∧
    (nm_setting_bond_get_option_by_name
        (nm_setting_bond_add_option
          (run_calls [.add_option "arp_interval" (some "5"),
            .add_option "arp_ip_target" (some "10.0.0.1")])
          "miimon" (some "100")).2 "arp_interval" = none ∧
      nm_setting_bond_get_option_by_name
        (nm_setting_bond_add_option
          (run_calls [.add_option "arp_interval" (some "5"),
            .add_option "arp_ip_target" (some "10.0.0.1")])
          "miimon" (some "100")).2 "arp_ip_target" = none ∧
      nm_setting_bond_get_option_by_name
        (nm_setting_bond_add_option
          (run_calls [.add_option "arp_interval" (some "5"),
            .add_option "arp_ip_target" (some "10.0.0.1")])
          "miimon" (some "100")).2 "miimon" = some "100") :=
  ⟨by decide, by decide,
    add_option_miimon_removes_arp
      (run_calls [.add_option "arp_interval" (some "5"),
        .add_option "arp_ip_target" (some "10.0.0.1")])
      "100" (by decide) (by decide)⟩

/-- Claim C7. When `add_option` stores a value other than `0` under
`arp_interval`, the options `miimon`, `downdelay` and `updelay` are absent
afterwards and `arp_interval` has the new value. -/
theorem add_option_arp_interval_removes_miimon (priv : NMSettingBondPrivate) (v : String)
    (hv : v ≠ "0")
    (hadd : (nm_setting_bond_add_option priv "arp_interval" (some v)).1 = true) :
    nm_setting_bond_get_option_by_name
        (nm_setting_bond_add_option priv "arp_interval" (some v)).2 "miimon" = none ∧
      nm_setting_bond_get_option_by_name
        (nm_setting_bond_add_option priv "arp_interval" (some v)).2 "downdelay" = none ∧
      nm_setting_bond_get_option_by_name
        (nm_setting_bond_add_option priv "arp_interval" (some v)).2 "updelay" = none ∧
      nm_setting_bond_get_option_by_name
        (nm_setting_bond_add_option priv "arp_interval" (some v)).2 "arp_interval" = some v := by
  have hvalid := add_option_valid_of_success hadd
  simp only [get_option_by_name_eq, add_option_lookup priv "arp_interval" v _ hvalid]
  refine ⟨?_, ?_, ?_, ?_⟩
  · simp [hv]
  · simp [hv]
  · simp [hv]
  · rw [if_pos (by decide)]; simp

/-- A witness of C7: a setting holding `miimon`, `downdelay` and `updelay`, to
which `arp_interval=200` is added. -/
theorem add_option_arp_interval_removes_miimon_witness :
    nm_setting_bond_get_option_by_name
        (run_calls [.add_option "miimon" (some "100"), .add_option "downdelay" (some "7"),
          .add_option "updelay" (some "9")]) "miimon" = some "100" ∧
    nm_setting_bond_get_option_by_name
        (run_calls [.add_option "miimon" (some "100"), .add_option "downdelay" (some "7"),
          .add_option "updelay" (some "9")]) "downdelay" = some "7" ∧
    nm_setting_bond_get_option_by_name
        (run_calls [.add_option "miimon" (some "100"), .add_option "downdelay" (some "7"),
          .add_option "updelay" (some "9")]) "updelay" = some "9" ∧
    (nm_setting_bond_get_option_by_name
        (nm_setting_bond_add_option
          (run_calls [.add_option "miimon" (some "100"), .add_option "downdelay" (some "7"),
            .add_option "updelay" (some "9")])
          "arp_interval" (some "200")).2 "miimon" = none ∧
      nm_setting_bond_get_option_by_name
        (nm_setting_bond_add_option
          (run_calls [.add_option "miimon" (some "100"), .add_option "downdelay" (some "7"),
            .add_option "updelay" (some "9")])
          "arp_interval" (some "200")).2 "downdelay" = none ∧
      nm_setting_bond_get_option_by_name
        (nm_setting_bond_add_option
          (run_calls [.add_option "miimon" (some "100"), .add_option "downdelay" (some "7"),
            .add_option "updelay" (some "9")])
          "arp_interval" (some "200")).2 "updelay" = none ∧
      nm_setting_bond_get_option_by_name
        (nm_setting_bond_add_option
          (run_calls [.add_option "miimon" (some "100"), .add_option "downdelay" (some "7"),
            .add_option "updelay" (some "9")])
          "arp_interval" (some "200")).2 "arp_interval" = some "200") :=
  ⟨by decide, by decide, by decide,
    add_option_arp_interval_removes_miimon
      (run_calls [.add_option "miimon" (some "100"), .add_option "downdelay" (some "7"),
        .add_option "updelay" (some "9")])
      "200" (by decide) (by decide)⟩

/-- Claim C8. `add_option` returns false exactly when the value is absent or the
pair fails the validator, and it then leaves the setting, its options map
included, as it was. An absent value is rejected for every name, also for the
names of the registry, for which the validator accepts it. -/
theorem add_option_rejects_atomically (priv : NMSettingBondPrivate) (name : String)
    (value : Option String) :
    ((nm_setting_bond_add_option priv name value).1 = false ↔
      value = none ∨ nm_setting_bond_validate_option name value = false) ∧
    ((nm_setting_bond_add_option priv name value).1 = false →
      (nm_setting_bond_add_option priv name value).2 = priv ∧
        (nm_setting_bond_add_option priv name value).2.options = priv.options) ∧
    (nm_setting_bond_add_option priv name none).1 = false ∧
    (name ∈ valid_options_lst → nm_setting_bond_validate_option name none = true) := by
  refine ⟨?_, ?_, rfl, (validate_option_none_iff name).mpr⟩
  · rw [add_option_fst]
    cases value with
    | none => simp
    | some v => simp
  · intro h
    have hstate : (nm_setting_bond_add_option priv name value).2 = priv := by
      rw [add_option_fst] at h
      unfold nm_setting_bond_add_option
      cases value with
      | none => rfl
      | some v =>
        have hv : nm_setting_bond_validate_option name (some v) = false := by simpa using h
        simp [hv]
    exact ⟨hstate, by rw [hstate]⟩

/-- Claim C9. Frame of a successful `add_option`: afterwards the name has the new
value; `arp_interval` and `arp_ip_target` are absent when the name is `miimon`
and the value is not `0`; `miimon`, `downdelay` and `updelay` are absent when
the name is `arp_interval` and the value is not `0`; every other key is as it
was before. -/
theorem add_option_frame (priv : NMSettingBondPrivate) (name value : String)
    (hadd : (nm_setting_bond_add_option priv name (some value)).1 = true) :
    nm_setting_bond_get_option_by_name
        (nm_setting_bond_add_option priv name (some value)).2 name = some value ∧
    ∀ k : String,
      (nm_setting_bond_add_option priv name (some value)).2.options.lookup k =
        if k = name then some value
        else if (name = "miimon" ∧ value ≠ "0" ∧ (k = "arp_interval" ∨ k = "arp_ip_target")) ∨
            (name = "arp_interval" ∧ value ≠ "0" ∧
              (k = "miimon" ∨ k = "downdelay" ∨ k = "updelay")) then none
        else priv.options.lookup k := by
  have hvalid := add_option_valid_of_success hadd
  refine ⟨?_, fun k => add_option_lookup priv name value k hvalid⟩
  have hname : name ∈ valid_options_lst := by
    rw [← get_option_meta_isSome_iff]
    unfold nm_setting_bond_validate_option at hvalid
    cases h : _get_option_meta name with
    | none => simp [h] at hvalid
    | some option_meta => rfl
  rw [get_option_by_name_eq, if_pos hname, add_option_lookup priv name value name hvalid,
    if_pos rfl]

/-- A witness of C9: `miimon=100` added to a setting holding `mode`,
`arp_interval` and `arp_ip_target`: the two ARP options go, `mode` stays. -/
theorem add_option_frame_witness :
    (nm_setting_bond_add_option
        (run_calls [.add_option "arp_interval" (some "5"),
          .add_option "arp_ip_target" (some "10.0.0.1")])
        "miimon" (some "100")).1 = true ∧
    (nm_setting_bond_add_option
        (run_calls [.add_option "arp_interval" (some "5"),
          .add_option "arp_ip_target" (some "10.0.0.1")])
        "miimon" (some "100")).2.options.lookup "mode" = some "balance-rr" ∧
    (nm_setting_bond_add_option
        (run_calls [.add_option "arp_interval" (some "5"),
          .add_option "arp_ip_target" (some "10.0.0.1")])
        "miimon" (some "100")).2.options.lookup "arp_interval" = none ∧
    nm_setting_bond_get_option_by_name
        (nm_setting_bond_add_option
          (run_calls [.add_option "arp_interval" (some "5"),
            .add_option "arp_ip_target" (some "10.0.0.1")])
          "miimon" (some "100")).2 "miimon" = some "100" :=
  ⟨by decide, by decide, by decide,
    (add_option_frame
      (run_calls [.add_option "arp_interval" (some "5"),
        .add_option "arp_ip_target" (some "10.0.0.1")])
      "miimon" "100" (by decide)).1⟩

theorem erase_of_lookup_none {s : GHashTable} {a : String} (h : s.lookup a = none) :
    s.erase a = s := by
  apply AList.ext
  rw [AList.lookup_eq_none, AList.mem_keys] at h
  exact List.kerase_of_not_mem_keys h

/-- Claim C10. `remove_option` returns true exactly when the name is a name of
the registry under which a value is stored; afterwards the name has no value
and every other key is as it was before; when it returns false the options map
is unchanged. -/
theorem remove_option_spec (priv : NMSettingBondPrivate) (name : String) :
    ((nm_setting_bond_remove_option priv name).1 = true ↔
      name ∈ valid_options_lst ∧ ∃ v, priv.options.lookup name = some v) ∧
    nm_setting_bond_get_option_by_name (nm_setting_bond_remove_option priv name).2 name
      = none ∧
    ((nm_setting_bond_remove_option priv name).1 = true →
      (nm_setting_bond_remove_option priv name).2.options.lookup name = none) ∧
    (∀ k : String, k ≠ name →
      (nm_setting_bond_remove_option priv name).2.options.lookup k
        = priv.options.lookup k) ∧
    ((nm_setting_bond_remove_option priv name).1 = false →
      (nm_setting_bond_remove_option priv name).2.options = priv.options) := by
  by_cases hname : name ∈ valid_options_lst
  · have hv : nm_setting_bond_validate_option name none = true :=
      (validate_option_none_iff name).mpr hname
    have hrun : nm_setting_bond_remove_option priv name
        = ((priv.options.lookup name).isSome,
            { options := priv.options.erase name, options_idx_cache := none }) := by
      simp [nm_setting_bond_remove_option, hv]
    rw [hrun, get_option_by_name_eq, if_pos hname]
    refine ⟨?_, AList.lookup_erase _ _, fun _ => AList.lookup_erase _ _,
      fun k hk => AList.lookup_erase_ne hk, ?_⟩
    · simp [hname, Option.isSome_iff_exists]
    · intro h
      have hnone : priv.options.lookup name = none := by
        cases hl : priv.options.lookup name with
        | none => rfl
        | some v => simp [hl] at h
      exact erase_of_lookup_none hnone
  · have hv : nm_setting_bond_validate_option name none = false :=
      Bool.eq_false_iff.mpr fun h => hname ((validate_option_none_iff name).mp h)
    have hrun : nm_setting_bond_remove_option priv name = (false, priv) := by
      simp [nm_setting_bond_remove_option, hv]
    rw [hrun, get_option_by_name_eq, if_neg hname]
    refine ⟨?_, rfl, ?_, fun _ _ => rfl, fun _ => rfl⟩
    · simp [hname]
    · intro h; cases h

/-! ## Defaults -/

/-- Claim C12. For a name of the registry other than `ad_actor_system` the
default is the `val` of the registry, whatever the setting is; for
`ad_actor_system` it is `00:00:00:00:00:00` exactly when the stored mode is
`802.3ad` or `4`, and the empty string otherwise, also when no mode is
stored. -/
theorem get_option_default_spec (priv : NMSettingBondPrivate) :
    (∀ (name : String) (option_meta : OptionMeta), _get_option_meta name = some option_meta →
      name ≠ "ad_actor_system" →
        nm_setting_bond_get_option_default priv name = option_meta.val) ∧
    (nm_setting_bond_get_option_default priv "ad_actor_system" = some "00:00:00:00:00:00" ↔
      priv.options.lookup "mode" = some "802.3ad" ∨ priv.options.lookup "mode" = some "4") ∧
    (¬ (priv.options.lookup "mode" = some "802.3ad" ∨ priv.options.lookup "mode" = some "4") →
      nm_setting_bond_get_option_default priv "ad_actor_system" = some "") ∧
    (priv.options.lookup "mode" = none →
      nm_setting_bond_get_option_default priv "ad_actor_system" = some "") := by
  have hmac : _get_option_meta "ad_actor_system"
      = some { val := none, opt_type := .MAC } := by decide
  have hmode : nm_setting_bond_get_option_by_name priv NM_SETTING_BOND_OPTION_MODE
      = priv.options.lookup "mode" := by
    rw [get_option_by_name_eq, if_pos (by decide)]
  have hdef : nm_setting_bond_get_option_default priv "ad_actor_system"
      = if NM_IN_STRSET (priv.options.lookup "mode") ["4", "802.3ad"] then
          some "00:00:00:00:00:00" else some "" := by
    unfold nm_setting_bond_get_option_default
    rw [hmac, hmode]
    rfl
  have hset : NM_IN_STRSET (priv.options.lookup "mode") ["4", "802.3ad"] = true ↔
      priv.options.lookup "mode" = some "802.3ad" ∨ priv.options.lookup "mode" = some "4" := by
    unfold NM_IN_STRSET
    cases priv.options.lookup "mode" with
    | none => simp
    | some m => simp [or_comm]
  refine ⟨?_, ?_, ?_, ?_⟩
  · intro name option_meta hmeta hname
    unfold nm_setting_bond_get_option_default
    rw [hmeta]
    simp [hname]
  · rw [hdef, ← hset]
    cases NM_IN_STRSET (priv.options.lookup "mode") ["4", "802.3ad"] <;> simp
  · intro h
    rw [← hset] at h
    rw [hdef]
    simp [h]
  · intro h
    rw [hdef, h]
    rfl

/-! ## The order of iteration -/

theorem strcmp_self (a : List Char) : strcmp a a = 0 := by
  induction a with
  | nil => rfl
  | cons x xs ih => simp [strcmp, ih]

theorem strcmp_cases (a b : List Char) :
    strcmp a b = -1 ∨ strcmp a b = 0 ∨ strcmp a b = 1 := by
  induction a generalizing b with
  | nil => cases b <;> simp [strcmp]
  | cons x xs ih =>
    cases b with
    | nil => simp [strcmp]
    | cons y ys =>
      unfold strcmp
      split_ifs
      · simp
      · simp
      · exact ih ys

theorem strcmp_eq_zero {a b : List Char} (h : strcmp a b = 0) : a = b := by
  induction a generalizing b with
  | nil =>
    cases b with
    | nil => rfl
    | cons y ys => simp [strcmp] at h
  | cons x xs ih =>
    cases b with
    | nil => simp [strcmp] at h
    | cons y ys =>
      unfold strcmp at h
      split_ifs at h with h1 h2
      · simp at h
      · have hxy : x = y := le_antisymm (not_lt.mp h2) (not_lt.mp h1)
        rw [hxy, ih h]

theorem strcmp_swap (a b : List Char) : strcmp b a = - strcmp a b := by
  induction a generalizing b with
  | nil => cases b <;> simp [strcmp]
  | cons x xs ih =>
    cases b with
    | nil => simp [strcmp]
    | cons y ys =>
      unfold strcmp
      by_cases h1 : x < y
      · simp [h1, lt_asymm h1]
      · by_cases h2 : y < x
        · simp [h1, h2]
        · simp [h1, h2, ih ys]

theorem strcmp_le_trans {a b c : List Char} (hab : strcmp a b ≤ 0) (hbc : strcmp b c ≤ 0) :
    strcmp a c ≤ 0 := by
  induction a generalizing b c with
  | nil => cases c <;> simp [strcmp]
  | cons x xs ih =>
    cases b with
    | nil => simp [strcmp] at hab
    | cons y ys =>
      cases c with
      | nil => simp [strcmp] at hbc
      | cons z zs =>
        unfold strcmp at hab hbc ⊢
        by_cases hxy : x < y
        · by_cases hyz : y < z
          · simp [lt_trans hxy hyz]
          · by_cases hzy : z < y
            · simp [hyz, hzy] at hbc
            · have : y = z := le_antisymm (not_lt.mp hzy) (not_lt.mp hyz)
              subst this
              simp [hxy]
        · by_cases hyx : y < x
          · simp [hxy, hyx] at hab
          · have : x = y := le_antisymm (not_lt.mp hyx) (not_lt.mp hxy)
            subst this
            by_cases hxz : x < z
            · simp [hxz]
            · by_cases hzx : z < x
              · simp [hxz, hzx] at hbc
              · simp only [hxy, hxz, hzx, if_false] at hab hbc ⊢
                exact ih hab hbc

/-- When `_get_option_sort` puts a name not behind another one: the name is
`mode`, or neither is and `strcmp` does not put it behind. -/
theorem get_option_sort_le_iff (a b : String) :
    _get_option_sort a b ≤ 0 ↔
      a = "mode" ∨ (b ≠ "mode" ∧ strcmp a.data b.data ≤ 0) := by
  unfold _get_option_sort
  simp only [NM_SETTING_BOND_OPTION_MODE]
  by_cases ha : a = "mode"
  · subst ha
    by_cases hb : b = "mode"
    · subst hb
      simp [strcmp_self]
    · simp [hb]
  · by_cases hb : b = "mode"
    · subst hb
      simp [ha]
    · simp only [ha, hb, beq_iff_eq, bne_self_eq_false, Bool.false_eq_true, if_false,
        false_or, ne_eq, not_false_eq_true, true_and]
      rcases strcmp_cases a.data b.data with h | h | h <;> simp [h, ha, hb]

theorem get_option_sort_total (a b : String) :
    _get_option_sort a b ≤ 0 ∨ _get_option_sort b a ≤ 0 := by
  rw [get_option_sort_le_iff, get_option_sort_le_iff]
  by_cases ha : a = "mode"
  · exact Or.inl (Or.inl ha)
  · by_cases hb : b = "mode"
    · exact Or.inr (Or.inl hb)
    · have hswap := strcmp_swap a.data b.data
      rcases strcmp_cases a.data b.data with h | h | h
      · exact Or.inl (Or.inr ⟨hb, by omega⟩)
      · exact Or.inl (Or.inr ⟨hb, by omega⟩)
      · exact Or.inr (Or.inr ⟨ha, by omega⟩)

theorem get_option_sort_trans {a b c : String} (hab : _get_option_sort a b ≤ 0)
    (hbc : _get_option_sort b c ≤ 0) : _get_option_sort a c ≤ 0 := by
  rw [get_option_sort_le_iff] at hab hbc ⊢
  rcases hab with ha | ⟨hb, hab⟩
  · exact Or.inl ha
  · rcases hbc with hb' | ⟨hc, hbc⟩
    · exact absurd hb' hb
    · exact Or.inr ⟨hc, strcmp_le_trans hab hbc⟩

/-- The pairs of a hash table, as `(name, value)`. -/
theorem lookup_iff_mem_pairs (hash : GHashTable) (k v : String) :
    hash.lookup k = some v ↔ (k, v) ∈ hash.entries.map (fun entry => (entry.1, entry.2)) := by
  rw [← Option.mem_def, AList.mem_lookup_iff, List.mem_map]
  constructor
  · intro h
    exact ⟨⟨k, v⟩, h, rfl⟩
  · rintro ⟨⟨k', v'⟩, h, heq⟩
    cases heq
    exact h

theorem pairs_keys_nodup (hash : GHashTable) :
    ((hash.entries.map (fun entry => (entry.1, entry.2))).map Prod.fst).Nodup := by
  rw [List.map_map]
  exact hash.keys_nodup

/-- The sorted array of a hash table: a rearrangement of its pairs in which no
pair stands before one that `_get_option_sort` puts in front of it. -/
theorem sorted_pairs_props (hash : GHashTable) :
    ((hash.entries.map (fun entry => (entry.1, entry.2))).insertionSort
        (fun x y => _get_option_sort x.1 y.1 ≤ 0)).Perm
      (hash.entries.map (fun entry => (entry.1, entry.2))) ∧
    ((hash.entries.map (fun entry => (entry.1, entry.2))).insertionSort
        (fun x y => _get_option_sort x.1 y.1 ≤ 0)).Pairwise
      (fun x y => _get_option_sort x.1 y.1 ≤ 0) := by
  haveI : IsTotal (String × String) (fun x y => _get_option_sort x.1 y.1 ≤ 0) :=
    ⟨fun x y => get_option_sort_total x.1 y.1⟩
  haveI : IsTrans (String × String) (fun x y => _get_option_sort x.1 y.1 ≤ 0) :=
    ⟨fun _ _ _ hxy hyz => get_option_sort_trans hxy hyz⟩
  exact ⟨List.perm_insertionSort _ _, List.sorted_insertionSort _ _⟩

/-- In a list of pairs with pairwise distinct names that is sorted by
`_get_option_sort`, a pair named `mode` is the first one. -/
theorem mode_first_of_sorted (pairs : List (String × String)) (v : String)
    (hnodup : (pairs.map Prod.fst).Nodup)
    (hsorted : pairs.Pairwise (fun x y => _get_option_sort x.1 y.1 ≤ 0))
    (hmem : ("mode", v) ∈ pairs) : pairs[0]? = some ("mode", v) := by
  cases pairs with
  | nil => cases hmem
  | cons x t =>
    have hx : x.1 = "mode" := by
      rcases List.mem_cons.mp hmem with h | h
      · rw [← h]
      · have hr := List.rel_of_pairwise_cons hsorted h
        rcases (get_option_sort_le_iff _ _).mp hr with h1 | ⟨h1, _⟩
        · exact h1
        · exact absurd rfl h1
    have hxeq : x = ("mode", v) :=
      List.inj_on_of_nodup_map hnodup (List.mem_cons_self _ _) hmem hx
    simp [hxeq]

/-- In such a list the names other than `mode` increase strictly for
`strcmp`. -/
theorem rest_increasing_of_sorted (pairs : List (String × String))
    (hnodup : (pairs.map Prod.fst).Nodup)
    (hsorted : pairs.Pairwise (fun x y => _get_option_sort x.1 y.1 ≤ 0)) :
    ((pairs.map Prod.fst).filter (fun name => name != "mode")).Pairwise
      (fun a b => strcmp a.data b.data < 0) := by
  have hkeys : (pairs.map Prod.fst).Pairwise (fun a b => _get_option_sort a b ≤ 0) :=
    List.pairwise_map.mpr hsorted
  have hboth := hkeys.and hnodup
  refine (hboth.filter _).imp_of_mem ?_
  intro a b ha hb hab
  have ha' : a ≠ "mode" := by simpa using (List.mem_filter.mp ha).2
  have hb' : b ≠ "mode" := by simpa using (List.mem_filter.mp hb).2
  rcases (get_option_sort_le_iff a b).mp hab.1 with h | ⟨_, h⟩
  · exact absurd h ha'
  · have hne : strcmp a.data b.data ≠ 0 := by
      intro h0
      apply hab.2
      have hd := strcmp_eq_zero h0
      cases a; cases b
      simp_all
    omega

/-- Claim C11. Indexed iteration over a setting whose index, if built, is the
sorted array of its options: `get_option` succeeds exactly below the number
`n` of stored options; the pairs it returns at 0 .. n-1 are a rearrangement
of the stored pairs; `mode`, when stored, is at index 0; the other names come
in strictly increasing `strcmp` order. A call changes neither the options nor
the coherence of the index. -/
theorem get_option_iteration (priv : NMSettingBondPrivate) (hcache : cache_coherent priv) :
    ∃ pairs : List (String × String),
      pairs.length = nm_setting_bond_get_num_options priv ∧
      pairs.Perm (priv.options.entries.map (fun entry => (entry.1, entry.2))) ∧
      (∀ idx : Nat, (nm_setting_bond_get_option priv idx).1 = pairs[idx]?) ∧
      (∀ idx : Nat, (nm_setting_bond_get_option priv idx).1.isSome = true ↔
        idx < nm_setting_bond_get_num_options priv) ∧
      (∀ idx : Nat, (nm_setting_bond_get_option priv idx).2.options = priv.options ∧
        cache_coherent (nm_setting_bond_get_option priv idx).2) ∧
      (∀ v : String, priv.options.lookup "mode" = some v → pairs[0]? = some ("mode", v)) ∧
      ((pairs.map Prod.fst).filter (fun name => name != "mode")).Pairwise
        (fun a b => strcmp a.data b.data < 0) := by
  obtain ⟨hperm, hsorted⟩ := sorted_pairs_props priv.options
  have hlen := hperm.length_eq
  rw [List.length_map] at hlen
  have hnodup := (hperm.map Prod.fst).nodup_iff.mpr (pairs_keys_nodup priv.options)
  have hbuilt : ∀ idx : Nat, idx < priv.options.entries.length →
      nm_utils_named_values_from_str_dict_with_sort priv.options _get_option_sort
        = some ((priv.options.entries.map (fun entry => (entry.1, entry.2))).insertionSort
            (fun x y => _get_option_sort x.1 y.1 ≤ 0)) := by
    intro idx hidx
    unfold nm_utils_named_values_from_str_dict_with_sort
    have : priv.options.entries.isEmpty = false := by
      cases h : priv.options.entries with
      | nil => rw [h] at hidx; simp at hidx
      | cons _ _ => rfl
    simp [this]
  have hget : ∀ idx : Nat, nm_setting_bond_get_option priv idx
      = if idx ≥ priv.options.entries.length then (none, priv)
        else
          (((priv.options.entries.map (fun entry => (entry.1, entry.2))).insertionSort
              (fun x y => _get_option_sort x.1 y.1 ≤ 0))[idx]?,
            { priv with
              options_idx_cache :=
                nm_utils_named_values_from_str_dict_with_sort priv.options
                  _get_option_sort }) := by
    intro idx
    unfold nm_setting_bond_get_option
    by_cases hidx : idx ≥ priv.options.entries.length
    · simp [hidx]
    · have hb := hbuilt idx (by omega)
      rw [if_neg hidx, if_neg hidx]
      unfold _ensure_options_idx_cache
      rcases hcache with hnone | hsome
      · simp [hnone, hb]
      · rw [hb] at hsome
        simp only [hsome, hb]
        cases priv
        simp_all
  refine ⟨_, hlen, hperm, ?_, ?_, ?_, ?_, rest_increasing_of_sorted _ hnodup hsorted⟩
  · intro idx
    rw [hget]
    split_ifs with hidx
    · exact (List.getElem?_eq_none (by omega)).symm
    · rfl
  · intro idx
    rw [hget]
    unfold nm_setting_bond_get_num_options
    split_ifs with hidx
    · simp; omega
    · have : idx < ((priv.options.entries.map (fun entry => (entry.1, entry.2))).insertionSort
          (fun x y => _get_option_sort x.1 y.1 ≤ 0)).length := by omega
      simp [List.getElem?_eq_getElem this]
      omega
  · intro idx
    rw [hget]
    split_ifs with hidx
    · exact ⟨rfl, hcache⟩
    · exact ⟨rfl, Or.inr rfl⟩
  · intro v hv
    exact mode_first_of_sorted _ v hnodup hsorted
      (hperm.mem_iff.mpr ((lookup_iff_mem_pairs _ _ _).mp hv))

/-- A witness of C11: the freshly constructed setting with `miimon=100` and
`downdelay=7` added holds three options; `mode` comes first, then `downdelay`,
then `miimon`, and index 3 is out of range. -/
theorem get_option_iteration_witness :
    cache_coherent
      (run_calls [.add_option "miimon" (some "100"), .add_option "downdelay" (some "7")]) ∧
    (nm_setting_bond_get_option
      (run_calls [.add_option "miimon" (some "100"), .add_option "downdelay" (some "7")]) 0).1
      = some ("mode", "balance-rr") ∧
    (nm_setting_bond_get_option
      (run_calls [.add_option "miimon" (some "100"), .add_option "downdelay" (some "7")]) 1).1
      = some ("downdelay", "7") ∧
    (nm_setting_bond_get_option
      (run_calls [.add_option "miimon" (some "100"), .add_option "downdelay" (some "7")]) 2).1
      = some ("miimon", "100") ∧
    (nm_setting_bond_get_option
      (run_calls [.add_option "miimon" (some "100"), .add_option "downdelay" (some "7")]) 3).1
      = none ∧
    ∃ pairs : List (String × String),
      pairs.length = nm_setting_bond_get_num_options
        (run_calls [.add_option "miimon" (some "100"), .add_option "downdelay" (some "7")]) ∧
      pairs.Perm
        ((run_calls [.add_option "miimon" (some "100"),
            .add_option "downdelay" (some "7")]).options.entries.map
          (fun entry => (entry.1, entry.2))) ∧
      (∀ idx : Nat,
        (nm_setting_bond_get_option
          (run_calls [.add_option "miimon" (some "100"), .add_option "downdelay" (some "7")])
          idx).1 = pairs[idx]?) ∧
      (∀ idx : Nat,
        (nm_setting_bond_get_option
          (run_calls [.add_option "miimon" (some "100"), .add_option "downdelay" (some "7")])
          idx).1.isSome = true ↔
        idx < nm_setting_bond_get_num_options
          (run_calls [.add_option "miimon" (some "100"), .add_option "downdelay" (some "7")])) ∧
      (∀ idx : Nat,
        (nm_setting_bond_get_option
          (run_calls [.add_option "miimon" (some "100"), .add_option "downdelay" (some "7")])
          idx).2.options
          = (run_calls [.add_option "miimon" (some "100"),
              .add_option "downdelay" (some "7")]).options ∧
        cache_coherent
          (nm_setting_bond_get_option
            (run_calls [.add_option "miimon" (some "100"), .add_option "downdelay" (some "7")])
            idx).2) ∧
      (∀ v : String,
        (run_calls [.add_option "miimon" (some "100"),
            .add_option "downdelay" (some "7")]).options.lookup "mode" = some v →
        pairs[0]? = some ("mode", v)) ∧
      ((pairs.map Prod.fst).filter (fun name => name != "mode")).Pairwise
        (fun a b => strcmp a.data b.data < 0) :=
  ⟨Or.inl rfl, by decide, by decide, by decide, by decide,
    get_option_iteration
      (run_calls [.add_option "miimon" (some "100"), .add_option "downdelay" (some "7")])
      (Or.inl rfl)⟩

/-! ## Comparison of the options -/

theorem registry_defaults :
    ∀ row ∈ _get_option_meta_LIST, row.1 ≠ "ad_actor_system" → row.2.val.isSome = true := by
  decide

/-- The default of a name of the registry is never `NULL`. -/
theorem get_option_default_isSome (priv : NMSettingBondPrivate) (name : String)
    (hname : name ∈ valid_options_lst) :
    (nm_setting_bond_get_option_default priv name).isSome = true := by
  obtain ⟨option_meta, hmeta⟩ :=
    Option.isSome_iff_exists.mp ((get_option_meta_isSome_iff name).mpr hname)
  unfold nm_setting_bond_get_option_default
  rw [hmeta]
  by_cases hmac : name = "ad_actor_system"
  · subst hmac
    simp only [NM_SETTING_BOND_OPTION_AD_ACTOR_SYSTEM, beq_self_eq_true, if_true]
    split_ifs <;> rfl
  · simp only [NM_SETTING_BOND_OPTION_AD_ACTOR_SYSTEM, beq_iff_eq, hmac, if_false]
    exact registry_defaults _ (get_option_meta_mem hmeta) hmac

theorem asym_value2_eq_effective (s : NMSettingBondPrivate) (k : String) :
    options_equal_asym_value2 s k = effective_value s k := by
  unfold options_equal_asym_value2 effective_value
  cases s.options.lookup k <;> simp

theorem effective_value_isSome (s : NMSettingBondPrivate) (k : String)
    (hk : k ∈ valid_options_lst) : ∃ v, effective_value s k = some v := by
  unfold effective_value
  cases s.options.lookup k with
  | some v => exact ⟨v, rfl⟩
  | none =>
    simp only
    split
    · rename_i v _
      exact ⟨v, rfl⟩
    · exact Option.isSome_iff_exists.mp (get_option_default_isSome s k hk)

/-- The skip test of `options_equal_asym` for a key. -/
theorem skip_test_eq (flags : Nat) (key : String) :
    (NM_FLAGS_HAS flags NM_SETTING_COMPARE_FLAG_INFERRABLE
        && NM_IN_STRSET (some key) ["fail_over_mac", "active_slave"])
      = (NM_FLAGS_HAS flags NM_SETTING_COMPARE_FLAG_INFERRABLE
        && (key == "fail_over_mac" || key == "active_slave")) := by
  congr 1
  simp only [NM_IN_STRSET, List.contains_cons, List.contains_nil, Bool.or_false]

theorem all_map_eq {α β : Type} (f : α → β) (p : β → Bool) (l : List α) :
    (l.map f).all p = l.all (fun x => p (f x)) := by
  induction l with
  | nil => rfl
  | cons x xs ih => simp [ih]

theorem all_congr_mem {α : Type} (l : List α) (p q : α → Bool)
    (h : ∀ x ∈ l, p x = q x) : l.all p = l.all q := by
  induction l with
  | nil => rfl
  | cons x xs ih =>
    rw [List.all_cons, List.all_cons, h x (List.mem_cons_self _ _),
      ih (fun y hy => h y (List.mem_cons_of_mem _ hy))]

/-- On pairs whose names are in the registry the loop of `options_equal_asym`
never meets a `NULL` default, and it compares every pair that is not skipped
with the effective value of the other setting. -/
theorem asym_loop_eq (s_bond2 : NMSettingBondPrivate) (flags : Nat)
    (pairs : List (String × String)) (hkeys : ∀ p ∈ pairs, p.1 ∈ valid_options_lst) :
    options_equal_asym_loop s_bond2 flags pairs
      = some (pairs.all (fun p =>
          (NM_FLAGS_HAS flags NM_SETTING_COMPARE_FLAG_INFERRABLE
              && (p.1 == "fail_over_mac" || p.1 == "active_slave"))
            || some p.2 == effective_value s_bond2 p.1)) := by
  induction pairs with
  | nil => rfl
  | cons p rest ih =>
    obtain ⟨key, value⟩ := p
    have ihr := ih (fun q hq => hkeys q (List.mem_cons_of_mem _ hq))
    obtain ⟨v2, hv2⟩ := effective_value_isSome s_bond2 key
      (hkeys (key, value) (List.mem_cons_self _ _))
    unfold options_equal_asym_loop
    rw [skip_test_eq, asym_value2_eq_effective, hv2, ihr, List.all_cons]
    simp only [hv2]
    cases hskip : (NM_FLAGS_HAS flags NM_SETTING_COMPARE_FLAG_INFERRABLE
        && (key == "fail_over_mac" || key == "active_slave"))
    · by_cases hval : value = v2
      · subst hval
        simp
      · simp [hval]
    · simp

theorem pairs_in_registry (priv : NMSettingBondPrivate) (h : keys_in_registry priv) :
    ∀ p ∈ priv.options.entries.map (fun entry => (entry.1, entry.2)),
      p.1 ∈ valid_options_lst := by
  intro p hp
  apply h
  rw [List.mem_map] at hp
  obtain ⟨entry, hentry, rfl⟩ := hp
  exact List.mem_map_of_mem Sigma.fst hentry

/-- The result of `options_equal_asym` in terms of the keys of the first
setting. -/
theorem asym_eq_keys (a b : NMSettingBondPrivate) (flags : Nat) (ha : keys_in_registry a) :
    options_equal_asym a b flags
      = some (a.options.keys.all (fun k =>
          (NM_FLAGS_HAS flags NM_SETTING_COMPARE_FLAG_INFERRABLE
              && (k == "fail_over_mac" || k == "active_slave"))
            || effective_value a k == effective_value b k)) := by
  unfold options_equal_asym
  rw [asym_loop_eq b flags _ (pairs_in_registry a ha)]
  congr 1
  unfold AList.keys List.keys
  rw [all_map_eq, all_map_eq]
  apply all_congr_mem
  intro entry hentry
  have hl : a.options.lookup entry.1 = some entry.2 := by
    rw [← Option.mem_def, AList.mem_lookup_iff]
    exact hentry
  have he : effective_value a entry.1 = some entry.2 := by
    unfold effective_value
    rw [hl]
  simp only [Function.comp, he]

/-- The result of `options_equal` on settings with keys of the registry. -/
theorem options_equal_eq (a b : NMSettingBondPrivate) (flags : Nat)
    (ha : keys_in_registry a) (hb : keys_in_registry b) :
    options_equal a b flags
      = some (a.options.keys.all (fun k =>
            (NM_FLAGS_HAS flags NM_SETTING_COMPARE_FLAG_INFERRABLE
                && (k == "fail_over_mac" || k == "active_slave"))
              || effective_value a k == effective_value b k)
          && b.options.keys.all (fun k =>
            (NM_FLAGS_HAS flags NM_SETTING_COMPARE_FLAG_INFERRABLE
                && (k == "fail_over_mac" || k == "active_slave"))
              || effective_value b k == effective_value a k)) := by
  unfold options_equal
  rw [asym_eq_keys a b flags ha, asym_eq_keys b a flags hb]
  cases a.options.keys.all (fun k =>
      (NM_FLAGS_HAS flags NM_SETTING_COMPARE_FLAG_INFERRABLE
          && (k == "fail_over_mac" || k == "active_slave"))
        || effective_value a k == effective_value b k) <;> simp

/-- Claim C13. `options_equal` is symmetric: on two settings whose keys are
names of the registry it returns a result, and the same one with the settings
exchanged, for every set of compare flags. -/
theorem options_equal_symmetric (a b : NMSettingBondPrivate) (flags : Nat)
    (ha : keys_in_registry a) (hb : keys_in_registry b) :
    options_equal a b flags = options_equal b a flags ∧
      (options_equal a b flags).isSome = true := by
  rw [options_equal_eq a b flags ha hb, options_equal_eq b a flags hb ha, Bool.and_comm]
  exact ⟨rfl, rfl⟩

/-- A witness of C13: a setting with `num_grat_arp` against one with
`num_unsol_na`, compared in both directions. -/
theorem options_equal_symmetric_witness :
    keys_in_registry (run_calls [.add_option "num_grat_arp" (some "7")]) ∧
    keys_in_registry (run_calls [.add_option "num_unsol_na" (some "7"),
      .add_option "miimon" (some "100")]) ∧
    options_equal (run_calls [.add_option "num_grat_arp" (some "7")])
        (run_calls [.add_option "num_unsol_na" (some "7"), .add_option "miimon" (some "100")]) 0
      = some true ∧
    (options_equal (run_calls [.add_option "num_grat_arp" (some "7")])
        (run_calls [.add_option "num_unsol_na" (some "7"), .add_option "miimon" (some "100")]) 0
      = options_equal
        (run_calls [.add_option "num_unsol_na" (some "7"), .add_option "miimon" (some "100")])
        (run_calls [.add_option "num_grat_arp" (some "7")]) 0 ∧
      (options_equal (run_calls [.add_option "num_grat_arp" (some "7")])
        (run_calls [.add_option "num_unsol_na" (some "7"), .add_option "miimon" (some "100")])
        0).isSome = true) :=
  ⟨by decide, by decide, by decide,
    options_equal_symmetric (run_calls [.add_option "num_grat_arp" (some "7")])
      (run_calls [.add_option "num_unsol_na" (some "7"), .add_option "miimon" (some "100")]) 0
      (by decide) (by decide)⟩

theorem beq_option_comm (x y : Option String) : (x == y) = (y == x) := by
  by_cases h : x = y
  · subst h
    rfl
  · rw [beq_eq_false_iff_ne.mpr h, beq_eq_false_iff_ne.mpr (Ne.symm h)]

/-- The default of an option depends on the setting through the stored mode
only. -/
theorem get_option_default_congr (a b : NMSettingBondPrivate) (k : String)
    (hmode : a.options.lookup "mode" = b.options.lookup "mode") :
    nm_setting_bond_get_option_default a k = nm_setting_bond_get_option_default b k := by
  have hget : ∀ priv : NMSettingBondPrivate,
      nm_setting_bond_get_option_by_name priv NM_SETTING_BOND_OPTION_MODE
        = priv.options.lookup "mode" := by
    intro priv
    rw [get_option_by_name_eq, if_pos (by decide)]
  unfold nm_setting_bond_get_option_default
  rw [hget, hget, hmode]

/-- Adding `miimon=100` to a map without `miimon` changes no effective
value. -/
theorem effective_value_insert_miimon (a : NMSettingBondPrivate)
    (hno : a.options.lookup "miimon" = none) (k : String) :
    effective_value { options := a.options.insert "miimon" "100", options_idx_cache := none } k
      = effective_value a k := by
  have hdef := get_option_default_congr
    { options := a.options.insert "miimon" "100", options_idx_cache := none } a k
    (by simp [lookup_insert_ite])
  by_cases hk : k = "miimon"
  · subst hk
    unfold effective_value
    simp only [lookup_insert_ite, if_true, hno]
    have h100 : nm_setting_bond_get_option_default a "miimon" = some "100" := by
      unfold nm_setting_bond_get_option_default
      rw [show _get_option_meta "miimon"
        = some { val := some "100", opt_type := .INT, min := 0, max := G_MAXINT } by decide]
      rfl
    simp [h100]
  · unfold effective_value
    simp only [lookup_insert_ite, hk, if_false, hdef]
    simp

/-- Claim C14. On settings whose keys are names of the registry `options_equal`
is the reference definition: the effective values agree on every key stored in
either setting, `fail_over_mac` and `active_slave` being skipped under
`INFERRABLE`. Consequently a setting without `miimon` is equal to the same
setting with `miimon=100`. -/
theorem options_equal_is_reference (a b : NMSettingBondPrivate) (flags : Nat)
    (ha : keys_in_registry a) (hb : keys_in_registry b) :
    options_equal a b flags = some (options_equal_reference a b flags) ∧
      (a.options.lookup "miimon" = none →
        options_equal a
          { options := a.options.insert "miimon" "100", options_idx_cache := none } flags
          = some true) := by
  constructor
  · rw [options_equal_eq a b flags ha hb]
    unfold options_equal_reference
    rw [List.all_append]
    congr 2
    apply all_congr_mem
    intro k _
    rw [beq_option_comm]
  · intro hno
    have ha' : keys_in_registry
        { options := a.options.insert "miimon" "100", options_idx_cache := none } := by
      intro key hkey
      have hmem : key ∈ a.options.insert "miimon" "100" := AList.mem_keys.mpr hkey
      rw [AList.mem_insert] at hmem
      rcases hmem with h | h
      · subst h
        decide
      · exact ha key (AList.mem_keys.mp h)
    rw [options_equal_eq a _ flags ha ha']
    simp [effective_value_insert_miimon a hno]

/-- A witness of C14: the freshly constructed setting against the one with
`miimon=100` added. -/
theorem options_equal_is_reference_witness :
    keys_in_registry nm_setting_bond_init ∧
    options_equal_reference nm_setting_bond_init
      (run_calls [.add_option "miimon" (some "100")]) NM_SETTING_COMPARE_FLAG_INFERRABLE
      = true ∧
    options_equal nm_setting_bond_init (run_calls [.add_option "miimon" (some "100")])
        NM_SETTING_COMPARE_FLAG_INFERRABLE
      = some (options_equal_reference nm_setting_bond_init
          (run_calls [.add_option "miimon" (some "100")]) NM_SETTING_COMPARE_FLAG_INFERRABLE) :=
  ⟨by decide, by decide,
    (options_equal_is_reference nm_setting_bond_init
      (run_calls [.add_option "miimon" (some "100")]) NM_SETTING_COMPARE_FLAG_INFERRABLE
      (by decide) (by decide)).1⟩

/-! ## The verifier -/

theorem isdigit_iff (ch : Char) : g_ascii_isdigit ch = true ↔ '0' ≤ ch ∧ ch ≤ '9' := by
  simp [g_ascii_isdigit]

theorem isdigit_not_space {ch : Char} (h : g_ascii_isdigit ch = true) :
    g_ascii_isspace ch = false := by
  rw [isdigit_iff] at h
  unfold g_ascii_isspace
  have h1 : ch ≠ ' ' := by
    rintro rfl
    exact absurd h.1 (by decide)
  have h2 : ¬ ch ≤ '\r' := by
    intro hle
    exact absurd (le_trans h.1 hle) (by decide)
  simp [h1, h2]

theorem isdigit_not_sign {ch : Char} (h : g_ascii_isdigit ch = true) :
    ch ≠ '-' ∧ ch ≠ '+' := by
  rw [isdigit_iff] at h
  constructor
  · rintro rfl
    exact absurd h.1 (by decide)
  · rintro rfl
    exact absurd h.1 (by decide)

theorem takeWhile_all {α : Type} (p : α → Bool) (l : List α) (h : l.all p = true) :
    l.takeWhile p = l := by
  induction l with
  | nil => rfl
  | cons x xs ih =>
    simp only [List.all_cons, Bool.and_eq_true] at h
    simp [List.takeWhile, h.1, ih h.2]

/-- On a string of digits whose number fits an `int`, `atoi` is the decimal
value. -/
theorem atoi_of_digits (v : String) (hd : v.data.all g_ascii_isdigit = true)
    (hle : decimal_value v ≤ G_MAXINT) : atoi v = (decimal_value v : Int) := by
  have hdrop : v.data.dropWhile g_ascii_isspace = v.data := by
    cases hv : v.data with
    | nil => rfl
    | cons ch rest =>
      rw [hv] at hd
      simp only [List.all_cons, Bool.and_eq_true] at hd
      simp [List.dropWhile, isdigit_not_space hd.1]
  have hminus : (v.data.head? == some '-') = false := by
    cases hv : v.data with
    | nil => rfl
    | cons ch rest =>
      rw [hv] at hd
      simp only [List.all_cons, Bool.and_eq_true] at hd
      simp [(isdigit_not_sign hd.1).1]
  have hplus : (v.data.head? == some '+') = false := by
    cases hv : v.data with
    | nil => rfl
    | cons ch rest =>
      rw [hv] at hd
      simp only [List.all_cons, Bool.and_eq_true] at hd
      simp [(isdigit_not_sign hd.1).2]
  unfold atoi
  simp only [hdrop, hminus, hplus, Bool.or_self, Bool.false_eq_true, if_false,
    takeWhile_all _ _ hd, decimal_accumulate_zero]
  unfold G_MAXINT at hle
  unfold LONG_MAX
  omega

/-- On a string of digits whose number fits an `int`, `_atoi` is the decimal
value. -/
theorem _atoi_of_digits (v : String) (hne : v.data ≠ [])
    (hd : v.data.all g_ascii_isdigit = true)
    (hle : decimal_value v ≤ G_MAXINT) : _atoi v = (decimal_value v : Int) := by
  have hminus : (v.data.head? == some '-') = false := by
    cases hv : v.data with
    | nil => rfl
    | cons ch rest =>
      rw [hv] at hd
      simp only [List.all_cons, Bool.and_eq_true] at hd
      simp [(isdigit_not_sign hd.1).1]
  unfold _atoi _nm_utils_ascii_str_to_int64
  simp only [hminus, Bool.false_eq_true, if_false, hne, hd, Bool.not_true,
    decimal_accumulate_zero]
  unfold G_MAXINT at hle ⊢
  unfold LONG_MAX
  simp only [gt_iff_lt, Bool.or_eq_true, decide_eq_true_eq]
  rw [if_neg (by omega), if_neg (by omega)]

/-- After `_ensure_options_idx_cache` a coherent setting holds the sorted
array of its options as index. -/
theorem ensure_cache_eq (priv : NMSettingBondPrivate) (hcache : cache_coherent priv) :
    _ensure_options_idx_cache priv
      = { options := priv.options,
          options_idx_cache :=
            nm_utils_named_values_from_str_dict_with_sort priv.options _get_option_sort } := by
  unfold _ensure_options_idx_cache
  rcases hcache with hnone | hsome
  · rw [hnone]
  · cases hc : priv.options_idx_cache with
    | none => rfl
    | some cache =>
      rw [hc] at hsome
      rw [← hsome]
      cases priv
      simp_all

/-- The entries of the sorted array are the stored pairs. -/
theorem mem_sorted_index (hash : GHashTable) (cache : List (String × String))
    (h : nm_utils_named_values_from_str_dict_with_sort hash _get_option_sort = some cache)
    (n : String × String) : n ∈ cache ↔ hash.lookup n.1 = some n.2 := by
  unfold nm_utils_named_values_from_str_dict_with_sort at h
  split_ifs at h
  cases h
  rw [(sorted_pairs_props hash).1.mem_iff, lookup_iff_mem_pairs]

/-- The sorted array is `NULL` exactly for the empty table. -/
theorem sorted_index_none_iff (hash : GHashTable) :
    nm_utils_named_values_from_str_dict_with_sort hash _get_option_sort = none ↔
      ∀ k : String, hash.lookup k = none := by
  unfold nm_utils_named_values_from_str_dict_with_sort
  constructor
  · intro h k
    split_ifs at h with he
    rw [AList.lookup_eq_none, AList.mem_keys]
    have : hash.entries = [] := List.isEmpty_iff.mp he
    simp [AList.keys, this]
  · intro h
    split_ifs with he
    · rfl
    · exfalso
      cases hent : hash.entries with
      | nil => simp [hent] at he
      | cons entry rest =>
        have hl : hash.lookup entry.1 = some entry.2 := by
          rw [← Option.mem_def, AList.mem_lookup_iff, hent]
          exact List.mem_cons_self _ _
        rw [h] at hl
        cases hl

/-- The first loop of `verify` on the sorted array finds nothing exactly when
every stored pair passes the validator. -/
theorem first_invalid_none_iff (hash : GHashTable) :
    first_invalid_option (nm_utils_named_values_from_str_dict_with_sort hash _get_option_sort)
        = none ↔
      ∀ k v : String, hash.lookup k = some v →
        nm_setting_bond_validate_option k (some v) = true := by
  unfold first_invalid_option
  cases hc : nm_utils_named_values_from_str_dict_with_sort hash _get_option_sort with
  | none =>
    simp only [true_iff]
    intro k v hl
    rw [(sorted_index_none_iff hash).mp hc k] at hl
    cases hl
  | some cache =>
    simp only [List.find?_eq_none, Bool.not_eq_true', Bool.not_eq_false]
    constructor
    · intro h k v hl
      exact h (k, v) ((mem_sorted_index hash cache hc (k, v)).mpr hl)
    · intro h n hn
      exact h n.1 n.2 ((mem_sorted_index hash cache hc n).mp hn)

/-- The test on the entries of the table that opens `fatal_rules`. -/
theorem any_invalid_eq_false_iff (hash : GHashTable) :
    hash.entries.any (fun entry => !nm_setting_bond_validate_option entry.1 (some entry.2))
        = false ↔
      ∀ k v : String, hash.lookup k = some v →
        nm_setting_bond_validate_option k (some v) = true := by
  rw [← Bool.not_eq_true, List.any_eq_true]
  constructor
  · intro h k v hl
    by_contra hv
    apply h
    refine ⟨⟨k, v⟩, ?_, by simpa using hv⟩
    rw [← Option.mem_def, AList.mem_lookup_iff] at hl
    exact hl
  · rintro h ⟨entry, hentry, hbad⟩
    have hl : hash.lookup entry.1 = some entry.2 := by
      rw [← Option.mem_def, AList.mem_lookup_iff]
      exact hentry
    rw [h _ _ hl] at hbad
    cases hbad

/-- A stored value of an option of kind `INT` whose bound fits an `int` is a
string of digits, read by `atoi` and by `_atoi` as its decimal value. -/
theorem int_option_readout (name v : String) (option_meta : OptionMeta)
    (hmeta : _get_option_meta name = some option_meta)
    (hkind : option_meta.opt_type = NMBondOptionType.INT)
    (hmax : option_meta.max ≤ G_MAXINT)
    (hvalid : nm_setting_bond_validate_option name (some v) = true) :
    atoi v = (decimal_value v : Int) ∧ _atoi v = (decimal_value v : Int) := by
  have hrow := get_option_meta_mem hmeta
  have hval : validate_int name v option_meta = true := by
    simpa [nm_setting_bond_validate_option, hmeta, hkind] using hvalid
  obtain ⟨hne, hd, _, hle⟩ :=
    (validate_int_iff name v option_meta (registry_rows_sound _ hrow).2).mp hval
  have hd' := (all_isdigit_iff v.data).mpr hd
  have hne' := (string_ne_empty_iff v).mp hne
  exact ⟨atoi_of_digits v hd' (le_trans hle hmax),
    _atoi_of_digits v hne' hd' (le_trans hle hmax)⟩

theorem registry_int_names :
    ∀ name ∈ ["miimon", "arp_interval", "num_grat_arp", "num_unsol_na", "updelay", "downdelay"],
      ∃ option_meta, _get_option_meta name = some option_meta ∧
        option_meta.opt_type = NMBondOptionType.INT ∧ option_meta.max ≤ G_MAXINT := by
  decide

/-- The integer readouts of `verify` on a table whose pairs are valid. -/
theorem atoi_if_set_eq (hash : GHashTable) (cache : Option (List (String × String)))
    (hvalid : ∀ k v : String, hash.lookup k = some v →
      nm_setting_bond_validate_option k (some v) = true)
    (name : String)
    (hname : name ∈ ["miimon", "arp_interval", "num_grat_arp", "num_unsol_na", "updelay",
      "downdelay"])
    (init : Int) :
    atoi_if_set (hash.lookup name) init
        = (if (hash.lookup name).isSome then
            (option_number { options := hash, options_idx_cache := cache } name : Int)
          else init) ∧
      delayopt_positive (hash.lookup name)
        = decide (0 < option_number { options := hash, options_idx_cache := cache } name) := by
  obtain ⟨option_meta, hmeta, hkind, hmax⟩ := registry_int_names name hname
  unfold atoi_if_set delayopt_positive option_number
  cases hl : hash.lookup name with
  | none => simp
  | some v =>
    obtain ⟨h1, h2⟩ := int_option_readout name v option_meta hmeta hkind hmax (hvalid _ _ hl)
    simp [h1, h2]

theorem in_strset_pair (x : Option String) (a b : String) :
    NM_IN_STRSET x [a, b] = (x == some a || x == some b) := by
  cases x with
  | none => rfl
  | some x =>
    simp only [NM_IN_STRSET, List.contains_cons, List.contains_nil, Bool.or_false]
    rw [Bool.eq_iff_iff]
    simp

theorem in_strset_single (x : Option String) (a : String) :
    NM_IN_STRSET x [a] = (x == some a) := by
  cases x with
  | none => rfl
  | some x =>
    simp only [NM_IN_STRSET, List.contains_cons, List.contains_nil, Bool.or_false]
    rw [Bool.eq_iff_iff]
    simp

/-- A stored `arp_ip_target` that passes the validator splits into at least
one word, and every word is an address: the second check of `verify` finds
nothing. -/
theorem valid_arp_ip_target_words (t : String)
    (hvalid : nm_setting_bond_validate_option "arp_ip_target" (some t) = true) :
    (g_strsplit_comma t).isEmpty = false ∧
      (g_strsplit_comma t).find? (fun addr => !inet_pton addr) = none := by
  have hmeta : _get_option_meta "arp_ip_target"
      = some { val := some "", opt_type := .IP } := by decide
  have hval : validate_ip "arp_ip_target" (some t) = true := by
    simpa [nm_setting_bond_validate_option, hmeta] using hvalid
  unfold validate_ip at hval
  by_cases he : t.data = []
  · simp [he] at hval
  · simp only [he, if_false] at hval
    rw [validate_ip_loop_eq _ _ (Nat.lt_succ_self _)] at hval
    unfold g_strsplit_comma
    simp only [he, if_false]
    constructor
    · cases hs : t.data.splitOn ',' with
      | nil => exact absurd hs (List.splitOnP_ne_nil _ _)
      | cons w ws => rfl
    · rw [List.find?_eq_none]
      intro addr haddr
      simpa using (List.all_eq_true.mp hval) addr haddr

/-- A stored `primary` that passes the validator is an interface name. -/
theorem valid_primary_ifname (p : String)
    (hvalid : nm_setting_bond_validate_option "primary" (some p) = true) :
    nm_utils_ifname_valid_kernel p = true := by
  have hmeta : _get_option_meta "primary"
      = some { val := some "", opt_type := .IFNAME } := by decide
  simpa [nm_setting_bond_validate_option, hmeta, validate_ifname] using hvalid

theorem atoi_if_set_zero (hash : GHashTable) (cache : Option (List (String × String)))
    (hvalid : ∀ k v : String, hash.lookup k = some v →
      nm_setting_bond_validate_option k (some v) = true)
    (name : String)
    (hname : name ∈ ["miimon", "arp_interval", "num_grat_arp", "num_unsol_na", "updelay",
      "downdelay"]) :
    atoi_if_set (hash.lookup name) 0
      = (option_number { options := hash, options_idx_cache := cache } name : Int) := by
  rw [(atoi_if_set_eq hash cache hvalid name hname 0).1]
  unfold option_number
  cases hash.lookup name <;> simp

/-- The control flow of `verify` on a table whose pairs are all valid and whose
index is the sorted array: either one of the fatal rules is broken and the
result is a fatal error, or none is and the result is the one of the delegated
interface-name check followed by the end of `verify`. -/
theorem verify_checks_of_valid (hash : GHashTable) (cache : Option (List (String × String)))
    (connection : Option NMConnection)
    (hcache : cache = nm_utils_named_values_from_str_dict_with_sort hash _get_option_sort)
    (hvalid : ∀ k v : String, hash.lookup k = some v →
      nm_setting_bond_validate_option k (some v) = true) :
    (fatal_rules { options := hash, options_idx_cache := cache } connection = true ∧
      NMSettingVerifyResult.is_fatal
        (verify_checks { options := hash, options_idx_cache := cache } connection) = true) ∨
    (fatal_rules { options := hash, options_idx_cache := cache } connection = false ∧
      ∃ m, hash.lookup "mode" = some m ∧
        verify_checks { options := hash, options_idx_cache := cache } connection
          = match _nm_connection_verify_required_interface_name connection with
            | some error => some (.ERROR error)
            | none =>
              verify_normalizable { options := hash, options_idx_cache := cache } m
                (canonical_mode { options := hash, options_idx_cache := cache })) := by
  have hfirst : first_invalid_option cache = none := by
    rw [hcache]; exact (first_invalid_none_iff hash).mpr hvalid
  have hany := (any_invalid_eq_false_iff hash).mpr hvalid
  have rmi := atoi_if_set_zero hash cache hvalid "miimon" (by decide)
  have rai := atoi_if_set_zero hash cache hvalid "arp_interval" (by decide)
  have rga := (atoi_if_set_eq hash cache hvalid "num_grat_arp" (by decide) (-1)).1
  have rua := (atoi_if_set_eq hash cache hvalid "num_unsol_na" (by decide) (-1)).1
  have rup := (atoi_if_set_eq hash cache hvalid "updelay" (by decide) 0).2
  have rdn := (atoi_if_set_eq hash cache hvalid "downdelay" (by decide) 0).2
  have hprim : ∀ p, hash.lookup "primary" = some p → nm_utils_ifname_valid_kernel p = true :=
    fun p hp => valid_primary_ifname p (hvalid _ _ hp)
  have htarget : ∀ t, hash.lookup "arp_ip_target" = some t →
      (g_strsplit_comma t).isEmpty = false ∧
        (g_strsplit_comma t).find? (fun addr => !inet_pton addr) = none :=
    fun t ht => valid_arp_ip_target_words t (hvalid _ _ ht)
  unfold verify_checks fatal_rules canonical_mode
  simp only [hfirst, hany, rmi, rai, rga, rua, rup, rdn, NM_SETTING_BOND_OPTION_MIIMON,
    NM_SETTING_BOND_OPTION_ARP_INTERVAL, NM_SETTING_BOND_OPTION_NUM_GRAT_ARP,
    NM_SETTING_BOND_OPTION_NUM_UNSOL_NA, NM_SETTING_BOND_OPTION_MODE,
    NM_SETTING_BOND_OPTION_PRIMARY, NM_SETTING_BOND_OPTION_UPDELAY,
    NM_SETTING_BOND_OPTION_DOWNDELAY, NM_SETTING_BOND_OPTION_ARP_IP_TARGET,
    NM_SETTING_BOND_OPTION_LACP_RATE, in_strset_pair, in_strset_single, Bool.false_or]
  clear rmi rai rga rua rup rdn hfirst hany hvalid hcache
  generalize option_number { options := hash, options_idx_cache := cache } "miimon" = mi
  generalize option_number { options := hash, options_idx_cache := cache } "arp_interval" = ai
  generalize option_number { options := hash, options_idx_cache := cache } "updelay" = up
  generalize option_number { options := hash, options_idx_cache := cache } "downdelay" = dn
  generalize option_number { options := hash, options_idx_cache := cache } "num_grat_arp" = ga
  generalize option_number { options := hash, options_idx_cache := cache } "num_unsol_na" = ua
  generalize hash.lookup "primary" = lp at hprim ⊢
  generalize hash.lookup "arp_ip_target" = lt at htarget ⊢
  generalize hash.lookup "lacp_rate" = ll
  generalize hash.lookup "num_grat_arp" = lga
  generalize hash.lookup "num_unsol_na" = lua
  generalize hash.lookup "mode" = lm
  generalize _nm_connection_verify_required_interface_name connection = iface
  generalize (match connection with
    | some connection => connection.setting_infiniband
    | none => false) = ib
  simp only [gt_iff_lt, Nat.cast_pos, Bool.or_eq_true, Bool.and_eq_true, decide_eq_true_eq,
    beq_iff_eq, bne_iff_ne, ne_eq, Bool.not_eq_true', beq_eq_false_iff_ne, Bool.or_eq_false_iff,
    Bool.and_eq_false_imp, decide_eq_false_iff_not, Option.isNone_iff_eq_none, Nat.cast_eq_zero,
    Bool.not_eq_false', bne_eq_false_iff_eq]
  by_cases h1 : 0 < mi ∧ 0 < ai
  · exact Or.inl ⟨by simp [h1], by simp [h1, NMSettingVerifyResult.is_fatal]⟩
  simp only [h1, if_false, false_or, not_false_eq_true, true_and]
  cases lm with
  | none => exact Or.inl ⟨by simp, by simp [NMSettingVerifyResult.is_fatal]⟩
  | some m =>
  simp only [reduceCtorEq, false_or, not_false_eq_true, true_and]
  generalize nm_utils_bond_mode_string_to_int (some m) = k
  by_cases h2 : k = -1
  · exact Or.inl ⟨by simp [h2], by simp [h2, NMSettingVerifyResult.is_fatal]⟩
  simp only [h2, if_false, false_or, not_false_eq_true, true_and]
  generalize nm_utils_bond_mode_int_to_string k = mn
  by_cases h3 : (mn = some "balance-alb" ∨ mn = some "balance-tlb") ∧ 0 < ai
  · exact Or.inl ⟨by simp [h3.1.symm, h3.2], by simp [h3, NMSettingVerifyResult.is_fatal]⟩
  have h3' : ¬ ((mn = some "balance-tlb" ∨ mn = some "balance-alb") ∧ 0 < ai) :=
    fun h => h3 ⟨h.1.symm, h.2⟩
  simp only [h3, h3', if_false, false_or, not_false_eq_true, true_and]
  generalize hpe : (if mn = some "active-backup" then _ else _ : Option GError) = perr
  by_cases h4 : lp.isSome = true ∧ ¬ mn = some "active-backup"
  · obtain ⟨p, hp⟩ := Option.isSome_iff_exists.mp h4.1
    have hperr : ∃ e, perr = some e := by
      rw [← hpe, hp]
      simp [h4.2]
    obtain ⟨e, he⟩ := hperr
    exact Or.inl ⟨by simp [h4.1, h4.2], by simp [he, NMSettingVerifyResult.is_fatal]⟩
  have hperr : perr = none := by
    rw [← hpe]
    cases lp with
    | none => simp
    | some p =>
      have hp := hprim p rfl
      simp only [Option.isSome_some, true_and, not_not] at h4
      simp [h4, hp]
  simp only [hperr, h4, false_or]
  clear hpe hperr
  by_cases h5 : ib = true ∧ ¬ mn = some "active-backup"
  · exact Or.inl ⟨by simp [h5.1, h5.2], by simp [h5, NMSettingVerifyResult.is_fatal]⟩
  simp only [h5, if_false, false_or]
  generalize hde : (if mi = 0 then _ else _ : Option GError) = derr
  by_cases h6 : mi = 0 ∧ (0 < up ∨ 0 < dn)
  · have hderr : ∃ e, derr = some e := by
      rw [← hde]
      by_cases hup : 0 < up
      · simp [h6.1, hup]
      · simp [h6.1, hup, h6.2.resolve_left hup]
    obtain ⟨e, he⟩ := hderr
    exact Or.inl ⟨by simp [h6.1, h6.2], by simp [he, NMSettingVerifyResult.is_fatal]⟩
  have hderr : derr = none := by
    rw [← hde]
    by_cases hmi : mi = 0
    · have hup : ¬ 0 < up := fun h => h6 ⟨hmi, Or.inl h⟩
      have hdn : ¬ 0 < dn := fun h => h6 ⟨hmi, Or.inr h⟩
      simp [hmi, hup, hdn]
    · simp [hmi]
  simp only [hderr, h6, false_or]
  clear hde hderr
  generalize hae : (if 0 < ai then _ else _ : Option GError) = aerr
  by_cases h7 : (0 < ai ∧ lt = none) ∨ (ai = 0 ∧ lt.isSome = true)
  · have haerr : ∃ e, aerr = some e := by
      rw [← hae]
      rcases h7 with ⟨hai, hlt⟩ | ⟨hai, hlt⟩
      · simp [hai, hlt]
      · obtain ⟨t, ht⟩ := Option.isSome_iff_exists.mp hlt
        simp [hai, ht]
    obtain ⟨e, he⟩ := haerr
    exact Or.inl ⟨by
      rcases h7 with ⟨hai, hlt⟩ | ⟨hai, hlt⟩
      · simp [hai, hlt]
      · simp [hai, hlt], by simp [he, NMSettingVerifyResult.is_fatal]⟩
  have haerr : aerr = none := by
    rw [← hae]
    by_cases hai : 0 < ai
    · cases hlt : lt with
      | none => exact absurd (Or.inl ⟨hai, hlt⟩) h7
      | some t =>
        obtain ⟨ht1, ht2⟩ := htarget t hlt
        simp [hai, ht1, ht2]
    · have hai0 : ai = 0 := by omega
      cases hlt : lt with
      | none => simp [hai]
      | some t => exact absurd (Or.inr ⟨hai0, by simp [hlt]⟩) h7
  have h7a : ¬ (0 < ai ∧ lt = none) := fun h => h7 (Or.inl h)
  have h7b : ¬ (ai = 0 ∧ lt.isSome = true) := fun h => h7 (Or.inr h)
  simp only [haerr, h7a, h7b, false_or, or_false]
  clear hae haerr
  by_cases h8 : (ll.isSome = true ∧ ¬ mn = some "802.3ad") ∧ ¬ ll = some "0" ∧ ¬ ll = some "slow"
  · exact Or.inl ⟨by simp [h8.1.1, h8.1.2, h8.2.1, h8.2.2],
      by simp [h8, NMSettingVerifyResult.is_fatal]⟩
  have h8' : ¬ (((ll.isSome = true ∧ ¬ mn = some "802.3ad") ∧ ¬ ll = some "slow")
      ∧ ¬ ll = some "0") := fun h => h8 ⟨h.1.1, h.2, h.1.2⟩
  simp only [h8, h8', if_false, false_or]
  have hnum : ((¬ (if lga.isSome = true then (ga : Int) else -1) = -1
        ∧ ¬ (if lua.isSome = true then (ua : Int) else -1) = -1)
      ∧ ¬ (if lga.isSome = true then (ga : Int) else -1)
          = if lua.isSome = true then (ua : Int) else -1)
      ↔ (lga.isSome = true ∧ lua.isSome = true) ∧ ¬ ga = ua := by
    cases lga <;> cases lua <;> simp
  simp only [hnum]
  by_cases h9 : (lga.isSome = true ∧ lua.isSome = true) ∧ ¬ ga = ua
  · exact Or.inl ⟨h9, by simp [h9, NMSettingVerifyResult.is_fatal]⟩
  refine Or.inr ⟨?_, m, rfl, by simp only [h9, if_false]⟩
  refine ⟨⟨⟨⟨⟨⟨⟨⟨⟨⟨fun a b => h1 ⟨a, b⟩, rfl⟩, trivial⟩, fun a b => h3' ⟨a, b⟩⟩,
    fun a => not_not.mp (fun b => h4 ⟨a, b⟩)⟩, fun a => not_not.mp (fun b => h5 ⟨a, b⟩)⟩,
    fun a => ⟨fun b => h6 ⟨a, Or.inl b⟩, fun b => h6 ⟨a, Or.inr b⟩⟩⟩, ?_⟩, ?_⟩,
    fun a => not_not.mp (fun b => h8' ⟨a, b⟩)⟩, fun a => not_not.mp (fun b => h9 ⟨a, b⟩)⟩
  · intro a
    cases hlt : lt with
    | none => exact absurd ⟨a, hlt⟩ h7a
    | some t => rfl
  · intro a
    cases hlt : lt with
    | none => rfl
    | some t => exact absurd ⟨a, by simp [hlt]⟩ h7b

/-- The first loop of `verify` returns its error for the entry it finds. -/
theorem verify_checks_invalid (hash : GHashTable) (cache : Option (List (String × String)))
    (connection : Option NMConnection) (n : String × String)
    (h : first_invalid_option cache = some n) :
    verify_checks { options := hash, options_idx_cache := cache } connection
      = some (.ERROR (bond_options_error
          ("invalid option '" ++ n.1 ++ "' or its value '" ++ n.2 ++ "'"))) := by
  unfold verify_checks
  simp only [h]

/-- The end of `verify` never returns a fatal error. -/
theorem verify_normalizable_not_fatal (priv : NMSettingBondPrivate) (m : String)
    (mn : Option String) :
    NMSettingVerifyResult.is_fatal (verify_normalizable priv m mn) = false := by
  unfold verify_normalizable
  split_ifs
  · rfl
  · cases priv.options_idx_cache with
    | none => rfl
    | some cache =>
      simp only
      split <;> rfl

/-- The rules look at the options of the setting only. -/
theorem fatal_rules_options (hash : GHashTable) (cache cache' : Option (List (String × String)))
    (connection : Option NMConnection) :
    fatal_rules { options := hash, options_idx_cache := cache } connection
      = fatal_rules { options := hash, options_idx_cache := cache' } connection :=
  rfl

/-- The fatal verdict of `verify` is the disjunction of the rules. -/
theorem verify_is_fatal_eq (priv : NMSettingBondPrivate) (connection : Option NMConnection)
    (hcache : cache_coherent priv)
    (hiface : _nm_connection_verify_required_interface_name connection = none) :
    NMSettingVerifyResult.is_fatal (verify priv connection).1 = fatal_rules priv connection := by
  unfold verify
  rw [ensure_cache_eq priv hcache]
  have hF : fatal_rules priv connection
      = fatal_rules
          { options := priv.options,
            options_idx_cache :=
              nm_utils_named_values_from_str_dict_with_sort priv.options _get_option_sort }
          connection := rfl
  rw [hF]
  by_cases hvalid : ∀ k v : String, priv.options.lookup k = some v →
      nm_setting_bond_validate_option k (some v) = true
  · rcases verify_checks_of_valid priv.options _ connection rfl hvalid with ⟨h1, h2⟩ | ⟨h1, m, _, h2⟩
    · rw [h1, h2]
    · rw [h1, h2, hiface]
      exact verify_normalizable_not_fatal _ _ _
  · have hfirst : first_invalid_option
        (nm_utils_named_values_from_str_dict_with_sort priv.options _get_option_sort) ≠ none :=
      fun h => hvalid ((first_invalid_none_iff priv.options).mp h)
    obtain ⟨n, hn⟩ := Option.ne_none_iff_exists'.mp hfirst
    rw [verify_checks_invalid _ _ _ n hn]
    have hany : priv.options.entries.any
        (fun entry => !nm_setting_bond_validate_option entry.1 (some entry.2)) = true := by
      cases h : priv.options.entries.any
          (fun entry => !nm_setting_bond_validate_option entry.1 (some entry.2)) with
      | true => rfl
      | false => exact absurd ((any_invalid_eq_false_iff priv.options).mp h) hvalid
    unfold fatal_rules
    simp only [hany, Bool.true_or]
    rfl

/-- The disjunction `fatal_rules`, rule by rule. -/
theorem fatal_rules_iff (priv : NMSettingBondPrivate) (connection : Option NMConnection) :
    fatal_rules priv connection = true ↔
      (∃ n v : String, priv.options.lookup n = some v ∧
          nm_setting_bond_validate_option n (some v) = false) ∨
      (0 < option_number priv "miimon" ∧ 0 < option_number priv "arp_interval") ∨
      priv.options.lookup "mode" = none ∨
      nm_utils_bond_mode_string_to_int (priv.options.lookup "mode") = -1 ∨
      ((canonical_mode priv = some "balance-tlb" ∨ canonical_mode priv = some "balance-alb") ∧
          0 < option_number priv "arp_interval") ∨
      ((∃ p, priv.options.lookup "primary" = some p) ∧
          canonical_mode priv ≠ some "active-backup") ∨
      ((∃ c, connection = some c ∧ c.setting_infiniband = true) ∧
          canonical_mode priv ≠ some "active-backup") ∨
      (option_number priv "miimon" = 0 ∧
          (0 < option_number priv "updelay" ∨ 0 < option_number priv "downdelay")) ∨
      (0 < option_number priv "arp_interval" ∧ priv.options.lookup "arp_ip_target" = none) ∨
      (option_number priv "arp_interval" = 0 ∧
          ∃ t, priv.options.lookup "arp_ip_target" = some t) ∨
      (∃ r, priv.options.lookup "lacp_rate" = some r ∧ canonical_mode priv ≠ some "802.3ad" ∧
          r ≠ "slow" ∧ r ≠ "0") ∨
      (∃ x y, priv.options.lookup "num_grat_arp" = some x ∧
          priv.options.lookup "num_unsol_na" = some y ∧ decimal_value x ≠ decimal_value y) := by
  have hany : priv.options.entries.any
        (fun entry => !nm_setting_bond_validate_option entry.1 (some entry.2)) = true ↔
      ∃ n v : String, priv.options.lookup n = some v ∧
        nm_setting_bond_validate_option n (some v) = false := by
    rw [← not_iff_not, Bool.not_eq_true, any_invalid_eq_false_iff]
    push_neg
    simp
  have hib : (match connection with
      | some connection => connection.setting_infiniband
      | none => false) = true ↔ ∃ c, connection = some c ∧ c.setting_infiniband = true := by
    cases connection <;> simp
  have hlacp : ((priv.options.lookup "lacp_rate").isSome = true ∧
        ¬ canonical_mode priv = some "802.3ad" ∧ ¬ priv.options.lookup "lacp_rate" = some "slow" ∧
        ¬ priv.options.lookup "lacp_rate" = some "0") ↔
      ∃ r, priv.options.lookup "lacp_rate" = some r ∧ canonical_mode priv ≠ some "802.3ad" ∧
        r ≠ "slow" ∧ r ≠ "0" := by
    cases priv.options.lookup "lacp_rate" <;> simp
  have hnum : ((priv.options.lookup "num_grat_arp").isSome = true ∧
        (priv.options.lookup "num_unsol_na").isSome = true ∧
        ¬ option_number priv "num_grat_arp" = option_number priv "num_unsol_na") ↔
      ∃ x y, priv.options.lookup "num_grat_arp" = some x ∧
        priv.options.lookup "num_unsol_na" = some y ∧ decimal_value x ≠ decimal_value y := by
    unfold option_number
    cases priv.options.lookup "num_grat_arp" <;> cases priv.options.lookup "num_unsol_na" <;> simp
  unfold fatal_rules
  simp only [Bool.or_eq_true, Bool.and_eq_true, decide_eq_true_eq, beq_iff_eq, bne_iff_ne, ne_eq,
    Option.isNone_iff_eq_none, hany, hib, Option.isSome_iff_exists, or_assoc, and_assoc]
  simp only [← Option.isSome_iff_exists, hlacp, hnum]

/-- Claim C15. The fatal verdict of `verify` is the disjunction of the rules
of the specification: for a setting whose index, if built, is the sorted array
of its options, and a connection (or none) that passes the delegated
interface-name check, `verify` returns a fatal error exactly when some stored
pair fails the validator, or miimon > 0 and arp_interval > 0, or mode is
absent, or unknown, or mode is balance-tlb or balance-alb and arp_interval > 0,
or primary is stored and mode is not active-backup, or the connection holds an
infiniband setting and mode is not active-backup, or miimon is absent or 0 and
updelay > 0 or downdelay > 0, or arp_interval > 0 and arp_ip_target is absent,
or arp_interval is absent or 0 and arp_ip_target is stored, or lacp_rate is
stored outside 802.3ad and is neither `slow` nor `0`, or num_grat_arp and
num_unsol_na are stored with different numbers. -/
theorem verify_fatal_iff_rules (priv : NMSettingBondPrivate)
    (connection : Option NMConnection) (hcache : cache_coherent priv)
    (hiface : _nm_connection_verify_required_interface_name connection = none) :
    (∃ error, (verify priv connection).1 = some (.ERROR error)) ↔
      (∃ n v : String, priv.options.lookup n = some v ∧
          nm_setting_bond_validate_option n (some v) = false) ∨
      (0 < option_number priv "miimon" ∧ 0 < option_number priv "arp_interval") ∨
      priv.options.lookup "mode" = none ∨
      nm_utils_bond_mode_string_to_int (priv.options.lookup "mode") = -1 ∨
      ((canonical_mode priv = some "balance-tlb" ∨ canonical_mode priv = some "balance-alb") ∧
          0 < option_number priv "arp_interval") ∨
      ((∃ p, priv.options.lookup "primary" = some p) ∧
          canonical_mode priv ≠ some "active-backup") ∨
      ((∃ c, connection = some c ∧ c.setting_infiniband = true) ∧
          canonical_mode priv ≠ some "active-backup") ∨
      (option_number priv "miimon" = 0 ∧
          (0 < option_number priv "updelay" ∨ 0 < option_number priv "downdelay")) ∨
      (0 < option_number priv "arp_interval" ∧ priv.options.lookup "arp_ip_target" = none) ∨
      (option_number priv "arp_interval" = 0 ∧
          ∃ t, priv.options.lookup "arp_ip_target" = some t) ∨
      (∃ r, priv.options.lookup "lacp_rate" = some r ∧ canonical_mode priv ≠ some "802.3ad" ∧
          r ≠ "slow" ∧ r ≠ "0") ∨
      (∃ x y, priv.options.lookup "num_grat_arp" = some x ∧
          priv.options.lookup "num_unsol_na" = some y ∧ decimal_value x ≠ decimal_value y) := by
  rw [← fatal_rules_iff, ← verify_is_fatal_eq priv connection hcache hiface]
  cases h : (verify priv connection).1 with
  | none => simp [NMSettingVerifyResult.is_fatal]
  | some result => cases result <;> simp [NMSettingVerifyResult.is_fatal]

/-- A witness of C15: the freshly constructed setting with `updelay=5` added
breaks the rule on the delays, and `verify` returns the fatal error of that
rule; without the addition no rule is broken and `verify` returns `TRUE`. -/
theorem verify_fatal_iff_rules_witness :
    (verify (run_calls [.add_option "updelay" (some "5")]) none).1
      = some (.ERROR (bond_options_error
          "'updelay' option requires 'miimon' option to be enabled")) ∧
    (verify (run_calls []) none).1 = some .SUCCESS ∧
    ((∃ error, (verify (run_calls [.add_option "updelay" (some "5")]) none).1
        = some (.ERROR error)) ↔
      (∃ n v : String,
          (run_calls [.add_option "updelay" (some "5")]).options.lookup n = some v ∧
          nm_setting_bond_validate_option n (some v) = false) ∨
      (0 < option_number (run_calls [.add_option "updelay" (some "5")]) "miimon" ∧
          0 < option_number (run_calls [.add_option "updelay" (some "5")]) "arp_interval") ∨
      (run_calls [.add_option "updelay" (some "5")]).options.lookup "mode" = none ∨
      nm_utils_bond_mode_string_to_int
          ((run_calls [.add_option "updelay" (some "5")]).options.lookup "mode") = -1 ∨
      ((canonical_mode (run_calls [.add_option "updelay" (some "5")]) = some "balance-tlb" ∨
          canonical_mode (run_calls [.add_option "updelay" (some "5")]) = some "balance-alb") ∧
          0 < option_number (run_calls [.add_option "updelay" (some "5")]) "arp_interval") ∨
      ((∃ p, (run_calls [.add_option "updelay" (some "5")]).options.lookup "primary" = some p) ∧
          canonical_mode (run_calls [.add_option "updelay" (some "5")])
            ≠ some "active-backup") ∨
      ((∃ c, (none : Option NMConnection) = some c ∧ c.setting_infiniband = true) ∧
          canonical_mode (run_calls [.add_option "updelay" (some "5")])
            ≠ some "active-backup") ∨
      (option_number (run_calls [.add_option "updelay" (some "5")]) "miimon" = 0 ∧
          (0 < option_number (run_calls [.add_option "updelay" (some "5")]) "updelay" ∨
            0 < option_number (run_calls [.add_option "updelay" (some "5")]) "downdelay")) ∨
      (0 < option_number (run_calls [.add_option "updelay" (some "5")]) "arp_interval" ∧
          (run_calls [.add_option "updelay" (some "5")]).options.lookup "arp_ip_target"
            = none) ∨
      (option_number (run_calls [.add_option "updelay" (some "5")]) "arp_interval" = 0 ∧
          ∃ t, (run_calls [.add_option "updelay" (some "5")]).options.lookup "arp_ip_target"
            = some t) ∨
      (∃ r, (run_calls [.add_option "updelay" (some "5")]).options.lookup "lacp_rate" = some r ∧
          canonical_mode (run_calls [.add_option "updelay" (some "5")]) ≠ some "802.3ad" ∧
          r ≠ "slow" ∧ r ≠ "0") ∨
      (∃ x y, (run_calls [.add_option "updelay" (some "5")]).options.lookup "num_grat_arp"
            = some x ∧
          (run_calls [.add_option "updelay" (some "5")]).options.lookup "num_unsol_na"
            = some y ∧ decimal_value x ≠ decimal_value y)) :=
  ⟨by decide, by decide,
    verify_fatal_iff_rules (run_calls [.add_option "updelay" (some "5")]) none
      (Or.inl rfl) rfl⟩

/-- Claim C16. When every stored pair passes the validator and `miimon` and
`arp_interval` are both stored with a number above 0, `verify` returns the
fatal error "only one of 'miimon' and 'arp_interval' can be set", whatever the
other options and the connection are, also when `mode` is absent. -/
theorem verify_miimon_and_arp_interval (priv : NMSettingBondPrivate)
    (connection : Option NMConnection) (x y : String) (hcache : cache_coherent priv)
    (hvalid : ∀ n v : String, priv.options.lookup n = some v →
      nm_setting_bond_validate_option n (some v) = true)
    (hmiimon : priv.options.lookup "miimon" = some x) (hx : 0 < decimal_value x)
    (harp : priv.options.lookup "arp_interval" = some y) (hy : 0 < decimal_value y) :
    (verify priv connection).1
      = some (.ERROR (bond_options_error
          "only one of 'miimon' and 'arp_interval' can be set")) := by
  unfold verify
  rw [ensure_cache_eq priv hcache]
  have hfirst := (first_invalid_none_iff priv.options).mpr hvalid
  have rmi := atoi_if_set_zero priv.options
    (nm_utils_named_values_from_str_dict_with_sort priv.options _get_option_sort) hvalid
    "miimon" (by decide)
  have rai := atoi_if_set_zero priv.options
    (nm_utils_named_values_from_str_dict_with_sort priv.options _get_option_sort) hvalid
    "arp_interval" (by decide)
  have hmi : option_number
      { options := priv.options,
        options_idx_cache :=
          nm_utils_named_values_from_str_dict_with_sort priv.options _get_option_sort }
      "miimon" = decimal_value x := by
    unfold option_number
    simp only [hmiimon]
  have hai : option_number
      { options := priv.options,
        options_idx_cache :=
          nm_utils_named_values_from_str_dict_with_sort priv.options _get_option_sort }
      "arp_interval" = decimal_value y := by
    unfold option_number
    simp only [harp]
  unfold verify_checks
  simp only [hfirst, NM_SETTING_BOND_OPTION_MIIMON, NM_SETTING_BOND_OPTION_ARP_INTERVAL, rmi,
    rai, hmi, hai, gt_iff_lt, Nat.cast_pos, hx, hy, decide_True, Bool.and_self, if_true]
  rfl

/-- A witness of C16: the options {mode=balance-rr, miimon=100,
arp_interval=200} loaded in bulk by `set_property`. -/
theorem verify_miimon_and_arp_interval_witness :
    (set_property nm_setting_bond_init
        (((AList.insert "mode" "balance-rr" (∅ : GHashTable)).insert "miimon" "100").insert
          "arp_interval" "200")).options.lookup "miimon" = some "100" ∧
    (set_property nm_setting_bond_init
        (((AList.insert "mode" "balance-rr" (∅ : GHashTable)).insert "miimon" "100").insert
          "arp_interval" "200")).options.lookup "arp_interval" = some "200" ∧
    0 < decimal_value "100" ∧ 0 < decimal_value "200" ∧
    (verify
        (set_property nm_setting_bond_init
          (((AList.insert "mode" "balance-rr" (∅ : GHashTable)).insert "miimon" "100").insert
            "arp_interval" "200"))
        none).1
      = some (.ERROR (bond_options_error
          "only one of 'miimon' and 'arp_interval' can be set")) :=
  ⟨by decide, by decide, by decide, by decide,
    verify_miimon_and_arp_interval
      (set_property nm_setting_bond_init
        (((AList.insert "mode" "balance-rr" (∅ : GHashTable)).insert "miimon" "100").insert
          "arp_interval" "200"))
      none "100" "200" (Or.inl rfl)
      ((any_invalid_eq_false_iff _).mp (by decide)) (by decide) (by decide) (by decide)
      (by decide)⟩

/-! ## The mode and the end of the verifier -/

/-- The strings that `nm_utils_bond_mode_string_to_int` knows: the seven names
and the seven indices. -/
theorem mode_known_cases (m : String) (h : nm_utils_bond_mode_string_to_int (some m) ≠ -1) :
    m ∈ ["balance-rr", "active-backup", "balance-xor", "broadcast", "802.3ad", "balance-tlb",
      "balance-alb", "0", "1", "2", "3", "4", "5", "6"] := by
  by_contra hmem
  apply h
  simp only [List.mem_cons, List.mem_singleton, not_or, List.not_mem_nil, or_false] at hmem
  obtain ⟨h1, h2, h3, h4, h5, h6, h7, h8, h9, h10, h11, h12, h13, h14⟩ := hmem
  unfold nm_utils_bond_mode_string_to_int bond_mode_table
  simp [List.findIdx?_cons, Ne.symm h1, Ne.symm h2, Ne.symm h3, Ne.symm h4, Ne.symm h5,
    Ne.symm h6, Ne.symm h7, Ne.symm h8, Ne.symm h9, Ne.symm h10, Ne.symm h11, Ne.symm h12,
    Ne.symm h13, Ne.symm h14]

/-- A mode that `nm_utils_bond_mode_string_to_int` knows passes the validator. -/
theorem mode_valid_of_known (m : String)
    (h : nm_utils_bond_mode_string_to_int (some m) ≠ -1) :
    nm_setting_bond_validate_option "mode" (some m) = true := by
  have hmem := mode_known_cases m h
  simp only [List.mem_cons, List.mem_singleton, List.not_mem_nil, or_false] at hmem
  rcases hmem with h | h | h | h | h | h | h | h | h | h | h | h | h | h <;> subst h <;> decide

/-- The canonical name of a mode name is the name itself. -/
theorem canonical_of_name (m : String) (h : m ∈ bond_mode_table.map Prod.fst) :
    nm_utils_bond_mode_int_to_string (nm_utils_bond_mode_string_to_int (some m)) = some m := by
  simp only [bond_mode_table, List.map_cons, List.map_nil, List.mem_cons, List.mem_singleton,
    List.not_mem_nil, or_false] at h
  rcases h with h | h | h | h | h | h | h <;> subst h <;> decide

/-- The function `nm_utils_bond_mode_int_to_string` returns names of the table. -/
theorem int_to_string_mem (i : Int) (s : String)
    (h : nm_utils_bond_mode_int_to_string i = some s) : s ∈ bond_mode_table.map Prod.fst := by
  unfold nm_utils_bond_mode_int_to_string at h
  split_ifs at h
  rw [Option.map_eq_some'] at h
  obtain ⟨row, hrow, hs⟩ := h
  exact List.mem_map.mpr ⟨row, List.mem_iff_getElem?.mpr ⟨_, hrow⟩, hs⟩

/-- A mode written in digits is not its canonical name. -/
theorem digits_not_canonical (m : String) (hdigits : m.data.all g_ascii_isdigit = true) :
    nm_utils_bond_mode_int_to_string (nm_utils_bond_mode_string_to_int (some m)) ≠ some m := by
  intro h
  have hmem := int_to_string_mem _ _ h
  simp only [bond_mode_table, List.map_cons, List.map_nil, List.mem_cons, List.mem_singleton,
    List.not_mem_nil, or_false] at hmem
  rcases hmem with h | h | h | h | h | h | h <;> subst h <;> exact absurd hdigits (by decide)

/-- The mutators leave the index dropped or untouched, so that no sequence of
calls builds it. -/
theorem run_calls_cache_none (calls : List StoreCall) :
    (run_calls calls).options_idx_cache = none := by
  have hstep : ∀ (calls : List StoreCall) (priv : NMSettingBondPrivate),
      priv.options_idx_cache = none →
      (calls.foldl StoreCall.run priv).options_idx_cache = none := by
    intro calls
    induction calls with
    | nil => intro priv h; exact h
    | cons call calls ih =>
      intro priv h
      apply ih
      cases call with
      | add_option name value =>
        simp only [StoreCall.run, nm_setting_bond_add_option]
        split
        · exact h
        · split_ifs <;> first | exact h | rfl
      | remove_option name =>
        simp only [StoreCall.run, nm_setting_bond_remove_option]
        split_ifs
        · exact h
        · rfl
  exact hstep calls nm_setting_bond_init rfl

/-- The setting that holds a known mode other than active-backup, a primary
and nothing else: `verify` returns the error of the rule on the primary. -/
theorem verify_primary_wrong_mode (priv : NMSettingBondPrivate)
    (connection : Option NMConnection) (m p : String) (hcache : cache_coherent priv)
    (hmode : priv.options.lookup "mode" = some m)
    (hprimary : priv.options.lookup "primary" = some p)
    (hother : ∀ k : String, k ≠ "mode" → k ≠ "primary" → priv.options.lookup k = none)
    (hp : nm_utils_ifname_valid_kernel p = true)
    (hm : nm_utils_bond_mode_string_to_int (some m) ≠ -1)
    (hnot : nm_utils_bond_mode_int_to_string (nm_utils_bond_mode_string_to_int (some m))
      ≠ some "active-backup") :
    (verify priv connection).1
      = some (.ERROR (bond_options_error
          "'primary' option is only valid for 'mode=active-backup'")) := by
  have hvalid : ∀ k v : String, priv.options.lookup k = some v →
      nm_setting_bond_validate_option k (some v) = true := by
    intro k v hl
    by_cases h1 : k = "mode"
    · subst h1
      rw [hmode] at hl
      cases hl
      exact mode_valid_of_known m hm
    · by_cases h2 : k = "primary"
      · subst h2
        rw [hprimary] at hl
        cases hl
        have hmeta : _get_option_meta "primary"
            = some { val := some "", opt_type := .IFNAME } := by decide
        simp [nm_setting_bond_validate_option, hmeta, validate_ifname, hp]
      · rw [hother k h1 h2] at hl
        cases hl
  unfold verify
  rw [ensure_cache_eq priv hcache]
  have hfirst := (first_invalid_none_iff priv.options).mpr hvalid
  have hm' : (nm_utils_bond_mode_string_to_int (some m) == -1) = false := by
    simpa using hm
  have hab : NM_IN_STRSET
      (nm_utils_bond_mode_int_to_string (nm_utils_bond_mode_string_to_int (some m)))
      ["active-backup"] = false := by
    rw [← Bool.not_eq_true, in_strset_single, beq_iff_eq]
    exact hnot
  unfold verify_checks
  simp only [hfirst, NM_SETTING_BOND_OPTION_MIIMON, NM_SETTING_BOND_OPTION_ARP_INTERVAL,
    NM_SETTING_BOND_OPTION_NUM_GRAT_ARP, NM_SETTING_BOND_OPTION_NUM_UNSOL_NA,
    NM_SETTING_BOND_OPTION_MODE, NM_SETTING_BOND_OPTION_PRIMARY,
    hother "miimon" (by decide) (by decide), hother "arp_interval" (by decide) (by decide),
    hother "num_grat_arp" (by decide) (by decide), hother "num_unsol_na" (by decide) (by decide),
    hmode, hprimary, atoi_if_set, hm', hab, gt_iff_lt, lt_self_iff_false, decide_False,
    Bool.and_false, Bool.false_and, Bool.false_eq_true, if_false]
  rfl

/-- The two ways `verify` ends for a setting whose index, if built, is the
sorted array of its options: with a fatal error, or, where no rule is broken
and the delegated check passes, with the result of its end. -/
theorem verify_cases (priv : NMSettingBondPrivate) (connection : Option NMConnection)
    (hcache : cache_coherent priv) :
    NMSettingVerifyResult.is_fatal (verify priv connection).1 = true ∨
    (fatal_rules priv connection = false ∧
      _nm_connection_verify_required_interface_name connection = none ∧
      ∃ (m : String) (cache : List (String × String)),
        priv.options.lookup "mode" = some m ∧
        nm_utils_named_values_from_str_dict_with_sort priv.options _get_option_sort
          = some cache ∧
        (verify priv connection).1
          = verify_normalizable { options := priv.options, options_idx_cache := some cache } m
              (canonical_mode priv)) := by
  unfold verify
  rw [ensure_cache_eq priv hcache]
  by_cases hvalid : ∀ k v : String, priv.options.lookup k = some v →
      nm_setting_bond_validate_option k (some v) = true
  · rcases verify_checks_of_valid priv.options _ connection rfl hvalid with
      ⟨_, h2⟩ | ⟨h1, m, hm, h2⟩
    · exact Or.inl h2
    · cases hiface : _nm_connection_verify_required_interface_name connection with
      | some error =>
        left
        rw [h2, hiface]
        rfl
      | none =>
        right
        refine ⟨h1, rfl, m, ?_⟩
        cases hc : nm_utils_named_values_from_str_dict_with_sort priv.options
            _get_option_sort with
        | none =>
          rw [(sorted_index_none_iff priv.options).mp hc "mode"] at hm
          cases hm
        | some cache =>
          refine ⟨cache, hm, rfl, ?_⟩
          rw [hc] at h2
          rw [h2, hiface]
          rfl
  · left
    have hfirst : first_invalid_option
        (nm_utils_named_values_from_str_dict_with_sort priv.options _get_option_sort) ≠ none :=
      fun h => hvalid ((first_invalid_none_iff priv.options).mp h)
    obtain ⟨n, hn⟩ := Option.ne_none_iff_exists'.mp hfirst
    rw [verify_checks_invalid _ _ _ n hn]
    rfl

/-- Where no fatal rule is broken and the delegated check passes, the result
of `verify` is the one of its end. -/
theorem verify_of_not_fatal (priv : NMSettingBondPrivate) (connection : Option NMConnection)
    (hcache : cache_coherent priv)
    (hiface : _nm_connection_verify_required_interface_name connection = none)
    (hrules : fatal_rules priv connection = false) :
    ∃ (m : String) (cache : List (String × String)),
      priv.options.lookup "mode" = some m ∧
      nm_utils_named_values_from_str_dict_with_sort priv.options _get_option_sort
        = some cache ∧
      (verify priv connection).1
        = verify_normalizable { options := priv.options, options_idx_cache := some cache } m
            (canonical_mode priv) := by
  rcases verify_cases priv connection hcache with h | ⟨_, _, h⟩
  · rw [verify_is_fatal_eq priv connection hcache hiface, hrules] at h
    cases h
  · exact h

/-- The end of `verify` for a stored mode that is not the canonical name. -/
theorem verify_normalizable_spelling (priv : NMSettingBondPrivate) (m : String)
    (mn : Option String) (h : mn ≠ some m) :
    verify_normalizable priv m mn
      = some (.NORMALIZABLE (bond_options_error "'mode' option should be string")) := by
  unfold verify_normalizable
  have hne : (some m == mn) = false := by
    rw [← Bool.not_eq_true, beq_iff_eq]
    exact fun h' => h h'.symm
  simp only [hne, Bool.not_false, if_true]
  rfl

/-- The end of `verify` for a stored mode that is the canonical name: `TRUE`
when every stored option is supported in the mode, otherwise the normalizable
error that names an unsupported stored option. -/
theorem verify_normalizable_support (hash : GHashTable) (cache : List (String × String))
    (m : String)
    (hc : nm_utils_named_values_from_str_dict_with_sort hash _get_option_sort = some cache) :
    ((∀ n v : String, hash.lookup n = some v →
        _nm_setting_bond_option_supported n (_nm_setting_bond_mode_from_string (some m)) = true) ∧
      verify_normalizable { options := hash, options_idx_cache := some cache } m (some m)
        = some .SUCCESS) ∨
    (∃ n v : String, hash.lookup n = some v ∧
      _nm_setting_bond_option_supported n (_nm_setting_bond_mode_from_string (some m))
        = false ∧
      verify_normalizable { options := hash, options_idx_cache := some cache } m (some m)
        = some (.NORMALIZABLE (bond_options_error
            ("'" ++ n ++ "' option is not valid with mode '" ++ m ++ "'")))) := by
  unfold verify_normalizable
  simp only [beq_self_eq_true, Bool.not_true, Bool.false_eq_true, if_false]
  cases hfind : cache.find?
      (fun n : String × String => !_nm_setting_bond_option_supported n.1
        (_nm_setting_bond_mode_from_string (some m))) with
  | none =>
    left
    refine ⟨?_, rfl⟩
    intro n v hl
    have hmem := (mem_sorted_index hash cache hc (n, v)).mpr hl
    have := List.find?_eq_none.mp hfind (n, v) hmem
    simpa using this
  | some n =>
    right
    have hmem := List.mem_of_find?_eq_some hfind
    have hn := List.find?_some hfind
    refine ⟨n.1, n.2, (mem_sorted_index hash cache hc n).mp hmem, ?_, rfl⟩
    simpa using hn

/-- A table of two pairs holds nothing under a third name. -/
theorem lookup_two_other (a b va vb k : String) (h1 : k ≠ a) (h2 : k ≠ b) :
    ((AList.insert a va (∅ : GHashTable)).insert b vb).lookup k = none := by
  rw [lookup_insert_ite, lookup_insert_ite, if_neg h2, if_neg h1]
  rfl

/-- The setting that holds the mode active-backup, a primary that is a valid
interface name and nothing else passes `verify` without a connection. -/
theorem verify_primary_active_backup (priv : NMSettingBondPrivate) (p : String)
    (hcache : cache_coherent priv)
    (hmode : priv.options.lookup "mode" = some "active-backup")
    (hprimary : priv.options.lookup "primary" = some p)
    (hother : ∀ k : String, k ≠ "mode" → k ≠ "primary" → priv.options.lookup k = none)
    (hp : nm_utils_ifname_valid_kernel p = true) :
    (verify priv none).1 = some .SUCCESS := by
  have hvalid : ∀ k v : String, priv.options.lookup k = some v →
      nm_setting_bond_validate_option k (some v) = true := by
    intro k v hl
    by_cases h1 : k = "mode"
    · subst h1
      rw [hmode] at hl
      cases hl
      decide
    · by_cases h2 : k = "primary"
      · subst h2
        rw [hprimary] at hl
        cases hl
        have hmeta : _get_option_meta "primary"
            = some { val := some "", opt_type := .IFNAME } := by decide
        simp [nm_setting_bond_validate_option, hmeta, validate_ifname, hp]
      · rw [hother k h1 h2] at hl
        cases hl
  have hany := (any_invalid_eq_false_iff priv.options).mpr hvalid
  have hcanon : canonical_mode priv = some "active-backup" := by
    unfold canonical_mode
    rw [hmode]
    decide
  have hrules : fatal_rules priv none = false := by
    unfold fatal_rules
    rw [hcanon]
    unfold option_number
    simp only [hany, hmode, hprimary, hother "miimon" (by decide) (by decide),
      hother "arp_interval" (by decide) (by decide),
      hother "updelay" (by decide) (by decide), hother "downdelay" (by decide) (by decide),
      hother "arp_ip_target" (by decide) (by decide),
      hother "lacp_rate" (by decide) (by decide),
      hother "num_grat_arp" (by decide) (by decide),
      hother "num_unsol_na" (by decide) (by decide), Option.isSome_some]
    decide
  obtain ⟨m, cache, hm, hc, hres⟩ := verify_of_not_fatal priv none hcache rfl hrules
  rw [hmode] at hm
  cases hm
  rw [hres, hcanon]
  rcases verify_normalizable_support priv.options cache "active-backup" hc with
    ⟨_, h⟩ | ⟨n, v, hl, hn, _⟩
  · exact h
  · exfalso
    by_cases h1 : n = "mode"
    · subst h1
      exact absurd hn (by decide)
    · by_cases h2 : n = "primary"
      · subst h2
        exact absurd hn (by decide)
      · rw [hother n h1 h2] at hl
        cases hl

/-- Claim C17. For every valid kernel interface name `p`: on a setting that
holds exactly `mode=m` and `primary=p`, where `m` is a mode (a name or an index
that `nm_utils_bond_mode_string_to_int` knows) other than active-backup,
`verify` returns the fatal error "'primary' option is only valid for
'mode=active-backup'", whatever the connection; on the setting that holds
exactly `mode=active-backup` and `primary=p`, without a connection, `verify`
returns `TRUE`. -/
theorem verify_primary_needs_active_backup (p : String)
    (hp : nm_utils_ifname_valid_kernel p = true) :
    (∀ (priv : NMSettingBondPrivate) (connection : Option NMConnection) (m : String),
      cache_coherent priv →
      priv.options.lookup "mode" = some m →
      priv.options.lookup "primary" = some p →
      (∀ k : String, k ≠ "mode" → k ≠ "primary" → priv.options.lookup k = none) →
      nm_utils_bond_mode_string_to_int (some m) ≠ -1 →
      nm_utils_bond_mode_int_to_string (nm_utils_bond_mode_string_to_int (some m))
        ≠ some "active-backup" →
      (verify priv connection).1
        = some (.ERROR (bond_options_error
            "'primary' option is only valid for 'mode=active-backup'"))) ∧
    (∀ priv : NMSettingBondPrivate,
      cache_coherent priv →
      priv.options.lookup "mode" = some "active-backup" →
      priv.options.lookup "primary" = some p →
      (∀ k : String, k ≠ "mode" → k ≠ "primary" → priv.options.lookup k = none) →
      (verify priv none).1 = some .SUCCESS) :=
  ⟨fun priv connection m hcache hmode hprimary hother hm hnot =>
      verify_primary_wrong_mode priv connection m p hcache hmode hprimary hother hp hm hnot,
    fun priv hcache hmode hprimary hother =>
      verify_primary_active_backup priv p hcache hmode hprimary hother hp⟩

/-- A witness of C17: `p = eth0`; the options {mode=balance-rr, primary=eth0}
loaded in bulk by `set_property` are refused, and so are the ones with the
modes `balance-alb` and `5`; {mode=active-backup, primary=eth0} passes. -/
theorem verify_primary_needs_active_backup_witness :
    nm_utils_ifname_valid_kernel "eth0" = true ∧
    (verify
        (set_property nm_setting_bond_init
          ((AList.insert "mode" "balance-rr" (∅ : GHashTable)).insert "primary" "eth0"))
        none).1
      = some (.ERROR (bond_options_error
          "'primary' option is only valid for 'mode=active-backup'")) ∧
    (verify
        (set_property nm_setting_bond_init
          ((AList.insert "mode" "balance-alb" (∅ : GHashTable)).insert "primary" "eth0"))
        none).1
      = some (.ERROR (bond_options_error
          "'primary' option is only valid for 'mode=active-backup'")) ∧
    (verify
        (set_property nm_setting_bond_init
          ((AList.insert "mode" "5" (∅ : GHashTable)).insert "primary" "eth0"))
        none).1
      = some (.ERROR (bond_options_error
          "'primary' option is only valid for 'mode=active-backup'")) ∧
    (verify
        (set_property nm_setting_bond_init
          ((AList.insert "mode" "active-backup" (∅ : GHashTable)).insert "primary" "eth0"))
        none).1
      = some .SUCCESS :=
  ⟨by decide,
    (verify_primary_needs_active_backup "eth0" (by decide)).1
      (set_property nm_setting_bond_init
        ((AList.insert "mode" "balance-rr" (∅ : GHashTable)).insert "primary" "eth0"))
      none "balance-rr" (Or.inl rfl) (by decide) (by decide)
      (fun k h1 h2 => by exact lookup_two_other "mode" "primary" "balance-rr" "eth0" k h1 h2)
      (by decide) (by decide),
    (verify_primary_needs_active_backup "eth0" (by decide)).1
      (set_property nm_setting_bond_init
        ((AList.insert "mode" "balance-alb" (∅ : GHashTable)).insert "primary" "eth0"))
      none "balance-alb" (Or.inl rfl) (by decide) (by decide)
      (fun k h1 h2 => by exact lookup_two_other "mode" "primary" "balance-alb" "eth0" k h1 h2)
      (by decide) (by decide),
    (verify_primary_needs_active_backup "eth0" (by decide)).1
      (set_property nm_setting_bond_init
        ((AList.insert "mode" "5" (∅ : GHashTable)).insert "primary" "eth0"))
      none "5" (Or.inl rfl) (by decide) (by decide)
      (fun k h1 h2 => by exact lookup_two_other "mode" "primary" "5" "eth0" k h1 h2)
      (by decide) (by decide),
    (verify_primary_needs_active_backup "eth0" (by decide)).2
      (set_property nm_setting_bond_init
        ((AList.insert "mode" "active-backup" (∅ : GHashTable)).insert "primary" "eth0"))
      (Or.inl rfl) (by decide) (by decide)
      (fun k h1 h2 => by exact lookup_two_other "mode" "primary" "active-backup" "eth0" k h1 h2)⟩

/-- Claim C18. On a setting that breaks none of the fatal rules (and a
connection that passes the delegated check), whose stored mode is written in
digits, `verify` returns the normalizable error "'mode' option should be
string": neither `TRUE` nor a fatal error, and not the error of an option
that the mode does not support, which is looked for afterwards only. -/
theorem verify_mode_index_normalizable (priv : NMSettingBondPrivate)
    (connection : Option NMConnection) (m : String) (hcache : cache_coherent priv)
    (hiface : _nm_connection_verify_required_interface_name connection = none)
    (hrules : fatal_rules priv connection = false)
    (hmode : priv.options.lookup "mode" = some m)
    (hdigits : m.data.all g_ascii_isdigit = true) :
    (verify priv connection).1
      = some (.NORMALIZABLE (bond_options_error "'mode' option should be string")) := by
  obtain ⟨m', cache, hm, _, hres⟩ := verify_of_not_fatal priv connection hcache hiface hrules
  rw [hmode] at hm
  cases hm
  rw [hres]
  apply verify_normalizable_spelling
  unfold canonical_mode
  rw [hmode]
  exact digits_not_canonical m hdigits

/-- A witness of C18: the options {mode=4, packets_per_slave=1}. The mode
802.3ad does not support `packets_per_slave`, which `verify` reports for
{mode=802.3ad, packets_per_slave=1}; with the mode written `4` the result is
the error on the spelling of the mode. -/
theorem verify_mode_index_normalizable_witness :
    fatal_rules
      (set_property nm_setting_bond_init
        ((AList.insert "mode" "4" (∅ : GHashTable)).insert "packets_per_slave" "1"))
      none = false ∧
    (verify
        (set_property nm_setting_bond_init
          ((AList.insert "mode" "802.3ad" (∅ : GHashTable)).insert "packets_per_slave" "1"))
        none).1
      = some (.NORMALIZABLE (bond_options_error
          "'packets_per_slave' option is not valid with mode '802.3ad'")) ∧
    (verify
        (set_property nm_setting_bond_init
          ((AList.insert "mode" "4" (∅ : GHashTable)).insert "packets_per_slave" "1"))
        none).1
      = some (.NORMALIZABLE (bond_options_error "'mode' option should be string")) :=
  ⟨by decide, by decide,
    verify_mode_index_normalizable
      (set_property nm_setting_bond_init
        ((AList.insert "mode" "4" (∅ : GHashTable)).insert "packets_per_slave" "1"))
      none "4" (Or.inl rfl) rfl (by decide) (by decide) (by decide)⟩

/-- Claim C19. For a setting whose index, if built, is the sorted array of its
options: `verify` returns `TRUE` exactly when no fatal rule is broken, the
delegated check passes, the stored mode is a canonical mode name and every
stored option is supported in that mode by `_nm_setting_bond_option_supported`;
and where no fatal rule is broken, the delegated check passes and the stored
mode is a canonical mode name, `verify` returns a normalizable error exactly
when some stored option is not supported in that mode. -/
theorem verify_option_support (priv : NMSettingBondPrivate) (connection : Option NMConnection)
    (hcache : cache_coherent priv) :
    ((verify priv connection).1 = some .SUCCESS ↔
      fatal_rules priv connection = false ∧
      _nm_connection_verify_required_interface_name connection = none ∧
      ∃ m : String, priv.options.lookup "mode" = some m ∧ m ∈ bond_mode_table.map Prod.fst ∧
        ∀ n v : String, priv.options.lookup n = some v →
          _nm_setting_bond_option_supported n (_nm_setting_bond_mode_from_string (some m))
            = true) ∧
    (∀ m : String, fatal_rules priv connection = false →
      _nm_connection_verify_required_interface_name connection = none →
      priv.options.lookup "mode" = some m → m ∈ bond_mode_table.map Prod.fst →
      ((∃ error, (verify priv connection).1 = some (.NORMALIZABLE error)) ↔
        ∃ n v : String, priv.options.lookup n = some v ∧
          _nm_setting_bond_option_supported n (_nm_setting_bond_mode_from_string (some m))
            = false)) := by
  have hend : ∀ m : String, fatal_rules priv connection = false →
      _nm_connection_verify_required_interface_name connection = none →
      priv.options.lookup "mode" = some m → m ∈ bond_mode_table.map Prod.fst →
      ((∀ n v : String, priv.options.lookup n = some v →
          _nm_setting_bond_option_supported n (_nm_setting_bond_mode_from_string (some m))
            = true) ∧
        (verify priv connection).1 = some .SUCCESS) ∨
      ((∃ n v : String, priv.options.lookup n = some v ∧
          _nm_setting_bond_option_supported n (_nm_setting_bond_mode_from_string (some m))
            = false) ∧
        ∃ error, (verify priv connection).1 = some (.NORMALIZABLE error)) := by
    intro m hrules hiface hmode hname
    obtain ⟨m', cache, hm, hc, hres⟩ :=
      verify_of_not_fatal priv connection hcache hiface hrules
    rw [hmode] at hm
    cases hm
    have hcanon : canonical_mode priv = some m := by
      unfold canonical_mode
      rw [hmode]
      exact canonical_of_name m hname
    rw [hres, hcanon]
    rcases verify_normalizable_support priv.options cache m hc with
      ⟨hall, h⟩ | ⟨n, v, hl, hn, h⟩
    · exact Or.inl ⟨hall, h⟩
    · exact Or.inr ⟨⟨n, v, hl, hn⟩, _, h⟩
  constructor
  · constructor
    · intro hok
      rcases verify_cases priv connection hcache with hfatal | ⟨hrules, hiface, m, cache, hm, hc, hres⟩
      · rw [hok] at hfatal
        cases hfatal
      · refine ⟨hrules, hiface, m, hm, ?_⟩
        have hcanon : canonical_mode priv = some m := by
          by_contra hne
          rw [hres, verify_normalizable_spelling _ m _ hne] at hok
          cases hok
        have hname : m ∈ bond_mode_table.map Prod.fst := int_to_string_mem _ _ hcanon
        refine ⟨hname, ?_⟩
        rcases hend m hrules hiface hm hname with ⟨hall, _⟩ | ⟨_, error, herr⟩
        · exact hall
        · rw [hok] at herr
          cases herr
    · rintro ⟨hrules, hiface, m, hm, hname, hall⟩
      rcases hend m hrules hiface hm hname with ⟨_, h⟩ | ⟨⟨n, v, hl, hn⟩, _⟩
      · exact h
      · rw [hall n v hl] at hn
        cases hn
  · intro m hrules hiface hm hname
    constructor
    · rintro ⟨error, herr⟩
      rcases hend m hrules hiface hm hname with ⟨_, h⟩ | ⟨hex, _⟩
      · rw [h] at herr
        cases herr
      · exact hex
    · rintro ⟨n, v, hl, hn⟩
      rcases hend m hrules hiface hm hname with ⟨hall, _⟩ | ⟨_, herr⟩
      · rw [hall n v hl] at hn
        cases hn
      · exact herr

/-- A witness of C19: the freshly constructed setting passes, so that its
mode is canonical and supports its options; {mode=802.3ad,
packets_per_slave=1} holds an option that 802.3ad does not support, and the
result is a normalizable error. -/
theorem verify_option_support_witness :
    (verify nm_setting_bond_init none).1 = some .SUCCESS ∧
    (fatal_rules nm_setting_bond_init none = false ∧
      _nm_connection_verify_required_interface_name none = none ∧
      ∃ m : String, nm_setting_bond_init.options.lookup "mode" = some m ∧
        m ∈ bond_mode_table.map Prod.fst ∧
        ∀ n v : String, nm_setting_bond_init.options.lookup n = some v →
          _nm_setting_bond_option_supported n (_nm_setting_bond_mode_from_string (some m))
            = true) ∧
    _nm_setting_bond_option_supported "packets_per_slave"
      (_nm_setting_bond_mode_from_string (some "802.3ad")) = false ∧
    ∃ error,
      (verify
          (set_property nm_setting_bond_init
            ((AList.insert "mode" "802.3ad" (∅ : GHashTable)).insert "packets_per_slave" "1"))
          none).1
        = some (.NORMALIZABLE error) :=
  ⟨by decide,
    (verify_option_support nm_setting_bond_init none (Or.inl rfl)).1.mp (by decide),
    by decide,
    ((verify_option_support
        (set_property nm_setting_bond_init
          ((AList.insert "mode" "802.3ad" (∅ : GHashTable)).insert "packets_per_slave" "1"))
        none (Or.inl rfl)).2
      "802.3ad" (by decide) rfl (by decide) (by decide)).mpr
      ⟨"packets_per_slave", "1", by decide, by decide⟩⟩

/-- Against claim C20: `remove_option` removes the mandatory `mode` from a
freshly constructed setting, and `add_option` adds `updelay=5` to one without
`miimon`; both calls succeed, and `verify` reports a fatal error on each of
the two settings. -/
theorem store_breaks_verifier_rules :
    (nm_setting_bond_remove_option nm_setting_bond_init "mode").1 = true ∧
    (verify (run_calls [.remove_option "mode"]) none).1
      = some (.ERROR (bond_options_error "mandatory option 'mode' is missing")) ∧
    (nm_setting_bond_add_option nm_setting_bond_init "updelay" (some "5")).1 = true ∧
    (verify (run_calls [.add_option "updelay" (some "5")]) none).1
      = some (.ERROR (bond_options_error
          "'updelay' option requires 'miimon' option to be enabled")) := by
  decide

/-- Claim C20, amended. Every setting that a sequence of `add_option` and
`remove_option` calls leaves of a freshly constructed one has all its pairs
valid for `nm_setting_bond_validate_option`, so that the first loop of
`verify` finds no invalid option in it; the other rules of the verifier are
not kept by the store: on some such setting `verify` reports a fatal error. -/
theorem store_keeps_pairs_not_rules :
    (∀ calls : List StoreCall,
      (∀ n v : String, (run_calls calls).options.lookup n = some v →
        nm_setting_bond_validate_option n (some v) = true) ∧
      first_invalid_option (verify (run_calls calls) none).2.options_idx_cache = none) ∧
    (∃ calls : List StoreCall,
      NMSettingVerifyResult.is_fatal (verify (run_calls calls) none).1 = true) := by
  constructor
  · intro calls
    have hvalid : ∀ n v : String, (run_calls calls).options.lookup n = some v →
        nm_setting_bond_validate_option n (some v) = true :=
      foldl_pairs_valid calls nm_setting_bond_init init_pairs_valid
    refine ⟨hvalid, ?_⟩
    unfold verify
    rw [ensure_cache_eq _ (Or.inl (run_calls_cache_none calls))]
    exact (first_invalid_none_iff _).mpr hvalid
  · exact ⟨[.remove_option "mode"], by decide⟩

/-! ## The list of options and the indices of the modes -/

/-- The keys of the lookup table are the names of the list of valid options. -/
theorem registry_keys_mem_iff (name : String) :
    name ∈ _get_option_meta_LIST.map Prod.fst ↔ name ∈ valid_options_lst := by
  constructor
  · intro h
    obtain ⟨row, hrow, hname⟩ := List.mem_map.mp h
    rw [← hname]
    exact (registry_rows_sound row hrow).1
  · revert name
    decide

/-- Claim C21. The registry knows exactly 27 option names:
`nm_setting_bond_get_valid_options` returns 27 pairwise distinct names, in the
order of the specification (§3.3): mode, miimon, downdelay, updelay,
arp_interval, .., tlb_dynamic_lb, lp_interval; `_get_option_meta` finds a row
exactly for the names of that list; the sorted lookup table has 27 rows with
pairwise distinct keys, which are the names of the list. -/
theorem valid_options_registry (setting : NMSettingBondPrivate) :
    nm_setting_bond_get_valid_options setting
      = ["mode", "miimon", "downdelay", "updelay", "arp_interval", "arp_ip_target",
          "arp_validate", "primary", "primary_reselect", "fail_over_mac", "use_carrier",
          "ad_select", "xmit_hash_policy", "resend_igmp", "lacp_rate", "active_slave",
          "ad_actor_sys_prio", "ad_actor_system", "ad_user_port_key", "all_slaves_active",
          "arp_all_targets", "min_links", "num_grat_arp", "num_unsol_na", "packets_per_slave",
          "tlb_dynamic_lb", "lp_interval"] ∧
    (nm_setting_bond_get_valid_options setting).length = 27 ∧
    (nm_setting_bond_get_valid_options setting).Nodup ∧
    (∀ name : String, (_get_option_meta name).isSome = true ↔
      name ∈ nm_setting_bond_get_valid_options setting) ∧
    _get_option_meta_LIST.length = 27 ∧
    (_get_option_meta_LIST.map Prod.fst).Nodup ∧
    (∀ name : String, name ∈ _get_option_meta_LIST.map Prod.fst ↔
      name ∈ nm_setting_bond_get_valid_options setting) := by
  have hlen : valid_options_lst.length = 27 := by decide
  have hnodup : valid_options_lst.Nodup := by decide
  exact ⟨rfl, hlen, hnodup, get_option_meta_isSome_iff, rfl, by decide, registry_keys_mem_iff⟩

/-- The names that `_nm_setting_bond_mode_from_string` knows. -/
theorem mode_from_string_unknown (name : String) (h : name ∉ _option_default_strv_mode) :
    _nm_setting_bond_mode_from_string (some name) = .UNKNOWN := by
  simp only [_option_default_strv_mode, List.mem_cons, List.mem_singleton, not_or,
    List.not_mem_nil, or_false, not_false_eq_true, and_true] at h
  obtain ⟨h1, h2, h3, h4, h5, h6, h7⟩ := h
  simp [_nm_setting_bond_mode_from_string, h1, h2, h3, h4, h5, h6, h7]

/-- Claim C22. The mapping between the names and the indices of the bond
modes: `nm_utils_bond_mode_string_to_int` maps balance-rr to 0, active-backup
to 1, balance-xor to 2, broadcast to 3, 802.3ad to 4, balance-tlb to 5 and
balance-alb to 6; the position of a name in the list of mode names
`_option_default_strv_mode` is the index of the mode that
`_nm_setting_bond_mode_from_string` gives for it, and is what
`nm_utils_bond_mode_string_to_int` returns for it; every other string is
mapped to the unknown mode by `_nm_setting_bond_mode_from_string`; and
`nm_utils_bond_mode_int_to_string` maps the index of a mode name back to the
name. -/
theorem bond_mode_mapping :
    ([ "balance-rr", "active-backup", "balance-xor", "broadcast", "802.3ad", "balance-tlb",
        "balance-alb" ].map (fun name => nm_utils_bond_mode_string_to_int (some name))
      = [0, 1, 2, 3, 4, 5, 6]) ∧
    (∀ (i : Nat) (name : String), _option_default_strv_mode[i]? = some name →
      (_nm_setting_bond_mode_from_string (some name)).index = some i ∧
      nm_utils_bond_mode_string_to_int (some name) = (i : Int)) ∧
    (∀ name : String, name ∉ _option_default_strv_mode →
      _nm_setting_bond_mode_from_string (some name) = .UNKNOWN) ∧
    (∀ m : String, m ∈ _option_default_strv_mode →
      nm_utils_bond_mode_int_to_string (nm_utils_bond_mode_string_to_int (some m)) = some m) := by
  refine ⟨by decide, ?_, mode_from_string_unknown, ?_⟩
  · intro i name h
    have hi : i < 7 := by
      by_contra hge
      have hlen : _option_default_strv_mode.length ≤ i := by
        have : _option_default_strv_mode.length = 7 := rfl
        omega
      rw [List.getElem?_eq_none hlen] at h
      cases h
    interval_cases i <;> (cases h; decide)
  · intro m hm
    exact canonical_of_name m (by revert m; decide) 

/-! ## C33: the registry passes its own assertions -/

/-- Every row of the registry passes `_nm_assert_bond_meta`, and with it the
facts that the assertions state for the type of the row; the default of a row
of type `INT` or `BOTH` passes the validator under the name of the row. -/
theorem registry_rows_asserted :
    ∀ row ∈ _get_option_meta_LIST,
      _nm_assert_bond_meta row.2 = true ∧
      (row.2.opt_type = .INT →
        row.2.list = none ∧ row.2.min < row.2.max ∧ row.2.val.isSome = true ∧
        ∀ val ∈ row.2.val, val.data.all g_ascii_isdigit = true ∧
          row.2.min ≤ decimal_value val ∧ decimal_value val ≤ row.2.max) ∧
      (row.2.opt_type = .BOTH →
        row.2.min = 0 ∧ row.2.val.isSome = true ∧ row.2.list.isSome = true ∧
        ∀ val ∈ row.2.val, ∀ list ∈ row.2.list,
          list ≠ [] ∧ row.2.max = list.length - 1 ∧ val ∈ list) ∧
      (row.2.opt_type = .IP ∨ row.2.opt_type = .IFNAME → row.2.val ≠ none) ∧
      (row.2.opt_type = .MAC ∨ row.2.opt_type = .IP ∨ row.2.opt_type = .IFNAME →
        row.2.list = none ∧ row.2.min = 0 ∧ row.2.max = 0) ∧
      (row.2.opt_type = .INT ∨ row.2.opt_type = .BOTH →
        nm_setting_bond_validate_option row.1 row.2.val = true) := by
  have h1 : ∀ row ∈ _get_option_meta_LIST, _nm_assert_bond_meta row.2 = true := by decide
  have h2 : ∀ row ∈ _get_option_meta_LIST, row.2.opt_type = .INT →
      row.2.list = none ∧ row.2.min < row.2.max ∧ row.2.val.isSome = true ∧
      ∀ val ∈ row.2.val, val.data.all g_ascii_isdigit = true ∧
        row.2.min ≤ decimal_value val ∧ decimal_value val ≤ row.2.max := by decide
  have h3 : ∀ row ∈ _get_option_meta_LIST, row.2.opt_type = .BOTH →
      row.2.min = 0 ∧ row.2.val.isSome = true ∧ row.2.list.isSome = true ∧
      ∀ val ∈ row.2.val, ∀ list ∈ row.2.list,
        list ≠ [] ∧ row.2.max = list.length - 1 ∧ val ∈ list := by decide
  have h4 : ∀ row ∈ _get_option_meta_LIST,
      row.2.opt_type = .IP ∨ row.2.opt_type = .IFNAME → row.2.val ≠ none := by decide
  have h5 : ∀ row ∈ _get_option_meta_LIST,
      row.2.opt_type = .MAC ∨ row.2.opt_type = .IP ∨ row.2.opt_type = .IFNAME →
      row.2.list = none ∧ row.2.min = 0 ∧ row.2.max = 0 := by decide
  have h6 : ∀ row ∈ _get_option_meta_LIST,
      row.2.opt_type = .INT ∨ row.2.opt_type = .BOTH →
      nm_setting_bond_validate_option row.1 row.2.val = true := by decide
  exact fun row hrow =>
    ⟨h1 row hrow, h2 row hrow, h3 row hrow, h4 row hrow, h5 row hrow, h6 row hrow⟩

/-- Claim C33. The registry has 27 entries and each of them satisfies the
assertions of `_nm_assert_bond_meta`: an `INT` entry has no list, `min < max`
and a default of digits whose value lies in `[min, max]`; a `BOTH`
(INT_OR_LIST) entry has a list that is not empty, `min = 0`, `max` the length
of the list minus one and a default that is in the list; an `IP` or `IFNAME`
entry has a default that is not `NULL`; a `MAC`, `IP` or `IFNAME` entry has no
list and `min = max = 0`. Hence the validator accepts the default of every
`INT` and `BOTH` option under the name of the option. -/
theorem registry_self_consistent :
    _get_option_meta_LIST.length = 27 ∧
    (∀ row ∈ _get_option_meta_LIST, _nm_assert_bond_meta row.2 = true) ∧
    (∀ (name : String) (option_meta : OptionMeta), _get_option_meta name = some option_meta →
      _nm_assert_bond_meta option_meta = true ∧
      (option_meta.opt_type = .INT →
        option_meta.list = none ∧ option_meta.min < option_meta.max ∧
        ∃ val : String, option_meta.val = some val ∧ val.data.all g_ascii_isdigit = true ∧
          option_meta.min ≤ decimal_value val ∧ decimal_value val ≤ option_meta.max) ∧
      (option_meta.opt_type = .BOTH →
        option_meta.min = 0 ∧
        ∃ (val : String) (list : List String), option_meta.val = some val ∧
          option_meta.list = some list ∧ list ≠ [] ∧
          option_meta.max = list.length - 1 ∧ val ∈ list) ∧
      (option_meta.opt_type = .IP ∨ option_meta.opt_type = .IFNAME →
        option_meta.val ≠ none) ∧
      (option_meta.opt_type = .MAC ∨ option_meta.opt_type = .IP
          ∨ option_meta.opt_type = .IFNAME →
        option_meta.list = none ∧ option_meta.min = 0 ∧ option_meta.max = 0) ∧
      (option_meta.opt_type = .INT ∨ option_meta.opt_type = .BOTH →
        nm_setting_bond_validate_option name option_meta.val = true)) := by
  refine ⟨by decide, fun row hrow => (registry_rows_asserted row hrow).1, ?_⟩
  intro name option_meta h
  obtain ⟨h1, h2, h3, h4, h5, h6⟩ :=
    registry_rows_asserted (name, option_meta) (get_option_meta_mem h)
  refine ⟨h1, ?_, ?_, h4, h5, h6⟩
  · intro ht
    obtain ⟨hl, hlt, hsome, hval⟩ := h2 ht
    obtain ⟨val, hv⟩ := Option.isSome_iff_exists.mp hsome
    exact ⟨hl, hlt, val, hv, hval val hv⟩
  · intro ht
    obtain ⟨hmin, hsome, hlist, hval⟩ := h3 ht
    obtain ⟨val, hv⟩ := Option.isSome_iff_exists.mp hsome
    obtain ⟨list, hl⟩ := Option.isSome_iff_exists.mp hlist
    exact ⟨hmin, val, list, hv, hl, hval val hv list hl⟩

/-! ## C39: the side effects of `add_option` test the string, not the number -/

/-- Claim C39. The exclusion side effect of `add_option` is triggered by the
value differing from the string "0", not by its number: "00" is a valid value
that reads as zero, and on every setting `add_option (s, "miimon", "00")`
succeeds, stores "00" and leaves neither `arp_interval` nor `arp_ip_target`,
although `verify` then reads `miimon` as 0; symmetrically `add_option (s,
"arp_interval", "00")` leaves none of `miimon`, `downdelay`, `updelay`. With
the string "0" the same calls remove nothing. On the setting that holds
`arp_interval=100` and `arp_ip_target=10.0.0.1`, the call with `miimon=00`
removes both. -/
theorem add_option_zero_spelling (priv : NMSettingBondPrivate) :
    (nm_setting_bond_validate_option "miimon" (some "00") = true ∧
      nm_setting_bond_validate_option "arp_interval" (some "00") = true ∧
      decimal_value "00" = 0 ∧ atoi "00" = 0) ∧
    ((nm_setting_bond_add_option priv "miimon" (some "00")).1 = true ∧
      (nm_setting_bond_add_option priv "miimon" (some "00")).2.options.lookup "miimon"
        = some "00" ∧
      (nm_setting_bond_add_option priv "miimon" (some "00")).2.options.lookup "arp_interval"
        = none ∧
      (nm_setting_bond_add_option priv "miimon" (some "00")).2.options.lookup "arp_ip_target"
        = none ∧
      atoi_if_set
        ((nm_setting_bond_add_option priv "miimon" (some "00")).2.options.lookup "miimon") 0
        = 0 ∧
      option_number (nm_setting_bond_add_option priv "miimon" (some "00")).2 "miimon" = 0) ∧
    ((nm_setting_bond_add_option priv "arp_interval" (some "00")).1 = true ∧
      (nm_setting_bond_add_option priv "arp_interval" (some "00")).2.options.lookup
        "arp_interval" = some "00" ∧
      (nm_setting_bond_add_option priv "arp_interval" (some "00")).2.options.lookup "miimon"
        = none ∧
      (nm_setting_bond_add_option priv "arp_interval" (some "00")).2.options.lookup "downdelay"
        = none ∧
      (nm_setting_bond_add_option priv "arp_interval" (some "00")).2.options.lookup "updelay"
        = none ∧
      atoi_if_set
        ((nm_setting_bond_add_option priv "arp_interval" (some "00")).2.options.lookup
          "arp_interval") 0 = 0 ∧
      option_number (nm_setting_bond_add_option priv "arp_interval" (some "00")).2
        "arp_interval" = 0) ∧
    ((∀ k : String, k ≠ "miimon" →
        (nm_setting_bond_add_option priv "miimon" (some "0")).2.options.lookup k
          = priv.options.lookup k) ∧
      (∀ k : String, k ≠ "arp_interval" →
        (nm_setting_bond_add_option priv "arp_interval" (some "0")).2.options.lookup k
          = priv.options.lookup k)) ∧
    ((run_calls [.add_option "arp_interval" (some "100"),
          .add_option "arp_ip_target" (some "10.0.0.1")]).options.lookup "arp_interval"
        = some "100" ∧
      (run_calls [.add_option "arp_interval" (some "100"),
          .add_option "arp_ip_target" (some "10.0.0.1")]).options.lookup "arp_ip_target"
        = some "10.0.0.1" ∧
      (run_calls [.add_option "arp_interval" (some "100"),
          .add_option "arp_ip_target" (some "10.0.0.1"),
          .add_option "miimon" (some "00")]).options.entries
        = [⟨"miimon", "00"⟩, ⟨"mode", "balance-rr"⟩]) := by
  have hm : nm_setting_bond_validate_option "miimon" (some "00") = true := by decide
  have ha : nm_setting_bond_validate_option "arp_interval" (some "00") = true := by decide
  have hd : decimal_value "00" = 0 := by decide
  have hatoi : atoi "00" = 0 := by decide
  have hm0 : nm_setting_bond_validate_option "miimon" (some "0") = true := by decide
  have ha0 : nm_setting_bond_validate_option "arp_interval" (some "0") = true := by decide
  refine ⟨⟨hm, ha, hd, hatoi⟩, ⟨?_, ?_, ?_, ?_, ?_, ?_⟩, ⟨?_, ?_, ?_, ?_, ?_, ?_, ?_⟩,
    ⟨?_, ?_⟩, by decide, by decide, by decide⟩
  · rw [add_option_fst, hm]; rfl
  · rw [add_option_lookup priv "miimon" "00" "miimon" hm]; simp
  · rw [add_option_lookup priv "miimon" "00" "arp_interval" hm]; simp
  · rw [add_option_lookup priv "miimon" "00" "arp_ip_target" hm]; simp
  · rw [add_option_lookup priv "miimon" "00" "miimon" hm]; simp [atoi_if_set, hatoi]
  · unfold option_number
    rw [add_option_lookup priv "miimon" "00" "miimon" hm]; simp [hd]
  · rw [add_option_fst, ha]; rfl
  · rw [add_option_lookup priv "arp_interval" "00" "arp_interval" ha]; simp
  · rw [add_option_lookup priv "arp_interval" "00" "miimon" ha]; simp
  · rw [add_option_lookup priv "arp_interval" "00" "downdelay" ha]; simp
  · rw [add_option_lookup priv "arp_interval" "00" "updelay" ha]; simp
  · rw [add_option_lookup priv "arp_interval" "00" "arp_interval" ha]; simp [atoi_if_set, hatoi]
  · unfold option_number
    rw [add_option_lookup priv "arp_interval" "00" "arp_interval" ha]; simp [hd]
  · intro k hk
    rw [add_option_lookup priv "miimon" "0" k hm0]; simp [hk]
  · intro k hk
    rw [add_option_lookup priv "arp_interval" "0" k ha0]; simp [hk]

/-! ## C32: `lacp_rate` outside of 802.3ad -/

/-- A fatal result is an error. -/
theorem is_fatal_iff (result : Option NMSettingVerifyResult) :
    NMSettingVerifyResult.is_fatal result = true ↔ ∃ error, result = some (.ERROR error) := by
  constructor
  · intro h
    match result, h with
    | some (.ERROR error), _ => exact ⟨error, rfl⟩
  · rintro ⟨error, rfl⟩
    rfl

/-- Only the name "802.3ad" is looked up as the mode 802.3ad. -/
theorem mode_from_string_8023ad (m : String)
    (h : _nm_setting_bond_mode_from_string (some m) = .MODE_8023AD) : m = "802.3ad" := by
  unfold _nm_setting_bond_mode_from_string at h
  by_cases h1 : m = "802.3ad"
  · exact h1
  · simp only [beq_iff_eq, h1, if_false] at h
    split_ifs at h

/-- The option `lacp_rate` is supported in the mode 802.3ad only. -/
theorem lacp_rate_unsupported (mode : NMBondMode) (h : mode ≠ .MODE_8023AD) :
    _nm_setting_bond_option_supported "lacp_rate" mode = false := by
  cases mode <;> first | exact absurd rfl h | decide

/-- Claim C32. For a setting that stores `lacp_rate` and whose mode is not
802.3ad (the index, if built, being the sorted array of the options): when
`lacp_rate` is "fast" or "1", `verify` returns a fatal error; when it is
"slow" or "0" and the setting is otherwise valid (no fatal rule is broken and
the delegated check passes), `verify` returns a normalizable error, never
`TRUE`: the default passes the fatal rule, but the option is not supported in
the mode. -/
theorem verify_lacp_rate_outside_8023ad (priv : NMSettingBondPrivate)
    (connection : Option NMConnection) (r : String) (hcache : cache_coherent priv)
    (hlacp : priv.options.lookup "lacp_rate" = some r)
    (hmode : canonical_mode priv ≠ some "802.3ad") :
    ((r = "fast" ∨ r = "1") → ∃ error, (verify priv connection).1 = some (.ERROR error)) ∧
    ((r = "slow" ∨ r = "0") → fatal_rules priv connection = false →
      _nm_connection_verify_required_interface_name connection = none →
      (∃ error, (verify priv connection).1 = some (.NORMALIZABLE error)) ∧
      (verify priv connection).1 ≠ some .SUCCESS) := by
  constructor
  · intro hr
    apply (is_fatal_iff _).mp
    rcases verify_cases priv connection hcache with h | ⟨hrules, _⟩
    · exact h
    · have hbroken : fatal_rules priv connection = true := by
        unfold fatal_rules
        have h1 : (priv.options.lookup "lacp_rate").isSome = true := by rw [hlacp]; rfl
        have h2 : (canonical_mode priv != some "802.3ad") = true := by
          rw [bne_iff_ne]; exact hmode
        have h3 : (priv.options.lookup "lacp_rate" != some "slow") = true := by
          rw [hlacp, bne_iff_ne]
          rcases hr with hr | hr <;> subst hr <;> decide
        have h4 : (priv.options.lookup "lacp_rate" != some "0") = true := by
          rw [hlacp, bne_iff_ne]
          rcases hr with hr | hr <;> subst hr <;> decide
        simp only [h1, h2, h3, h4, Bool.and_self, Bool.or_true, Bool.true_or]
      rw [hbroken] at hrules
      cases hrules
  · intro _ hrules hiface
    obtain ⟨m, cache, hm, hc, hres⟩ := verify_of_not_fatal priv connection hcache hiface hrules
    have hnorm : ∃ error, (verify priv connection).1 = some (.NORMALIZABLE error) := by
      by_cases hcanon : canonical_mode priv = some m
      · rw [hres, hcanon]
        rcases verify_normalizable_support priv.options cache m hc with
          ⟨hall, _⟩ | ⟨n, v, _, _, h⟩
        · have hne : _nm_setting_bond_mode_from_string (some m) ≠ .MODE_8023AD := by
            intro h
            apply hmode
            rw [hcanon, mode_from_string_8023ad m h]
          have hsupp := hall "lacp_rate" r hlacp
          rw [lacp_rate_unsupported _ hne] at hsupp
          cases hsupp
        · exact ⟨_, h⟩
      · rw [hres]
        exact ⟨_, verify_normalizable_spelling _ m _ hcanon⟩
    refine ⟨hnorm, ?_⟩
    obtain ⟨error, herr⟩ := hnorm
    rw [herr]
    exact fun h => by cases h

/-- A witness of C32: with the mode balance-rr, {lacp_rate=fast} is a fatal
error and {lacp_rate=slow} a normalizable one. -/
theorem verify_lacp_rate_outside_8023ad_witness :
    (∃ error, (verify
        (set_property nm_setting_bond_init
          ((AList.insert "mode" "balance-rr" (∅ : GHashTable)).insert "lacp_rate" "fast"))
        none).1 = some (.ERROR error)) ∧
    ((∃ error, (verify
        (set_property nm_setting_bond_init
          ((AList.insert "mode" "balance-rr" (∅ : GHashTable)).insert "lacp_rate" "slow"))
        none).1 = some (.NORMALIZABLE error)) ∧
      (verify
        (set_property nm_setting_bond_init
          ((AList.insert "mode" "balance-rr" (∅ : GHashTable)).insert "lacp_rate" "slow"))
        none).1 ≠ some .SUCCESS) :=
  ⟨(verify_lacp_rate_outside_8023ad
      (set_property nm_setting_bond_init
        ((AList.insert "mode" "balance-rr" (∅ : GHashTable)).insert "lacp_rate" "fast"))
      none "fast" (Or.inl rfl) (by decide) (by decide)).1 (Or.inl rfl),
    (verify_lacp_rate_outside_8023ad
      (set_property nm_setting_bond_init
        ((AList.insert "mode" "balance-rr" (∅ : GHashTable)).insert "lacp_rate" "slow"))
      none "slow" (Or.inl rfl) (by decide) (by decide)).2 (Or.inl rfl) (by decide) rfl⟩

/-! ## C34: the store keeps the two link monitors exclusive -/

/-- An error whose message starts with other characters than the message of a
second error is not that error. -/
theorem error_ne_of_prefix (p s t : String) (h : t.data.take p.data.length ≠ p.data) :
    bond_options_error (p ++ s) ≠ bond_options_error t := by
  intro e
  apply h
  have hm : "bond.options: " ++ (p ++ s) = "bond.options: " ++ t := congrArg GError.message e
  have hd := congrArg String.data hm
  simp only [String.data_append] at hd
  have ht := List.append_cancel_left hd
  rw [← ht]
  simp

/-- The error of the delegated check has the code of a missing property. -/
theorem required_interface_name_code (connection : Option NMConnection) (error : GError)
    (h : _nm_connection_verify_required_interface_name connection = some error) :
    error.code = .MISSING_PROPERTY := by
  unfold _nm_connection_verify_required_interface_name at h
  split at h
  · cases h
  · split at h
    · cases h
    · cases h
      rfl

/-- The error on `miimon` and `arp_interval` is returned by the test of the two
numbers only: no other error of `verify` has its message. -/
theorem verify_checks_only_one (priv : NMSettingBondPrivate) (connection : Option NMConnection)
    (h : verify_checks priv connection
      = some (.ERROR (bond_options_error
          "only one of 'miimon' and 'arp_interval' can be set"))) :
    atoi_if_set (priv.options.lookup "miimon") 0 > 0 ∧
      atoi_if_set (priv.options.lookup "arp_interval") 0 > 0 := by
  by_contra hc
  have hc' : (decide (atoi_if_set (priv.options.lookup "miimon") 0 > 0)
      && decide (atoi_if_set (priv.options.lookup "arp_interval") 0 > 0)) = false := by
    simpa using hc
  unfold verify_checks verify_normalizable at h
  simp only [NM_SETTING_BOND_OPTION_MIIMON, NM_SETTING_BOND_OPTION_ARP_INTERVAL, hc',
    Bool.false_eq_true, if_false] at h
  repeat' (split at h)
  all_goals (try simp only [Option.some.injEq, NMSettingVerifyResult.ERROR.injEq, reduceCtorEq] at h)
  all_goals (try simp only [String.append_assoc] at h)
  all_goals (try exact error_ne_of_prefix _ _ _ (by decide) h)
  all_goals (subst h; rename_i heq)
  all_goals (try exact absurd (required_interface_name_code _ _ heq) (by decide))
  all_goals (repeat' (split at heq))
  all_goals (try simp only [Option.some.injEq, reduceCtorEq] at heq)
  all_goals (try simp only [String.append_assoc] at heq)
  all_goals (try exact error_ne_of_prefix _ _ _ (by decide) heq)

/-- The index that `_ensure_options_idx_cache` builds leaves the options as
they are. -/
theorem ensure_cache_options (priv : NMSettingBondPrivate) :
    (_ensure_options_idx_cache priv).options = priv.options := by
  unfold _ensure_options_idx_cache
  split <;> rfl

/-- A call of a mutator keeps the two link monitors exclusive. -/
theorem run_monitor_exclusive (priv : NMSettingBondPrivate) (call : StoreCall)
    (h : ¬ (0 < option_number priv "miimon" ∧ 0 < option_number priv "arp_interval")) :
    ¬ (0 < option_number (StoreCall.run priv call) "miimon" ∧
      0 < option_number (StoreCall.run priv call) "arp_interval") := by
  cases call with
  | add_option name value =>
    cases value with
    | none => exact h
    | some v =>
      cases hvalid : nm_setting_bond_validate_option name (some v) with
      | false =>
        have : nm_setting_bond_add_option priv name (some v) = (false, priv) := by
          simp [nm_setting_bond_add_option, hvalid]
        simp only [StoreCall.run, this]
        exact h
      | true =>
        unfold option_number at h ⊢
        simp only [StoreCall.run, add_option_lookup priv name v _ hvalid]
        by_cases h1 : name = "miimon"
        · subst h1
          by_cases h0 : v = "0"
          · subst h0
            simp [show decimal_value "0" = 0 by decide]
          · simp [h0]
        · by_cases h2 : name = "arp_interval"
          · subst h2
            by_cases h0 : v = "0"
            · subst h0
              simp [show decimal_value "0" = 0 by decide]
            · simp [h0]
          · simpa [h1, h2, Ne.symm h1, Ne.symm h2] using h
  | remove_option name =>
    unfold option_number at h ⊢
    simp only [StoreCall.run, nm_setting_bond_remove_option]
    split_ifs
    · exact h
    · simp only [lookup_erase_ite]
      by_cases h1 : name = "miimon"
      · subst h1
        simp
      · by_cases h2 : name = "arp_interval"
        · subst h2
          simp
        · simpa [Ne.symm h1, Ne.symm h2] using h

/-- Sequences of calls keep the two link monitors exclusive. -/
theorem foldl_monitor_exclusive (calls : List StoreCall) (priv : NMSettingBondPrivate)
    (h : ¬ (0 < option_number priv "miimon" ∧ 0 < option_number priv "arp_interval")) :
    ¬ (0 < option_number (calls.foldl StoreCall.run priv) "miimon" ∧
      0 < option_number (calls.foldl StoreCall.run priv) "arp_interval") := by
  induction calls generalizing priv with
  | nil => exact h
  | cons call calls ih => exact ih _ (run_monitor_exclusive priv call h)

/-- Claim C34. In every setting that a sequence of `add_option` and
`remove_option` calls leaves of a freshly constructed one, `miimon` and
`arp_interval` are never both stored with a number above 0; hence `verify`
never returns its error "only one of 'miimon' and 'arp_interval' can be set"
on such a setting, whereas it does on the bulk-loaded options {mode=balance-rr,
miimon=100, arp_interval=100}. -/
theorem store_monitor_exclusive (calls : List StoreCall) (connection : Option NMConnection) :
    ¬ (0 < option_number (run_calls calls) "miimon" ∧
      0 < option_number (run_calls calls) "arp_interval") ∧
    (verify (run_calls calls) connection).1
      ≠ some (.ERROR (bond_options_error
          "only one of 'miimon' and 'arp_interval' can be set")) ∧
    (verify
        (set_property nm_setting_bond_init
          (((AList.insert "mode" "balance-rr" (∅ : GHashTable)).insert "miimon" "100").insert
            "arp_interval" "100"))
        connection).1
      = some (.ERROR (bond_options_error
          "only one of 'miimon' and 'arp_interval' can be set")) := by
  have hinv : ¬ (0 < option_number (run_calls calls) "miimon" ∧
      0 < option_number (run_calls calls) "arp_interval") :=
    foldl_monitor_exclusive calls nm_setting_bond_init (by decide)
  refine ⟨hinv, ?_, ?_⟩
  · intro h
    have hvalid : pairs_valid (run_calls calls) :=
      foldl_pairs_valid calls nm_setting_bond_init init_pairs_valid
    obtain ⟨h1, h2⟩ := verify_checks_only_one _ connection h
    rw [ensure_cache_options] at h1 h2
    rw [atoi_if_set_zero (run_calls calls).options (run_calls calls).options_idx_cache hvalid
      "miimon" (by decide)] at h1
    rw [atoi_if_set_zero (run_calls calls).options (run_calls calls).options_idx_cache hvalid
      "arp_interval" (by decide)] at h2
    exact hinv ⟨by exact_mod_cast h1, by exact_mod_cast h2⟩
  · rfl

/-! ## C37: the checks that `verify` repeats after its first loop -/

/-- The state that `_ensure_options_idx_cache` leaves is coherent. -/
theorem ensure_cache_coherent (priv : NMSettingBondPrivate) (hcache : cache_coherent priv) :
    cache_coherent (_ensure_options_idx_cache priv) := by
  rw [ensure_cache_eq priv hcache]
  exact Or.inr rfl

/-- With a coherent index `get_option` returns the pair of the sorted view. -/
theorem get_option_eq_uncached (priv : NMSettingBondPrivate) (hcache : cache_coherent priv)
    (idx : Nat) :
    (nm_setting_bond_get_option priv idx).1 = get_option_uncached priv idx := by
  unfold nm_setting_bond_get_option get_option_uncached
  rw [ensure_cache_eq priv hcache]
  by_cases hidx : idx ≥ priv.options.entries.length
  · rw [if_pos hidx]
    cases hc : nm_utils_named_values_from_str_dict_with_sort priv.options _get_option_sort with
    | none => rfl
    | some view =>
      unfold nm_utils_named_values_from_str_dict_with_sort at hc
      split_ifs at hc
      cases hc
      symm
      apply List.getElem?_eq_none
      rw [List.length_insertionSort, List.length_map]
      exact hidx
  · rw [if_neg hidx]
    cases hc : nm_utils_named_values_from_str_dict_with_sort priv.options _get_option_sort <;>
      rfl

/-- A call of `get_option` leaves the options as they are and the index
coherent. -/
theorem get_option_state (priv : NMSettingBondPrivate) (hcache : cache_coherent priv)
    (idx : Nat) :
    (nm_setting_bond_get_option priv idx).2.options = priv.options ∧
      cache_coherent (nm_setting_bond_get_option priv idx).2 := by
  unfold nm_setting_bond_get_option
  by_cases hidx : idx ≥ priv.options.entries.length
  · rw [if_pos hidx]
    exact ⟨rfl, hcache⟩
  · rw [if_neg hidx]
    have h : ∀ r : Option (String × String) × NMSettingBondPrivate,
        r.2 = _ensure_options_idx_cache priv →
        r.2.options = priv.options ∧ cache_coherent r.2 := by
      intro r hr
      rw [hr]
      exact ⟨ensure_cache_options priv, ensure_cache_coherent priv hcache⟩
    apply h
    simp only
    split <;> rfl

/-- Every call keeps the index coherent. -/
theorem run_cache_coherent (priv : NMSettingBondPrivate) (call : SettingCall)
    (hcache : cache_coherent priv) : cache_coherent (SettingCall.run priv call) := by
  cases call with
  | add_option name value =>
    simp only [SettingCall.run, nm_setting_bond_add_option]
    split
    · exact hcache
    · split_ifs <;> first | exact hcache | exact Or.inl rfl
  | remove_option name =>
    simp only [SettingCall.run, nm_setting_bond_remove_option]
    split_ifs
    · exact hcache
    · exact Or.inl rfl
  | set_property value => exact Or.inl rfl
  | get_option idx => exact (get_option_state priv hcache idx).2
  | verify connection => exact ensure_cache_coherent priv hcache

/-- Sequences of calls keep the index coherent. -/
theorem foldl_cache_coherent (calls : List SettingCall) (priv : NMSettingBondPrivate)
    (hcache : cache_coherent priv) : cache_coherent (calls.foldl SettingCall.run priv) := by
  induction calls generalizing priv with
  | nil => exact hcache
  | cons call calls ih => exact ih _ (run_cache_coherent priv call hcache)

/-- An iteration over a coherent setting returns the pairs of the sorted view
and leaves the options as they are and the index coherent. -/
theorem get_option_sequence_eq (idxs : List Nat) (priv : NMSettingBondPrivate)
    (hcache : cache_coherent priv) :
    (get_option_sequence priv idxs).1 = idxs.map (get_option_uncached priv) ∧
      (get_option_sequence priv idxs).2.options = priv.options ∧
      cache_coherent (get_option_sequence priv idxs).2 := by
  induction idxs generalizing priv with
  | nil => exact ⟨rfl, rfl, hcache⟩
  | cons idx rest ih =>
    obtain ⟨hopt, hco⟩ := get_option_state priv hcache idx
    obtain ⟨h1, h2, h3⟩ := ih _ hco
    refine ⟨?_, ?_, ?_⟩
    · show _ :: _ = _ :: _
      rw [h1, get_option_eq_uncached priv hcache idx]
      unfold get_option_uncached
      rw [hopt]
    · show (get_option_sequence (nm_setting_bond_get_option priv idx).2 rest).2.options = _
      rw [h2, hopt]
    · exact h3

/-- The end of `verify` returns a result when the index is built. -/
theorem verify_normalizable_cached (hash : GHashTable) (cache : List (String × String))
    (m : String) (mn : Option String) :
    verify_normalizable { options := hash, options_idx_cache := some cache } m mn ≠ none := by
  unfold verify_normalizable
  split_ifs
  · exact fun h => by cases h
  · simp only
    split <;> exact fun h => by cases h

/-- Claim C40. In every state that a sequence of calls of `add_option`,
`remove_option`, the property setter, `get_option` and `verify` leaves of a
freshly constructed setting, the index, when built, is the sorted view
computed from the current options. Hence `get_option` returns at every index
what an implementation without the index returns; an iteration returns the
pairs of the sorted view, and a second iteration over the state that the first
one left returns the same sequence. Moreover `verify` returns a result, and
where the result is not a fatal error (the only case in which its last loop
reads the index without a test for `NULL`), `mode` is stored and the index
that `verify` leaves is built and not empty. -/
theorem index_cache_coherent (calls : List SettingCall) :
    cache_coherent (run_setting_calls calls) ∧
    (∀ cache : List (String × String),
      (run_setting_calls calls).options_idx_cache = some cache →
      nm_utils_named_values_from_str_dict_with_sort (run_setting_calls calls).options
        _get_option_sort = some cache) ∧
    (∀ idx : Nat, (nm_setting_bond_get_option (run_setting_calls calls) idx).1
      = get_option_uncached (run_setting_calls calls) idx) ∧
    (∀ idxs : List Nat,
      (get_option_sequence (run_setting_calls calls) idxs).1
        = idxs.map (get_option_uncached (run_setting_calls calls)) ∧
      (get_option_sequence (get_option_sequence (run_setting_calls calls) idxs).2 idxs).1
        = (get_option_sequence (run_setting_calls calls) idxs).1) ∧
    (∀ connection : Option NMConnection,
      (verify (run_setting_calls calls) connection).1 ≠ none ∧
      (NMSettingVerifyResult.is_fatal (verify (run_setting_calls calls) connection).1 = false →
        ∃ (m : String) (cache : List (String × String)),
          (run_setting_calls calls).options.lookup "mode" = some m ∧
          (verify (run_setting_calls calls) connection).2.options_idx_cache = some cache ∧
          ("mode", m) ∈ cache)) := by
  have hcache : cache_coherent (run_setting_calls calls) :=
    foldl_cache_coherent calls nm_setting_bond_init (Or.inl rfl)
  refine ⟨hcache, ?_, get_option_eq_uncached _ hcache, ?_, ?_⟩
  · intro cache hc
    rcases hcache with h | h
    · rw [h] at hc
      cases hc
    · rw [← h, hc]
  · intro idxs
    obtain ⟨h1, h2, h3⟩ := get_option_sequence_eq idxs _ hcache
    refine ⟨h1, ?_⟩
    rw [(get_option_sequence_eq idxs _ h3).1, h1]
    unfold get_option_uncached
    rw [h2]
  · intro connection
    rcases verify_cases _ connection hcache with hfatal | ⟨_, _, m, cache, hm, hc, hres⟩
    · constructor
      · intro h
        rw [h] at hfatal
        cases hfatal
      · intro h
        rw [h] at hfatal
        cases hfatal
    · constructor
      · rw [hres]
        exact verify_normalizable_cached _ _ _ _
      · intro _
        refine ⟨m, cache, hm, ?_, (mem_sorted_index _ cache hc ("mode", m)).mpr hm⟩
        show (_ensure_options_idx_cache (run_setting_calls calls)).options_idx_cache = _
        rw [ensure_cache_eq _ hcache]
        exact hc

/-! ## C35: the fatal verdict does not depend on the spelling of the mode -/

/-- The fatal verdict of `verify`: a rule is broken or the delegated check
fails. -/
theorem verify_is_fatal_general (priv : NMSettingBondPrivate)
    (connection : Option NMConnection) (hcache : cache_coherent priv) :
    NMSettingVerifyResult.is_fatal (verify priv connection).1
      = (fatal_rules priv connection
          || (_nm_connection_verify_required_interface_name connection).isSome) := by
  cases hiface : _nm_connection_verify_required_interface_name connection with
  | none =>
    rw [verify_is_fatal_eq priv connection hcache hiface]
    simp
  | some error =>
    rcases verify_cases priv connection hcache with h | ⟨_, h, _⟩
    · rw [h]
      simp
    · rw [hiface] at h
      cases h

/-- The pairs of a table stay valid when the mode is replaced by a valid
one. -/
theorem insert_mode_valid (hash : GHashTable) (a b : String)
    (hb : nm_setting_bond_validate_option "mode" (some b) = true)
    (h : ∀ k v : String, (hash.insert "mode" a).lookup k = some v →
      nm_setting_bond_validate_option k (some v) = true) :
    ∀ k v : String, (hash.insert "mode" b).lookup k = some v →
      nm_setting_bond_validate_option k (some v) = true := by
  intro k v hl
  rw [lookup_insert_ite] at hl
  by_cases hk : k = "mode"
  · rw [if_pos hk] at hl
    cases hl
    rw [hk]
    exact hb
  · rw [if_neg hk] at hl
    apply h
    rw [lookup_insert_ite, if_neg hk]
    exact hl

/-- The rules of the verifier do not tell two valid spellings of the same mode
apart. -/
theorem fatal_rules_mode_congr (hash : GHashTable) (connection : Option NMConnection)
    (a b : String)
    (ha : nm_setting_bond_validate_option "mode" (some a) = true)
    (hb : nm_setting_bond_validate_option "mode" (some b) = true)
    (hab : nm_utils_bond_mode_string_to_int (some a)
      = nm_utils_bond_mode_string_to_int (some b)) :
    fatal_rules { options := hash.insert "mode" a, options_idx_cache := none } connection
      = fatal_rules { options := hash.insert "mode" b, options_idx_cache := none }
          connection := by
  have hany : (hash.insert "mode" a).entries.any
        (fun entry => !nm_setting_bond_validate_option entry.1 (some entry.2))
      = (hash.insert "mode" b).entries.any
        (fun entry => !nm_setting_bond_validate_option entry.1 (some entry.2)) := by
    rw [Bool.eq_iff_iff, ← not_iff_not, Bool.not_eq_true, Bool.not_eq_true,
      any_invalid_eq_false_iff, any_invalid_eq_false_iff]
    exact ⟨insert_mode_valid hash a b hb, insert_mode_valid hash b a ha⟩
  unfold fatal_rules canonical_mode option_number
  simp only [hany, lookup_insert_ite, if_true, hab,
    show ("miimon" = "mode") = False from by decide,
    show ("arp_interval" = "mode") = False from by decide,
    show ("primary" = "mode") = False from by decide,
    show ("updelay" = "mode") = False from by decide,
    show ("downdelay" = "mode") = False from by decide,
    show ("arp_ip_target" = "mode") = False from by decide,
    show ("lacp_rate" = "mode") = False from by decide,
    show ("num_grat_arp" = "mode") = False from by decide,
    show ("num_unsol_na" = "mode") = False from by decide, if_false]
  rfl

/-- The fatal verdict of `verify` is the same for two valid spellings of the
same mode. -/
theorem verify_fatal_mode_congr (hash : GHashTable) (connection : Option NMConnection)
    (a b : String)
    (ha : nm_setting_bond_validate_option "mode" (some a) = true)
    (hb : nm_setting_bond_validate_option "mode" (some b) = true)
    (hab : nm_utils_bond_mode_string_to_int (some a)
      = nm_utils_bond_mode_string_to_int (some b)) :
    NMSettingVerifyResult.is_fatal
        (verify { options := hash.insert "mode" a, options_idx_cache := none } connection).1
      = NMSettingVerifyResult.is_fatal
        (verify { options := hash.insert "mode" b, options_idx_cache := none } connection).1 := by
  rw [verify_is_fatal_general _ connection (Or.inl rfl),
    verify_is_fatal_general _ connection (Or.inl rfl),
    fatal_rules_mode_congr hash connection a b ha hb hab]

/-- Claim C35. For every options map and every index `i` in 0 .. 6, with
`name` the `i`-th canonical mode name: `verify` on the map with `mode` set to
the decimal string of `i` returns a fatal error exactly when `verify` on the
map with `mode` set to `name` does; hence where the first result is a
normalizable error, the second one is not a fatal error. -/
theorem verify_fatal_mode_spelling (hash : GHashTable) (connection : Option NMConnection)
    (i : Fin 7) :
    ∃ name : String,
      nm_utils_bond_mode_int_to_string (i.val : Int) = some name ∧
      nm_utils_bond_mode_string_to_int (some (Nat.repr i.val)) = (i.val : Int) ∧
      nm_utils_bond_mode_string_to_int (some name) = (i.val : Int) ∧
      (NMSettingVerifyResult.is_fatal
          (verify { options := hash.insert "mode" (Nat.repr i.val), options_idx_cache := none }
            connection).1 = true ↔
        NMSettingVerifyResult.is_fatal
          (verify { options := hash.insert "mode" name, options_idx_cache := none }
            connection).1 = true) ∧
      (∀ error : GError,
        (verify { options := hash.insert "mode" (Nat.repr i.val), options_idx_cache := none }
          connection).1 = some (.NORMALIZABLE error) →
        NMSettingVerifyResult.is_fatal
          (verify { options := hash.insert "mode" name, options_idx_cache := none }
            connection).1 = false) := by
  have hpair : ∀ a b : String,
      nm_setting_bond_validate_option "mode" (some a) = true →
      nm_setting_bond_validate_option "mode" (some b) = true →
      nm_utils_bond_mode_string_to_int (some a) = nm_utils_bond_mode_string_to_int (some b) →
      (NMSettingVerifyResult.is_fatal
          (verify { options := hash.insert "mode" a, options_idx_cache := none }
            connection).1 = true ↔
        NMSettingVerifyResult.is_fatal
          (verify { options := hash.insert "mode" b, options_idx_cache := none }
            connection).1 = true) ∧
      (∀ error : GError,
        (verify { options := hash.insert "mode" a, options_idx_cache := none }
          connection).1 = some (.NORMALIZABLE error) →
        NMSettingVerifyResult.is_fatal
          (verify { options := hash.insert "mode" b, options_idx_cache := none }
            connection).1 = false) := by
    intro a b ha hb hab
    have h := verify_fatal_mode_congr hash connection a b ha hb hab
    refine ⟨by rw [h], ?_⟩
    intro error herr
    rw [← h, herr]
    rfl
  fin_cases i
  · exact ⟨"balance-rr", by decide, by decide, by decide,
      hpair "0" "balance-rr" (by decide) (by decide) (by decide)⟩
  · exact ⟨"active-backup", by decide, by decide, by decide,
      hpair "1" "active-backup" (by decide) (by decide) (by decide)⟩
  · exact ⟨"balance-xor", by decide, by decide, by decide,
      hpair "2" "balance-xor" (by decide) (by decide) (by decide)⟩
  · exact ⟨"broadcast", by decide, by decide, by decide,
      hpair "3" "broadcast" (by decide) (by decide) (by decide)⟩
  · exact ⟨"802.3ad", by decide, by decide, by decide,
      hpair "4" "802.3ad" (by decide) (by decide) (by decide)⟩
  · exact ⟨"balance-tlb", by decide, by decide, by decide,
      hpair "5" "balance-tlb" (by decide) (by decide) (by decide)⟩
  · exact ⟨"balance-alb", by decide, by decide, by decide,
      hpair "6" "balance-alb" (by decide) (by decide) (by decide)⟩

/-! ## C36: deleting the unsupported options heals the setting -/

/-- The lookup in a table from which the names of a list that fail a test are
erased. -/
theorem lookup_foldl_erase (p : String → Bool) (names : List String) (hash : GHashTable)
    (k : String) :
    (names.foldl (fun options name => if p name then options else options.erase name)
        hash).lookup k
      = if k ∈ names ∧ p k = false then none else hash.lookup k := by
  induction names generalizing hash with
  | nil => simp
  | cons name names ih =>
    rw [List.foldl_cons, ih]
    by_cases hk : k ∈ names ∧ p k = false
    · rw [if_pos hk, if_pos ⟨List.mem_cons_of_mem _ hk.1, hk.2⟩]
    · rw [if_neg hk]
      by_cases hp : p name = true
      · rw [if_pos hp]
        by_cases hkn : k = name
        · subst hkn
          rw [if_neg]
          rintro ⟨_, hf⟩
          rw [hp] at hf
          cases hf
        · rw [if_neg]
          rintro ⟨hm, hf⟩
          rcases List.mem_cons.mp hm with h | h
          · exact hkn h
          · exact hk ⟨h, hf⟩
      · rw [if_neg hp, lookup_erase_ite]
        by_cases hkn : k = name
        · subst hkn
          rw [if_pos rfl, if_pos]
          exact ⟨List.mem_cons_self _ _, by simpa using hp⟩
        · rw [if_neg hkn, if_neg]
          rintro ⟨hm, hf⟩
          rcases List.mem_cons.mp hm with h | h
          · exact hkn h
          · exact hk ⟨h, hf⟩

/-- The options of the culled setting: the supported ones of the setting. -/
theorem cull_lookup (priv : NMSettingBondPrivate) (mode : NMBondMode) (k : String) :
    (cull_unsupported_options priv mode).options.lookup k
      = if _nm_setting_bond_option_supported k mode = true then priv.options.lookup k
        else none := by
  unfold cull_unsupported_options
  simp only
  rw [lookup_foldl_erase]
  by_cases hp : _nm_setting_bond_option_supported k mode = true
  · rw [if_pos hp, if_neg]
    rintro ⟨_, hf⟩
    rw [hp] at hf
    cases hf
  · rw [if_neg hp]
    by_cases hk : k ∈ priv.options.keys
    · rw [if_pos ⟨hk, by simpa using hp⟩]
    · rw [if_neg (fun h => hk h.1)]
      exact AList.lookup_eq_none.mpr hk

/-- A setting that breaks no fatal rule breaks none after options are deleted,
when the deletions keep `mode` and `miimon` and treat `arp_interval` and
`arp_ip_target` alike. -/
theorem fatal_rules_restrict (priv culled : NMSettingBondPrivate)
    (connection : Option NMConnection) (p : String → Bool)
    (hlook : ∀ k : String,
      culled.options.lookup k = if p k = true then priv.options.lookup k else none)
    (hmode : p "mode" = true) (hmiimon : p "miimon" = true)
    (harp : p "arp_interval" = p "arp_ip_target")
    (h : fatal_rules priv connection = false) : fatal_rules culled connection = false := by
  have hsome : ∀ k v : String, culled.options.lookup k = some v →
      priv.options.lookup k = some v ∧ p k = true := by
    intro k v hv
    rw [hlook] at hv
    by_cases hp : p k = true
    · rw [if_pos hp] at hv
      exact ⟨hv, hp⟩
    · rw [if_neg hp] at hv
      cases hv
  have hkeep : ∀ k : String, p k = true → culled.options.lookup k = priv.options.lookup k := by
    intro k hp
    rw [hlook, if_pos hp]
  have hpos : ∀ k : String, 0 < option_number culled k →
      0 < option_number priv k ∧ p k = true := by
    intro k hk
    unfold option_number at hk ⊢
    cases hc : culled.options.lookup k with
    | none =>
      rw [hc] at hk
      exact absurd hk (lt_irrefl 0)
    | some v =>
      rw [hc] at hk
      rw [(hsome k v hc).1]
      exact ⟨hk, (hsome k v hc).2⟩
  have hnum : ∀ k : String, p k = true → option_number culled k = option_number priv k := by
    intro k hp
    unfold option_number
    rw [hkeep k hp]
  have hcanon : canonical_mode culled = canonical_mode priv := by
    unfold canonical_mode
    rw [hkeep "mode" hmode]
  rw [← Bool.not_eq_true]
  intro hc
  have hp : fatal_rules priv connection = true := by
    rw [fatal_rules_iff]
    rcases (fatal_rules_iff culled connection).mp hc with
      ⟨n, v, hl, hv⟩ | ⟨h1, h2⟩ | h1 | h1 | ⟨h1, h2⟩ | ⟨⟨q, h1⟩, h2⟩ | ⟨h1, h2⟩ | ⟨h1, h2⟩ |
      ⟨h1, h2⟩ | ⟨h1, t, h2⟩ | ⟨r, h1, h2, h3, h4⟩ | ⟨x, y, h1, h2, h3⟩
    · exact Or.inl ⟨n, v, (hsome n v hl).1, hv⟩
    · exact Or.inr (Or.inl ⟨(hpos _ h1).1, (hpos _ h2).1⟩)
    · rw [hkeep "mode" hmode] at h1
      exact Or.inr (Or.inr (Or.inl h1))
    · rw [hkeep "mode" hmode] at h1
      exact Or.inr (Or.inr (Or.inr (Or.inl h1)))
    · rw [hcanon] at h1
      exact Or.inr (Or.inr (Or.inr (Or.inr (Or.inl ⟨h1, (hpos _ h2).1⟩))))
    · rw [hcanon] at h2
      exact Or.inr (Or.inr (Or.inr (Or.inr (Or.inr (Or.inl ⟨⟨q, (hsome _ _ h1).1⟩, h2⟩)))))
    · rw [hcanon] at h2
      exact Or.inr (Or.inr (Or.inr (Or.inr (Or.inr (Or.inr (Or.inl ⟨h1, h2⟩))))))
    · rw [hnum "miimon" hmiimon] at h1
      refine Or.inr (Or.inr (Or.inr (Or.inr (Or.inr (Or.inr (Or.inr (Or.inl ⟨h1, ?_⟩)))))))
      rcases h2 with h2 | h2
      · exact Or.inl (hpos _ h2).1
      · exact Or.inr (hpos _ h2).1
    · obtain ⟨h1', hpa⟩ := hpos _ h1
      rw [hkeep "arp_ip_target" (harp ▸ hpa)] at h2
      exact Or.inr (Or.inr (Or.inr (Or.inr (Or.inr (Or.inr (Or.inr (Or.inr
        (Or.inl ⟨h1', h2⟩))))))))
    · obtain ⟨h2', hpt⟩ := hsome _ _ h2
      rw [hnum "arp_interval" (harp.symm ▸ hpt)] at h1
      exact Or.inr (Or.inr (Or.inr (Or.inr (Or.inr (Or.inr (Or.inr (Or.inr (Or.inr
        (Or.inl ⟨h1, t, h2'⟩)))))))))
    · rw [hcanon] at h2
      exact Or.inr (Or.inr (Or.inr (Or.inr (Or.inr (Or.inr (Or.inr (Or.inr (Or.inr (Or.inr
        (Or.inl ⟨r, (hsome _ _ h1).1, h2, h3, h4⟩))))))))))
    · exact Or.inr (Or.inr (Or.inr (Or.inr (Or.inr (Or.inr (Or.inr (Or.inr (Or.inr (Or.inr
        (Or.inr ⟨x, y, (hsome _ _ h1).1, (hsome _ _ h2).1, h3⟩))))))))))
  rw [h] at hp
  cases hp

/-- Claim C36. For a setting whose stored mode is a canonical mode name (the
index, if built, being the sorted array of the options) and on which `verify`
returns a normalizable error, `verify` returns `TRUE` on the setting obtained
by deleting every stored option that `_nm_setting_bond_option_supported`
rejects for that mode: the deletions introduce no fatal error. The options
`mode`, `miimon`, `updelay` and `downdelay` are supported in every mode and so
never deleted, and `arp_interval` and `arp_ip_target` are supported in the same
modes. -/
theorem culling_heals (priv : NMSettingBondPrivate) (connection : Option NMConnection)
    (m : String) (error : GError) (hcache : cache_coherent priv)
    (hmode : priv.options.lookup "mode" = some m)
    (hcanon : m ∈ bond_mode_table.map Prod.fst)
    (hnorm : (verify priv connection).1 = some (.NORMALIZABLE error)) :
    (verify (cull_unsupported_options priv (_nm_setting_bond_mode_from_string (some m)))
        connection).1 = some .SUCCESS ∧
    (∀ k : String,
      (cull_unsupported_options priv (_nm_setting_bond_mode_from_string (some m))).options.lookup
          k
        = if _nm_setting_bond_option_supported k (_nm_setting_bond_mode_from_string (some m))
            = true then priv.options.lookup k
          else none) ∧
    (∀ mode : NMBondMode,
      _nm_setting_bond_option_supported "mode" mode = true ∧
      _nm_setting_bond_option_supported "miimon" mode = true ∧
      _nm_setting_bond_option_supported "updelay" mode = true ∧
      _nm_setting_bond_option_supported "downdelay" mode = true ∧
      _nm_setting_bond_option_supported "arp_interval" mode
        = _nm_setting_bond_option_supported "arp_ip_target" mode) := by
  have hsupp : ∀ mode : NMBondMode,
      _nm_setting_bond_option_supported "mode" mode = true ∧
      _nm_setting_bond_option_supported "miimon" mode = true ∧
      _nm_setting_bond_option_supported "updelay" mode = true ∧
      _nm_setting_bond_option_supported "downdelay" mode = true ∧
      _nm_setting_bond_option_supported "arp_interval" mode
        = _nm_setting_bond_option_supported "arp_ip_target" mode := by
    intro mode
    cases mode <;> decide
  refine ⟨?_, cull_lookup priv _, hsupp⟩
  generalize hmd : _nm_setting_bond_mode_from_string (some m) = mode
  have hlook := cull_lookup priv mode
  have hco : cache_coherent (cull_unsupported_options priv mode) := Or.inl rfl
  rcases verify_cases priv connection hcache with hfatal | ⟨hrules, hiface, _⟩
  · rw [hnorm] at hfatal
    cases hfatal
  · have hrules' := fatal_rules_restrict priv (cull_unsupported_options priv mode) connection
      (fun k => _nm_setting_bond_option_supported k mode) hlook (hsupp mode).1
      (hsupp mode).2.1 (hsupp mode).2.2.2.2 hrules
    obtain ⟨m', cache, hm', hc, hres⟩ :=
      verify_of_not_fatal (cull_unsupported_options priv mode) connection hco hiface hrules'
    have hm : (cull_unsupported_options priv mode).options.lookup "mode" = some m := by
      rw [hlook, if_pos (hsupp mode).1, hmode]
    rw [hm] at hm'
    cases hm'
    have hcm : canonical_mode (cull_unsupported_options priv mode) = some m := by
      unfold canonical_mode
      rw [hm]
      exact canonical_of_name m hcanon
    rw [hres, hcm]
    rcases verify_normalizable_support _ cache m hc with ⟨_, hok⟩ | ⟨n, v, hl, hn, _⟩
    · exact hok
    · rw [hlook] at hl
      rw [hmd] at hn
      rw [if_neg (by rw [hn]; exact Bool.false_ne_true)] at hl
      cases hl

/-- A witness of C36: {mode=802.3ad, packets_per_slave=1, miimon=100} gets a
normalizable error, and {mode=802.3ad, miimon=100}, which the culling leaves,
passes. -/
theorem culling_heals_witness :
    (verify
        (set_property nm_setting_bond_init
          (((AList.insert "mode" "802.3ad" (∅ : GHashTable)).insert "packets_per_slave"
            "1").insert "miimon" "100"))
        none).1
      = some (.NORMALIZABLE (bond_options_error
          "'packets_per_slave' option is not valid with mode '802.3ad'")) ∧
    (cull_unsupported_options
        (set_property nm_setting_bond_init
          (((AList.insert "mode" "802.3ad" (∅ : GHashTable)).insert "packets_per_slave"
            "1").insert "miimon" "100"))
        (_nm_setting_bond_mode_from_string (some "802.3ad"))).options.entries
      = [⟨"miimon", "100"⟩, ⟨"mode", "802.3ad"⟩] ∧
    (verify
        (cull_unsupported_options
          (set_property nm_setting_bond_init
            (((AList.insert "mode" "802.3ad" (∅ : GHashTable)).insert "packets_per_slave"
              "1").insert "miimon" "100"))
          (_nm_setting_bond_mode_from_string (some "802.3ad")))
        none).1 = some .SUCCESS := by
  have hnorm : (verify
        (set_property nm_setting_bond_init
          (((AList.insert "mode" "802.3ad" (∅ : GHashTable)).insert "packets_per_slave"
            "1").insert "miimon" "100"))
        none).1
      = some (.NORMALIZABLE (bond_options_error
          "'packets_per_slave' option is not valid with mode '802.3ad'")) := by decide
  have hheal := culling_heals
    (set_property nm_setting_bond_init
      (((AList.insert "mode" "802.3ad" (∅ : GHashTable)).insert "packets_per_slave"
        "1").insert "miimon" "100"))
    none "802.3ad"
    (bond_options_error "'packets_per_slave' option is not valid with mode '802.3ad'")
    (Or.inl rfl) (by decide) (by decide) hnorm
  exact ⟨hnorm, by decide, hheal.1⟩

/-! ## C38: `options_equal` is an equivalence relation -/

/-- The default of an option other than `ad_actor_system` does not depend on
the setting. -/
theorem get_option_default_const (a b : NMSettingBondPrivate) (k : String)
    (hk : k ≠ "ad_actor_system") :
    nm_setting_bond_get_option_default a k = nm_setting_bond_get_option_default b k := by
  unfold nm_setting_bond_get_option_default
  cases _get_option_meta k with
  | none => rfl
  | some option_meta =>
    simp only [NM_SETTING_BOND_OPTION_AD_ACTOR_SYSTEM, beq_iff_eq, hk, if_false]

/-- The default of an option depends on the setting through the test of its
stored mode against "4" and "802.3ad" only. -/
theorem get_option_default_class (a b : NMSettingBondPrivate) (k : String)
    (hclass : NM_IN_STRSET (a.options.lookup "mode") ["4", "802.3ad"]
      = NM_IN_STRSET (b.options.lookup "mode") ["4", "802.3ad"]) :
    nm_setting_bond_get_option_default a k = nm_setting_bond_get_option_default b k := by
  have hget : ∀ priv : NMSettingBondPrivate,
      nm_setting_bond_get_option_by_name priv NM_SETTING_BOND_OPTION_MODE
        = priv.options.lookup "mode" := by
    intro priv
    rw [get_option_by_name_eq, if_pos (by decide)]
  unfold nm_setting_bond_get_option_default
  rw [hget, hget, hclass]

/-- The test of the stored mode against "4" and "802.3ad" reads the effective
value of the mode as well. -/
theorem mode_class_effective (s : NMSettingBondPrivate) :
    NM_IN_STRSET (s.options.lookup "mode") ["4", "802.3ad"]
      = NM_IN_STRSET (effective_value s "mode") ["4", "802.3ad"] := by
  unfold effective_value
  cases s.options.lookup "mode" with
  | some v => rfl
  | none =>
    have hd : nm_setting_bond_get_option_default s "mode" = some "balance-rr" := by
      unfold nm_setting_bond_get_option_default
      rw [show _get_option_meta "mode"
        = some { val := some "balance-rr", opt_type := .BOTH, min := 0, max := 6,
                 list := some _option_default_strv_mode } by decide]
      rfl
    simp only [show ("mode" = "num_grat_arp") = False from by decide,
      show ("mode" = "num_unsol_na") = False from by decide, if_false, hd]
    rfl

/-- The effective value of a key that is not stored and whose twin, if it has
one, is not stored either: the default. -/
theorem effective_value_absent (s : NMSettingBondPrivate) (k : String)
    (hk : s.options.lookup k = none)
    (hgrat : k = "num_grat_arp" → s.options.lookup "num_unsol_na" = none)
    (hunsol : k = "num_unsol_na" → s.options.lookup "num_grat_arp" = none) :
    effective_value s k = nm_setting_bond_get_option_default s k := by
  unfold effective_value
  rw [hk]
  by_cases h1 : k = "num_grat_arp"
  · simp only [h1, if_true, hgrat h1]
  · by_cases h2 : k = "num_unsol_na"
    · simp only [h2, show ("num_unsol_na" = "num_grat_arp") = False from by decide, if_false,
        if_true, hunsol h2]
    · simp only [h1, h2, if_false]

/-- The effective values of the twin keys agree when one of them is not
stored. -/
theorem effective_value_twin (s : NMSettingBondPrivate)
    (h : s.options.lookup "num_grat_arp" = none ∨ s.options.lookup "num_unsol_na" = none) :
    effective_value s "num_grat_arp" = effective_value s "num_unsol_na" := by
  have hg : nm_setting_bond_get_option_default s "num_grat_arp" = some "1" := by
    unfold nm_setting_bond_get_option_default
    rw [show _get_option_meta "num_grat_arp"
      = some { val := some "1", opt_type := .INT, min := 0, max := 255 } by decide]
    rfl
  have hu : nm_setting_bond_get_option_default s "num_unsol_na" = some "1" := by
    unfold nm_setting_bond_get_option_default
    rw [show _get_option_meta "num_unsol_na"
      = some { val := some "1", opt_type := .INT, min := 0, max := 255 } by decide]
    rfl
  unfold effective_value
  simp only [show ("num_unsol_na" = "num_grat_arp") = False from by decide, if_true, if_false,
    hg, hu]
  rcases h with h | h <;> rw [h]

/-- Two settings whose effective values agree on every compared key that one
of them stores agree on every compared key, when `mode` and the twin keys are
compared. -/
theorem effective_value_ext (b c : NMSettingBondPrivate) (skip : String → Bool)
    (hmode : skip "mode" = false) (hgrat : skip "num_grat_arp" = false)
    (hunsol : skip "num_unsol_na" = false)
    (hb : ∀ k ∈ b.options.keys, skip k = false → effective_value b k = effective_value c k)
    (hc : ∀ k ∈ c.options.keys, skip k = false → effective_value b k = effective_value c k)
    (k : String) (hk : skip k = false) : effective_value b k = effective_value c k := by
  have hstored : ∀ k : String, skip k = false →
      ¬ (b.options.lookup k = none ∧ c.options.lookup k = none) →
      effective_value b k = effective_value c k := by
    intro k hk hn
    by_cases h1 : b.options.lookup k = none
    · have h2 : ¬ c.options.lookup k = none := fun h => hn ⟨h1, h⟩
      exact hc k (by rwa [AList.lookup_eq_none, not_not] at h2) hk
    · exact hb k (by rwa [AList.lookup_eq_none, not_not] at h1) hk
  have hdefault : ∀ k : String,
      nm_setting_bond_get_option_default b k = nm_setting_bond_get_option_default c k := by
    intro k
    apply get_option_default_class
    rw [mode_class_effective b, mode_class_effective c]
    by_cases hn : b.options.lookup "mode" = none ∧ c.options.lookup "mode" = none
    · rw [effective_value_absent b "mode" hn.1 (fun h => absurd h (by decide)) (fun h => absurd h (by decide)),
        effective_value_absent c "mode" hn.2 (fun h => absurd h (by decide)) (fun h => absurd h (by decide)),
        get_option_default_const b c "mode" (by decide)]
    · rw [hstored "mode" hmode hn]
  by_cases hn : b.options.lookup k = none ∧ c.options.lookup k = none
  · by_cases h1 : k = "num_grat_arp"
    · subst h1
      by_cases hu : b.options.lookup "num_unsol_na" = none ∧
          c.options.lookup "num_unsol_na" = none
      · rw [effective_value_absent b _ hn.1 (fun _ => hu.1) (fun h => absurd h (by decide)),
          effective_value_absent c _ hn.2 (fun _ => hu.2) (fun h => absurd h (by decide))]
        exact hdefault _
      · rw [effective_value_twin b (Or.inl hn.1), effective_value_twin c (Or.inl hn.2)]
        exact hstored _ hunsol hu
    · by_cases h2 : k = "num_unsol_na"
      · subst h2
        by_cases hg : b.options.lookup "num_grat_arp" = none ∧
            c.options.lookup "num_grat_arp" = none
        · rw [effective_value_absent b _ hn.1 (fun h => absurd h (by decide)) (fun _ => hg.1),
            effective_value_absent c _ hn.2 (fun h => absurd h (by decide)) (fun _ => hg.2)]
          exact hdefault _
        · rw [← effective_value_twin b (Or.inr hn.1), ← effective_value_twin c (Or.inr hn.2)]
          exact hstored _ hgrat hg
      · rw [effective_value_absent b k hn.1 (fun h => absurd h h1) (fun h => absurd h h2),
          effective_value_absent c k hn.2 (fun h => absurd h h1) (fun h => absurd h h2)]
        exact hdefault k
  · exact hstored k hk hn

/-- On settings with keys of the registry `options_equal` returns true exactly
when the effective values agree on every key that is compared. -/
theorem options_equal_iff_effective (a b : NMSettingBondPrivate) (flags : Nat)
    (ha : keys_in_registry a) (hb : keys_in_registry b) :
    options_equal a b flags = some true ↔
      ∀ k : String,
        (NM_FLAGS_HAS flags NM_SETTING_COMPARE_FLAG_INFERRABLE
          && (k == "fail_over_mac" || k == "active_slave")) = false →
        effective_value a k = effective_value b k := by
  rw [options_equal_eq a b flags ha hb]
  simp only [Option.some.injEq, Bool.and_eq_true, List.all_eq_true]
  constructor
  · rintro ⟨h1, h2⟩ k hk
    apply effective_value_ext a b
      (fun k => NM_FLAGS_HAS flags NM_SETTING_COMPARE_FLAG_INFERRABLE
        && (k == "fail_over_mac" || k == "active_slave"))
    · simp
    · simp
    · simp
    · intro k hmem hs
      have h := h1 k hmem
      rw [hs, Bool.false_or, beq_iff_eq] at h
      exact h
    · intro k hmem hs
      have h := h2 k hmem
      rw [hs, Bool.false_or, beq_iff_eq] at h
      exact h.symm
    · exact hk
  · intro h
    constructor
    · intro k _
      by_cases hs : (NM_FLAGS_HAS flags NM_SETTING_COMPARE_FLAG_INFERRABLE
        && (k == "fail_over_mac" || k == "active_slave")) = true
      · rw [hs, Bool.true_or]
      · rw [Bool.not_eq_true] at hs
        rw [hs, Bool.false_or, beq_iff_eq]
        exact h k hs
    · intro k _
      by_cases hs : (NM_FLAGS_HAS flags NM_SETTING_COMPARE_FLAG_INFERRABLE
        && (k == "fail_over_mac" || k == "active_slave")) = true
      · rw [hs, Bool.true_or]
      · rw [Bool.not_eq_true] at hs
        rw [hs, Bool.false_or, beq_iff_eq]
        exact (h k hs).symm

/-- Claim C38. On settings whose keys are names of the registry
`options_equal` is an equivalence relation, for every set of compare flags: it
is reflexive (hence a setting rebuilt from its own options by the property
setter is equal to itself, also under `EXACT`, the empty set of flags),
symmetric, and transitive, although the fallbacks to the twin key and to the
default are evaluated in the other operand. -/
theorem options_equal_equivalence (a b c : NMSettingBondPrivate) (flags : Nat)
    (ha : keys_in_registry a) (hb : keys_in_registry b) (hc : keys_in_registry c) :
    options_equal a a flags = some true ∧
    options_equal (set_property nm_setting_bond_init a.options) a flags = some true ∧
    (options_equal a b flags = some true → options_equal b a flags = some true) ∧
    (options_equal a b flags = some true → options_equal b c flags = some true →
      options_equal a c flags = some true) := by
  refine ⟨?_, ?_, ?_, ?_⟩
  · exact (options_equal_iff_effective a a flags ha ha).mpr (fun _ _ => rfl)
  · exact (options_equal_iff_effective (set_property nm_setting_bond_init a.options) a flags
      ha ha).mpr (fun _ _ => rfl)
  · rw [options_equal_iff_effective a b flags ha hb, options_equal_iff_effective b a flags hb ha]
    exact fun h k hk => (h k hk).symm
  · rw [options_equal_iff_effective a b flags ha hb, options_equal_iff_effective b c flags hb hc,
      options_equal_iff_effective a c flags ha hc]
    exact fun h1 h2 k hk => (h1 k hk).trans (h2 k hk)

/-- A witness of C38: {mode, num_grat_arp=7}, {mode, num_unsol_na=7} and
{mode, num_grat_arp=7, miimon=100} are pairwise equal through the twin key and
the default of `miimon`. -/
theorem options_equal_equivalence_witness :
    options_equal (run_calls [.add_option "num_grat_arp" (some "7")])
        (run_calls [.add_option "num_unsol_na" (some "7")]) 0 = some true ∧
    options_equal (run_calls [.add_option "num_unsol_na" (some "7")])
        (run_calls [.add_option "num_grat_arp" (some "7"), .add_option "miimon" (some "100")]) 0
      = some true ∧
    options_equal (run_calls [.add_option "num_grat_arp" (some "7")])
        (run_calls [.add_option "num_grat_arp" (some "7"), .add_option "miimon" (some "100")]) 0
      = some true :=
  ⟨by decide, by decide,
    (options_equal_equivalence (run_calls [.add_option "num_grat_arp" (some "7")])
      (run_calls [.add_option "num_unsol_na" (some "7")])
      (run_calls [.add_option "num_grat_arp" (some "7"), .add_option "miimon" (some "100")]) 0
      (by decide) (by decide) (by decide)).2.2.2 (by decide) (by decide)⟩

end NMBond

namespace NMWifi

/-! ## The classes of access points -/

theorem classify_open (ap : NMAccessPoint) (hprivacy : ap.privacy = false)
    (hwpa : ap.wpa_flags = []) (hrsn : ap.rsn_flags = []) : classify ap = .OPEN := by
  simp [classify, is_wpa_capable, has_wpa, has_rsn, hprivacy, hwpa, hrsn]

theorem classify_privacy_only (ap : NMAccessPoint) (hprivacy : ap.privacy = true)
    (hwpa : ap.wpa_flags = []) (hrsn : ap.rsn_flags = []) :
    classify ap = .WEP_OR_LEAP_OR_DYNWEP := by
  simp [classify, is_wpa_capable, has_wpa, has_rsn, hprivacy, hwpa, hrsn]

theorem classify_wpa (ap : NMAccessPoint) (h : ap.wpa_flags ≠ [] ∨ ap.rsn_flags ≠ []) :
    classify ap = .WPA := by
  have : is_wpa_capable ap = true := by
    simp only [is_wpa_capable, has_wpa, has_rsn, Bool.or_eq_true, Bool.not_eq_true',
      List.isEmpty_eq_false_iff_exists_mem]
    rcases h with h | h
    · exact Or.inl (List.exists_mem_of_ne_nil _ h)
    · exact Or.inr (List.exists_mem_of_ne_nil _ h)
  simp [classify, this]

/-- The completer on an access point of the privacy-only class. -/
theorem complete_privacy_only_eq (ap : NMAccessPoint) (connection : NMConnection)
    (lock_bssid : Bool) (hclass : classify ap = .WEP_OR_LEAP_OR_DYNWEP) :
    nm_ap_utils_complete_connection ap connection lock_bssid
      = match complete_privacy_only connection.s_wsec connection.s_8021x with
        | .error error => .error error
        | .ok s_wsec =>
          .ok { s_wifi :=
                  some { complete_wireless ap connection lock_bssid with
                         security := some NM_SETTING_WIRELESS_SECURITY_SETTING_NAME }
                s_wsec := some s_wsec
                s_8021x := connection.s_8021x } := by
  unfold nm_ap_utils_complete_connection
  simp only [hclass]

/-- The completer on an access point of the WPA class. -/
theorem complete_wpa_eq (ap : NMAccessPoint) (connection : NMConnection)
    (lock_bssid : Bool) (hclass : classify ap = .WPA) :
    nm_ap_utils_complete_connection ap connection lock_bssid
      = match complete_wpa connection.s_wsec connection.s_8021x with
        | .error error => .error error
        | .ok s_wsec =>
          .ok { s_wifi :=
                  some { complete_wireless ap connection lock_bssid with
                         security := some NM_SETTING_WIRELESS_SECURITY_SETTING_NAME }
                s_wsec := some s_wsec
                s_8021x := connection.s_8021x } := by
  unfold nm_ap_utils_complete_connection
  simp only [hclass]

/-- The completer on an access point of the open class. -/
theorem complete_open_eq (ap : NMAccessPoint) (connection : NMConnection)
    (lock_bssid : Bool) (hclass : classify ap = .OPEN) :
    nm_ap_utils_complete_connection ap connection lock_bssid
      = if connection.s_wsec.isSome || connection.s_8021x.isSome then
          .error .NM_SETTING_WIRELESS_SECURITY_ERROR_INVALID_PROPERTY
        else
          .ok { s_wifi :=
                  some { complete_wireless ap connection lock_bssid with security := none } } := by
  unfold nm_ap_utils_complete_connection
  simp only [hclass]

/-! ## The preamble and the open access point -/

/-- Claim C23. The preamble of the completer: whenever
`nm_ap_utils_complete_connection` succeeds, the wireless setting of the result
has the SSID of the access point and the mode of the access point; its BSSID
is the one of the access point when `lock_bssid` is true and is unset when
`lock_bssid` is false. -/
theorem complete_preamble (ap : NMAccessPoint) (connection : NMConnection) (lock_bssid : Bool)
    (result : NMConnection)
    (hok : nm_ap_utils_complete_connection ap connection lock_bssid = .ok result) :
    ∃ s_wifi : NMSettingWireless, result.s_wifi = some s_wifi ∧
      s_wifi.ssid = some ap.ssid ∧ s_wifi.mode = some ap.mode.name ∧
      (lock_bssid = true → s_wifi.bssid = ap.bssid) ∧
      (lock_bssid = false → s_wifi.bssid = none) := by
  unfold nm_ap_utils_complete_connection at hok
  simp only at hok
  split at hok
  · split_ifs at hok
    cases hok
    exact ⟨_, rfl, rfl, rfl, by intro h; simp [complete_wireless, h],
      by intro h; simp [complete_wireless, h]⟩
  · split at hok
    · cases hok
    · cases hok
      exact ⟨_, rfl, rfl, rfl, by intro h; simp [complete_wireless, h],
        by intro h; simp [complete_wireless, h]⟩
  · split at hok
    · cases hok
    · cases hok
      exact ⟨_, rfl, rfl, rfl, by intro h; simp [complete_wireless, h],
        by intro h; simp [complete_wireless, h]⟩

/-- A witness of C23: `test_lock_bssid` and `test_open_ap_empty_connection`,
the open access point "blahblah" with the BSSID 01:02:03:04:05:06 and an empty
connection; the results are the connections that the tests expect. -/
theorem complete_preamble_witness :
    complete_connection "blahblah" test_bssid .NM_802_11_MODE_INFRA NM_802_11_AP_FLAGS_NONE
        NM_802_11_AP_SEC_NONE NM_802_11_AP_SEC_NONE true {}
      = .ok (create_basic (g_byte_array_from_string "blahblah") (some test_bssid)
          .NM_802_11_MODE_INFRA false) ∧
    complete_connection "blahblah" test_bssid .NM_802_11_MODE_INFRA NM_802_11_AP_FLAGS_NONE
        NM_802_11_AP_SEC_NONE NM_802_11_AP_SEC_NONE false {}
      = .ok (create_basic (g_byte_array_from_string "blahblah") none
          .NM_802_11_MODE_INFRA false) ∧
    ∃ s_wifi : NMSettingWireless,
      (create_basic (g_byte_array_from_string "blahblah") (some test_bssid)
        .NM_802_11_MODE_INFRA false).s_wifi = some s_wifi ∧
      s_wifi.ssid = some (g_byte_array_from_string "blahblah") ∧
      s_wifi.mode = some "infrastructure" ∧
      (true = true → s_wifi.bssid = some test_bssid) ∧
      (true = false → s_wifi.bssid = none) :=
  ⟨by decide, by decide,
    complete_preamble
      { ssid := g_byte_array_from_string "blahblah"
        bssid := some test_bssid
        mode := .NM_802_11_MODE_INFRA
        privacy := false
        wpa_flags := []
        rsn_flags := [] }
      {} true
      (create_basic (g_byte_array_from_string "blahblah") (some test_bssid)
        .NM_802_11_MODE_INFRA false)
      (by decide)⟩

/-- Claim C24. The rule of the open access point: for an access point without
the privacy bit and with empty `wpa_flags` and `rsn_flags`, the completer
fails with `NM_SETTING_WIRELESS_SECURITY_ERROR_INVALID_PROPERTY` whenever the
connection holds a security setting, whatever its contents, or an 802.1X
setting, whether or not it holds a wireless setting; with neither it succeeds
and the result has no security setting, no 802.1X setting and no `security`
property in its wireless setting. -/
theorem complete_open_ap (ap : NMAccessPoint) (connection : NMConnection) (lock_bssid : Bool)
    (hprivacy : ap.privacy = false) (hwpa : ap.wpa_flags = []) (hrsn : ap.rsn_flags = []) :
    ((connection.s_wsec ≠ none ∨ connection.s_8021x ≠ none) →
      nm_ap_utils_complete_connection ap connection lock_bssid
        = .error .NM_SETTING_WIRELESS_SECURITY_ERROR_INVALID_PROPERTY) ∧
    (connection.s_wsec = none → connection.s_8021x = none →
      ∃ result : NMConnection,
        nm_ap_utils_complete_connection ap connection lock_bssid = .ok result ∧
        result.s_wsec = none ∧ result.s_8021x = none ∧
        ∃ s_wifi : NMSettingWireless, result.s_wifi = some s_wifi ∧ s_wifi.security = none) := by
  rw [complete_open_eq ap connection lock_bssid (classify_open ap hprivacy hwpa hrsn)]
  constructor
  · intro h
    have : (connection.s_wsec.isSome || connection.s_8021x.isSome) = true := by
      rcases h with h | h
      · simp [Option.isSome_iff_ne_none.mpr h]
      · simp [Option.isSome_iff_ne_none.mpr h]
    rw [if_pos this]
  · intro h1 h2
    simp [h1, h2]

/-- A witness of C24: the open access point of the tests with the connections
of `test_open_ap_leap_connection_1` (with and without a wireless setting),
`test_open_ap_leap_connection_2`, `test_open_ap_wpa_psk_connection_5` and
`test_open_ap_wpa_eap_connection_1`, and with the empty connection. -/
theorem complete_open_ap_witness :
    complete_connection "blahblah" test_bssid .NM_802_11_MODE_INFRA NM_802_11_AP_FLAGS_NONE
        NM_802_11_AP_SEC_NONE NM_802_11_AP_SEC_NONE false
        { s_wsec := some { leap_username := some "Bill Smith" } }
      = .error .NM_SETTING_WIRELESS_SECURITY_ERROR_INVALID_PROPERTY ∧
    complete_connection "blahblah" test_bssid .NM_802_11_MODE_INFRA NM_802_11_AP_FLAGS_NONE
        NM_802_11_AP_SEC_NONE NM_802_11_AP_SEC_NONE false
        { s_wifi := some {}, s_wsec := some { leap_username := some "Bill Smith" } }
      = .error .NM_SETTING_WIRELESS_SECURITY_ERROR_INVALID_PROPERTY ∧
    complete_connection "blahblah" test_bssid .NM_802_11_MODE_INFRA NM_802_11_AP_FLAGS_NONE
        NM_802_11_AP_SEC_NONE NM_802_11_AP_SEC_NONE false
        { s_wifi := some {}, s_wsec := some { key_mgmt := some "ieee8021x" } }
      = .error .NM_SETTING_WIRELESS_SECURITY_ERROR_INVALID_PROPERTY ∧
    complete_connection "blahblah" test_bssid .NM_802_11_MODE_INFRA NM_802_11_AP_FLAGS_NONE
        NM_802_11_AP_SEC_NONE NM_802_11_AP_SEC_NONE false
        { s_wsec := some { key_mgmt := some "wpa-psk", auth_alg := some "open",
                            psk := some "asdfasdfasdfasdfasdfafs" } }
      = .error .NM_SETTING_WIRELESS_SECURITY_ERROR_INVALID_PROPERTY ∧
    complete_connection "blahblah" test_bssid .NM_802_11_MODE_INFRA NM_802_11_AP_FLAGS_NONE
        NM_802_11_AP_SEC_NONE NM_802_11_AP_SEC_NONE false
        { s_wsec := some {}, s_8021x := some {} }
      = .error .NM_SETTING_WIRELESS_SECURITY_ERROR_INVALID_PROPERTY ∧
    nm_ap_utils_complete_connection
        { ssid := g_byte_array_from_string "blahblah"
          bssid := some test_bssid
          mode := .NM_802_11_MODE_INFRA
          privacy := false
          wpa_flags := []
          rsn_flags := [] }
        { s_8021x := some { eap := ["peap"] } } false
      = .error .NM_SETTING_WIRELESS_SECURITY_ERROR_INVALID_PROPERTY ∧
    ∃ result : NMConnection,
      nm_ap_utils_complete_connection
          { ssid := g_byte_array_from_string "blahblah"
            bssid := some test_bssid
            mode := .NM_802_11_MODE_INFRA
            privacy := false
            wpa_flags := []
            rsn_flags := [] }
          {} false = .ok result ∧
      result.s_wsec = none ∧ result.s_8021x = none ∧
      ∃ s_wifi : NMSettingWireless, result.s_wifi = some s_wifi ∧ s_wifi.security = none :=
  ⟨by decide, by decide, by decide, by decide, by decide,
    (complete_open_ap
      { ssid := g_byte_array_from_string "blahblah"
        bssid := some test_bssid
        mode := .NM_802_11_MODE_INFRA
        privacy := false
        wpa_flags := []
        rsn_flags := [] }
      { s_8021x := some { eap := ["peap"] } } false rfl rfl rfl).1 (Or.inr (by decide)),
    (complete_open_ap
      { ssid := g_byte_array_from_string "blahblah"
        bssid := some test_bssid
        mode := .NM_802_11_MODE_INFRA
        privacy := false
        wpa_flags := []
        rsn_flags := [] }
      {} false rfl rfl rfl).2 rfl rfl⟩

/-! ## Connections without security settings -/

/-- Claim C25. Completion of a connection that holds neither a security
setting nor an 802.1X setting always succeeds, and the security setting of the
result depends on the class of the access point only: none for an open access
point, exactly `key-mgmt = none` for a privacy-only one, exactly
`key-mgmt = wpa-psk` and `auth-alg = open` for a WPA-capable one; the 802.1X
setting stays absent. The three classes are exhaustive and mutually exclusive
over the privacy bit and the two sets of flags: every access point has one
class, which is `OPEN` exactly without the privacy bit and with both sets
empty, `WEP_OR_LEAP_OR_DYNWEP` exactly with the privacy bit and both sets
empty, and `WPA` exactly when one of the sets is not empty. -/
theorem complete_without_security (ap : NMAccessPoint) (connection : NMConnection)
    (lock_bssid : Bool) (hwsec : connection.s_wsec = none)
    (h8021x : connection.s_8021x = none) :
    (∃ result : NMConnection,
      nm_ap_utils_complete_connection ap connection lock_bssid = .ok result ∧
      result.s_8021x = none ∧
      result.s_wsec
        = match classify ap with
          | .OPEN => none
          | .WEP_OR_LEAP_OR_DYNWEP => some { key_mgmt := some "none" }
          | .WPA => some { key_mgmt := some "wpa-psk", auth_alg := some "open" }) ∧
    (classify ap = .OPEN ↔ ap.privacy = false ∧ ap.wpa_flags = [] ∧ ap.rsn_flags = []) ∧
    (classify ap = .WEP_OR_LEAP_OR_DYNWEP ↔
      ap.privacy = true ∧ ap.wpa_flags = [] ∧ ap.rsn_flags = []) ∧
    (classify ap = .WPA ↔ ap.wpa_flags ≠ [] ∨ ap.rsn_flags ≠ []) := by
  have hcap : is_wpa_capable ap = true ↔ ap.wpa_flags ≠ [] ∨ ap.rsn_flags ≠ [] := by
    simp [is_wpa_capable, has_wpa, has_rsn, List.isEmpty_iff]
  refine ⟨?_, ?_, ?_, ?_⟩
  · cases hclass : classify ap with
    | OPEN =>
      rw [complete_open_eq ap connection lock_bssid hclass]
      simp [hwsec, h8021x]
    | WEP_OR_LEAP_OR_DYNWEP =>
      rw [complete_privacy_only_eq ap connection lock_bssid hclass]
      simp [hwsec, h8021x, complete_privacy_only]
    | WPA =>
      rw [complete_wpa_eq ap connection lock_bssid hclass]
      simp [hwsec, h8021x, complete_wpa]
  · unfold classify
    by_cases h1 : is_wpa_capable ap = true
    · have := hcap.mp h1
      simp only [h1, if_true]
      constructor
      · intro h
        cases h
      · rintro ⟨_, h2, h3⟩
        rcases this with h | h
        · exact absurd h2 h
        · exact absurd h3 h
    · have h2 : ¬ (ap.wpa_flags ≠ [] ∨ ap.rsn_flags ≠ []) := fun h => h1 (hcap.mpr h)
      have h3 : ap.wpa_flags = [] ∧ ap.rsn_flags = [] := by
        constructor
        · by_contra h
          exact h2 (Or.inl h)
        · by_contra h
          exact h2 (Or.inr h)
      simp only [h1, if_false]
      cases hp : ap.privacy <;> simp [h3.1, h3.2]
  · unfold classify
    by_cases h1 : is_wpa_capable ap = true
    · have := hcap.mp h1
      simp only [h1, if_true]
      constructor
      · intro h
        cases h
      · rintro ⟨_, h2, h3⟩
        rcases this with h | h
        · exact absurd h2 h
        · exact absurd h3 h
    · have h2 : ¬ (ap.wpa_flags ≠ [] ∨ ap.rsn_flags ≠ []) := fun h => h1 (hcap.mpr h)
      have h3 : ap.wpa_flags = [] ∧ ap.rsn_flags = [] := by
        constructor
        · by_contra h
          exact h2 (Or.inl h)
        · by_contra h
          exact h2 (Or.inr h)
      simp only [h1, if_false]
      cases hp : ap.privacy <;> simp [h3.1, h3.2]
  · unfold classify
    by_cases h1 : is_wpa_capable ap = true
    · simp only [h1, if_true, true_iff]
      exact hcap.mp h1
    · have h2 : ¬ (ap.wpa_flags ≠ [] ∨ ap.rsn_flags ≠ []) := fun h => h1 (hcap.mpr h)
      simp only [h1, if_false]
      constructor
      · intro h
        cases hp : ap.privacy <;> simp [hp] at h
      · intro h
        exact absurd h h2

/-- A witness of C25: the empty connection on the three access points of
`test_open_ap_empty_connection`, `test_priv_ap_empty_connection` and
`test_wpa_ap_empty_connection`; the results are the connections that the tests
expect. -/
theorem complete_without_security_witness :
    complete_connection "blahblah" test_bssid .NM_802_11_MODE_INFRA NM_802_11_AP_FLAGS_NONE
        NM_802_11_AP_SEC_NONE NM_802_11_AP_SEC_NONE false {}
      = .ok (create_basic (g_byte_array_from_string "blahblah") none
          .NM_802_11_MODE_INFRA false) ∧
    complete_connection "blahblah" test_bssid .NM_802_11_MODE_INFRA NM_802_11_AP_FLAGS_PRIVACY
        NM_802_11_AP_SEC_NONE NM_802_11_AP_SEC_NONE false {}
      = .ok { create_basic (g_byte_array_from_string "blahblah") none
                .NM_802_11_MODE_INFRA true with
              s_wsec := some { key_mgmt := some "none" } } ∧
    complete_connection "blahblah" test_bssid .NM_802_11_MODE_INFRA NM_802_11_AP_FLAGS_PRIVACY
        WPA_PSK_CAPS NM_802_11_AP_SEC_NONE false {}
      = .ok { create_basic (g_byte_array_from_string "blahblah") none
                .NM_802_11_MODE_INFRA true with
              s_wsec := some { key_mgmt := some "wpa-psk", auth_alg := some "open" } } ∧
    ∃ result : NMConnection,
      nm_ap_utils_complete_connection
          { ssid := g_byte_array_from_string "blahblah"
            bssid := some test_bssid
            mode := .NM_802_11_MODE_INFRA
            privacy := true
            wpa_flags := WPA_PSK_CAPS
            rsn_flags := [] }
          {} false = .ok result ∧
      result.s_8021x = none ∧
      result.s_wsec = some { key_mgmt := some "wpa-psk", auth_alg := some "open" } :=
  ⟨by decide, by decide, by decide,
    (complete_without_security
      { ssid := g_byte_array_from_string "blahblah"
        bssid := some test_bssid
        mode := .NM_802_11_MODE_INFRA
        privacy := true
        wpa_flags := WPA_PSK_CAPS
        rsn_flags := [] }
      {} false rfl rfl).1⟩

/-! ## The privacy-only access point -/

/-- Claim C27. LEAP on a privacy-only access point is decided by
`leap-username`: for a connection whose security setting has
`key-mgmt = ieee8021x` and which holds no 802.1X setting, the completer
succeeds when `leap-username` is set, and the security setting of the result
is the one given with `auth-alg = leap` (`key-mgmt` and `leap-username` are
kept); it fails with `NM_SETTING_WIRELESS_SECURITY_ERROR_LEAP_REQUIRES_USERNAME`
when `leap-username` is not set and `auth-alg` is `leap`. -/
theorem leap_decided_by_username (ap : NMAccessPoint) (connection : NMConnection)
    (lock_bssid : Bool) (s_wsec : NMSettingWirelessSecurity)
    (hprivacy : ap.privacy = true) (hwpa : ap.wpa_flags = []) (hrsn : ap.rsn_flags = [])
    (hwsec : connection.s_wsec = some s_wsec)
    (hkey : s_wsec.key_mgmt = some "ieee8021x")
    (h8021x : connection.s_8021x = none) :
    (s_wsec.leap_username ≠ none →
      ∃ result : NMConnection,
        nm_ap_utils_complete_connection ap connection lock_bssid = .ok result ∧
        result.s_wsec = some { s_wsec with auth_alg := some "leap" } ∧
        result.s_8021x = none) ∧
    (s_wsec.leap_username = none → s_wsec.auth_alg = some "leap" →
      nm_ap_utils_complete_connection ap connection lock_bssid
        = .error .NM_SETTING_WIRELESS_SECURITY_ERROR_LEAP_REQUIRES_USERNAME) := by
  rw [complete_privacy_only_eq ap connection lock_bssid
    (classify_privacy_only ap hprivacy hwpa hrsn)]
  constructor
  · intro hleap
    obtain ⟨u, hu⟩ := Option.ne_none_iff_exists'.mp hleap
    have hresult : ({ s_wsec with key_mgmt := some "ieee8021x", auth_alg := some "leap" }
        : NMSettingWirelessSecurity) = { s_wsec with auth_alg := some "leap" } := by
      cases s_wsec
      simp_all
    simp [complete_privacy_only, hwsec, h8021x, hkey, complete_leap_or_dynamic_wep, hu,
      hresult]
  · intro hleap hauth
    simp [complete_privacy_only, hwsec, h8021x, hkey, complete_leap_or_dynamic_wep, hleap,
      hauth]

/-- A witness of C27: `test_priv_ap_leap_connection_1` and
`test_priv_ap_leap_connection_2`. -/
theorem leap_decided_by_username_witness :
    complete_connection "blahblah" test_bssid .NM_802_11_MODE_INFRA NM_802_11_AP_FLAGS_PRIVACY
        NM_802_11_AP_SEC_NONE NM_802_11_AP_SEC_NONE false
        { s_wsec := some { key_mgmt := some "ieee8021x",
                            leap_username := some "Bill Smith" } }
      = .ok { create_basic (g_byte_array_from_string "blahblah") none
                .NM_802_11_MODE_INFRA true with
              s_wsec := some { key_mgmt := some "ieee8021x", auth_alg := some "leap",
                               leap_username := some "Bill Smith" } } ∧
    complete_connection "blahblah" test_bssid .NM_802_11_MODE_INFRA NM_802_11_AP_FLAGS_PRIVACY
        NM_802_11_AP_SEC_NONE NM_802_11_AP_SEC_NONE false
        { s_wifi := some {}
          s_wsec := some { key_mgmt := some "ieee8021x", auth_alg := some "leap" } }
      = .error .NM_SETTING_WIRELESS_SECURITY_ERROR_LEAP_REQUIRES_USERNAME ∧
    ∃ result : NMConnection,
      nm_ap_utils_complete_connection
          { ssid := g_byte_array_from_string "blahblah"
            bssid := some test_bssid
            mode := .NM_802_11_MODE_INFRA
            privacy := true
            wpa_flags := []
            rsn_flags := [] }
          { s_wsec := some { key_mgmt := some "ieee8021x",
                              leap_username := some "Bill Smith" } }
          false = .ok result ∧
      result.s_wsec
        = some { key_mgmt := some "ieee8021x", auth_alg := some "leap",
                 leap_username := some "Bill Smith" } ∧
      result.s_8021x = none :=
  ⟨by decide, by decide,
    (leap_decided_by_username
      { ssid := g_byte_array_from_string "blahblah"
        bssid := some test_bssid
        mode := .NM_802_11_MODE_INFRA
        privacy := true
        wpa_flags := []
        rsn_flags := [] }
      { s_wsec := some { key_mgmt := some "ieee8021x", leap_username := some "Bill Smith" } }
      false { key_mgmt := some "ieee8021x", leap_username := some "Bill Smith" }
      rfl rfl rfl rfl rfl rfl).1 (by decide)⟩

/-- The rejections of a privacy-only access point that the specification and
the tests fix: the completer fails with
`NM_SETTING_WIRELESS_SECURITY_ERROR_INVALID_PROPERTY` when the security setting
of the connection has `key-mgmt = wpa-psk` or `wpa-eap`; or carries a `psk`
with no `key-mgmt`, `auth-alg` unset, `open` or `shared` and no
`leap-username`, in a connection without an 802.1X setting; or has
`auth-alg = shared` and a `key-mgmt` other than `none`, in a connection with
an 802.1X setting. The same inputs with `key-mgmt = none`, which the
specification lets pass through, and a `psk` next to an 802.1X setting, which
no test combines, are left out. -/
theorem complete_privacy_only_rejects (ap : NMAccessPoint) (connection : NMConnection)
    (lock_bssid : Bool) (s_wsec : NMSettingWirelessSecurity)
    (hprivacy : ap.privacy = true) (hwpa : ap.wpa_flags = []) (hrsn : ap.rsn_flags = [])
    (hwsec : connection.s_wsec = some s_wsec)
    (hinput :
      (s_wsec.key_mgmt = some "wpa-psk" ∨ s_wsec.key_mgmt = some "wpa-eap") ∨
      (s_wsec.psk ≠ none ∧ s_wsec.key_mgmt = none ∧
        (s_wsec.auth_alg = none ∨ s_wsec.auth_alg = some "open" ∨
          s_wsec.auth_alg = some "shared") ∧
        s_wsec.leap_username = none ∧ connection.s_8021x = none) ∨
      (s_wsec.auth_alg = some "shared" ∧ s_wsec.key_mgmt ≠ some "none" ∧
        connection.s_8021x ≠ none)) :
    nm_ap_utils_complete_connection ap connection lock_bssid
      = .error .NM_SETTING_WIRELESS_SECURITY_ERROR_INVALID_PROPERTY := by
  rw [complete_privacy_only_eq ap connection lock_bssid
    (classify_privacy_only ap hprivacy hwpa hrsn)]
  have hreject : complete_privacy_only (some s_wsec) connection.s_8021x
      = .error .NM_SETTING_WIRELESS_SECURITY_ERROR_INVALID_PROPERTY := by
    rcases hinput with (hkey | hkey) | ⟨hpsk, hkey, hauth, hleap, h8021x⟩ |
      ⟨hauth, hkey, h8021x⟩
    · simp [complete_privacy_only, hkey]
    · simp [complete_privacy_only, hkey]
    · have hp : s_wsec.psk.isSome = true := Option.isSome_iff_ne_none.mpr hpsk
      rcases hauth with hauth | hauth | hauth <;>
        simp [complete_privacy_only, hkey, hleap, h8021x, hauth, hp]
    · obtain ⟨s_8021x, h8⟩ := Option.ne_none_iff_exists'.mp h8021x
      have hdyn : complete_leap_or_dynamic_wep s_wsec (some s_8021x)
          = .error .NM_SETTING_WIRELESS_SECURITY_ERROR_INVALID_PROPERTY := by
        unfold complete_leap_or_dynamic_wep
        cases hu : s_wsec.leap_username with
        | some u => rfl
        | none => simp [hauth]
      cases hk : s_wsec.key_mgmt with
      | none => simp [complete_privacy_only, hk, h8, hdyn]
      | some key_mgmt =>
        have hne : key_mgmt ≠ "none" := by
          intro h
          exact hkey (by rw [hk, h])
        by_cases h1 : key_mgmt = "ieee8021x"
        · simp [complete_privacy_only, hk, h8, hdyn, h1]
        · simp [complete_privacy_only, hk, h8, hne, h1]
  rw [hwsec, hreject]

/-- The tests behind these rejections: `test_priv_ap_wpa_psk_connection_5`
(`key-mgmt = wpa-psk`), `test_priv_ap_wpa_eap_connection_5` (`wpa-eap`),
`test_priv_ap_wpa_psk_connection_1`, `_3` and `_4` (a `psk`, `auth-alg` unset,
`open` and `shared`), `test_priv_ap_wpa_eap_connection_4` and
`test_priv_ap_dynamic_wep_3` (`auth-alg = shared` with an 802.1X setting). -/
theorem complete_privacy_only_rejects_witness :
    complete_connection "blahblah" test_bssid .NM_802_11_MODE_INFRA NM_802_11_AP_FLAGS_PRIVACY
        NM_802_11_AP_SEC_NONE NM_802_11_AP_SEC_NONE false
        { s_wsec := some { key_mgmt := some "wpa-psk", auth_alg := some "open",
                            psk := some "asdfasdfasdfasdfasdfafs" } }
      = .error .NM_SETTING_WIRELESS_SECURITY_ERROR_INVALID_PROPERTY ∧
    complete_connection "blahblah" test_bssid .NM_802_11_MODE_INFRA NM_802_11_AP_FLAGS_PRIVACY
        NM_802_11_AP_SEC_NONE NM_802_11_AP_SEC_NONE false
        { s_wsec := some { key_mgmt := some "wpa-eap", auth_alg := some "open" }
          s_8021x := some {} }
      = .error .NM_SETTING_WIRELESS_SECURITY_ERROR_INVALID_PROPERTY ∧
    complete_connection "blahblah" test_bssid .NM_802_11_MODE_INFRA NM_802_11_AP_FLAGS_PRIVACY
        NM_802_11_AP_SEC_NONE NM_802_11_AP_SEC_NONE false
        { s_wsec := some { psk := some "asdfasdfasdfasdfasdfafs" } }
      = .error .NM_SETTING_WIRELESS_SECURITY_ERROR_INVALID_PROPERTY ∧
    complete_connection "blahblah" test_bssid .NM_802_11_MODE_INFRA NM_802_11_AP_FLAGS_PRIVACY
        NM_802_11_AP_SEC_NONE NM_802_11_AP_SEC_NONE false
        { s_wsec := some { auth_alg := some "open", psk := some "asdfasdfasdfasdfasdfafs" } }
      = .error .NM_SETTING_WIRELESS_SECURITY_ERROR_INVALID_PROPERTY ∧
    complete_connection "blahblah" test_bssid .NM_802_11_MODE_INFRA NM_802_11_AP_FLAGS_PRIVACY
        NM_802_11_AP_SEC_NONE NM_802_11_AP_SEC_NONE false
        { s_wsec := some { auth_alg := some "shared",
                            psk := some "asdfasdfasdfasdfasdfafs" } }
      = .error .NM_SETTING_WIRELESS_SECURITY_ERROR_INVALID_PROPERTY ∧
    complete_connection "blahblah" test_bssid .NM_802_11_MODE_INFRA NM_802_11_AP_FLAGS_PRIVACY
        NM_802_11_AP_SEC_NONE NM_802_11_AP_SEC_NONE false
        { s_wsec := some { auth_alg := some "shared" }, s_8021x := some {} }
      = .error .NM_SETTING_WIRELESS_SECURITY_ERROR_INVALID_PROPERTY ∧
    nm_ap_utils_complete_connection
        { ssid := g_byte_array_from_string "blahblah"
          bssid := some test_bssid
          mode := .NM_802_11_MODE_INFRA
          privacy := true
          wpa_flags := []
          rsn_flags := [] }
        { s_wifi := some {}
          s_wsec := some { auth_alg := some "shared" }
          s_8021x := some { eap := ["peap"], identity := some "Bill Smith",
                            phase2_auth := some "mschapv2" } }
        false
      = .error .NM_SETTING_WIRELESS_SECURITY_ERROR_INVALID_PROPERTY :=
  ⟨by decide, by decide, by decide, by decide, by decide, by decide,
    complete_privacy_only_rejects
      { ssid := g_byte_array_from_string "blahblah"
        bssid := some test_bssid
        mode := .NM_802_11_MODE_INFRA
        privacy := true
        wpa_flags := []
        rsn_flags := [] }
      { s_wifi := some {}
        s_wsec := some { auth_alg := some "shared" }
        s_8021x := some { eap := ["peap"], identity := some "Bill Smith",
                          phase2_auth := some "mschapv2" } }
      false { auth_alg := some "shared" } rfl rfl rfl rfl
      (Or.inr (Or.inr ⟨rfl, by decide, by decide⟩))⟩

/-! ## The WPA-capable access point -/

/-- Claim C30. A WPA-capable access point rejects legacy security: for an
access point with `wpa_flags` or `rsn_flags` not empty, the completer fails
with `NM_SETTING_WIRELESS_SECURITY_ERROR_INVALID_PROPERTY` when the security
setting of the connection has `key-mgmt = ieee8021x` (with or without a
`leap-username`, whatever `auth-alg` is), `key-mgmt = none` or
`auth-alg = shared`; `auth-alg = leap` without a `leap-username` gives this
error too, not `NM_SETTING_WIRELESS_SECURITY_ERROR_LEAP_REQUIRES_USERNAME`. -/
theorem complete_wpa_rejects_legacy (ap : NMAccessPoint) (connection : NMConnection)
    (lock_bssid : Bool) (s_wsec : NMSettingWirelessSecurity)
    (hflags : ap.wpa_flags ≠ [] ∨ ap.rsn_flags ≠ [])
    (hwsec : connection.s_wsec = some s_wsec)
    (hlegacy : s_wsec.key_mgmt = some "ieee8021x" ∨ s_wsec.key_mgmt = some "none" ∨
      s_wsec.auth_alg = some "shared" ∨ s_wsec.auth_alg = some "leap") :
    nm_ap_utils_complete_connection ap connection lock_bssid
      = .error .NM_SETTING_WIRELESS_SECURITY_ERROR_INVALID_PROPERTY := by
  rw [complete_wpa_eq ap connection lock_bssid (classify_wpa ap hflags)]
  have hreject : complete_wpa (some s_wsec) connection.s_8021x
      = .error .NM_SETTING_WIRELESS_SECURITY_ERROR_INVALID_PROPERTY := by
    unfold complete_wpa
    simp only
    rcases hlegacy with h | h | h | h
    · simp [h]
    · simp [h]
    · have h2 : (!(s_wsec.auth_alg == none || s_wsec.auth_alg == some "open")) = true := by
        simp [h]
      rw [if_pos h2]
      split_ifs <;> rfl
    · have h2 : (!(s_wsec.auth_alg == none || s_wsec.auth_alg == some "open")) = true := by
        simp [h]
      rw [if_pos h2]
      split_ifs <;> rfl
  rw [hwsec, hreject]

/-- A witness of C30: `test_wpa_ap_leap_connection_1` (the access point with
the privacy bit and `wpa_flags` `pair_tkip`, `keymgmt_psk`, the connection
with `key-mgmt = ieee8021x` and `leap-username = "Bill Smith"`),
`test_wpa_ap_leap_connection_2` (`auth-alg = leap` without a username) and
`test_wpa_ap_dynamic_wep_connection`. -/
theorem complete_wpa_rejects_legacy_witness :
    complete_connection "blahblah" test_bssid .NM_802_11_MODE_INFRA NM_802_11_AP_FLAGS_PRIVACY
        WPA_PSK_CAPS NM_802_11_AP_SEC_NONE false
        { s_wifi := some {}
          s_wsec := some { key_mgmt := some "ieee8021x", auth_alg := some "leap" } }
      = .error .NM_SETTING_WIRELESS_SECURITY_ERROR_INVALID_PROPERTY ∧
    complete_connection "blahblah" test_bssid .NM_802_11_MODE_INFRA NM_802_11_AP_FLAGS_PRIVACY
        WPA_PSK_CAPS NM_802_11_AP_SEC_NONE false
        { s_wifi := some {}, s_wsec := some { key_mgmt := some "ieee8021x" } }
      = .error .NM_SETTING_WIRELESS_SECURITY_ERROR_INVALID_PROPERTY ∧
    nm_ap_utils_complete_connection
        { ssid := g_byte_array_from_string "blahblah"
          bssid := some test_bssid
          mode := .NM_802_11_MODE_INFRA
          privacy := true
          wpa_flags := WPA_PSK_CAPS
          rsn_flags := [] }
        { s_wifi := some {}
          s_wsec := some { key_mgmt := some "ieee8021x",
                            leap_username := some "Bill Smith" } }
        false
      = .error .NM_SETTING_WIRELESS_SECURITY_ERROR_INVALID_PROPERTY :=
  ⟨by decide, by decide,
    complete_wpa_rejects_legacy
      { ssid := g_byte_array_from_string "blahblah"
        bssid := some test_bssid
        mode := .NM_802_11_MODE_INFRA
        privacy := true
        wpa_flags := WPA_PSK_CAPS
        rsn_flags := [] }
      { s_wifi := some {}
        s_wsec := some { key_mgmt := some "ieee8021x", leap_username := some "Bill Smith" } }
      false { key_mgmt := some "ieee8021x", leap_username := some "Bill Smith" }
      (Or.inl (by decide)) rfl (Or.inl rfl)⟩

/-- The test `test_wpa_ap_wpa_psk_connection_1`: a WPA-capable access point
completes a security setting that carries a `psk` only. -/
theorem wpa_ap_wpa_psk_connection_1 :
    complete_connection "blahblah" test_bssid .NM_802_11_MODE_INFRA NM_802_11_AP_FLAGS_PRIVACY
        WPA_PSK_CAPS NM_802_11_AP_SEC_NONE false
        { s_wsec := some { psk := some "asdfasdfasdfasdfasdfafs" } }
      = .ok { create_basic (g_byte_array_from_string "blahblah") none
                .NM_802_11_MODE_INFRA true with
              s_wsec := some { key_mgmt := some "wpa-psk", auth_alg := some "open",
                               psk := some "asdfasdfasdfasdfasdfafs" } } := by
  decide

/-! ## Completing a completed connection -/

/-- The rules of "LEAP or Dynamic WEP" leave their own result unchanged. -/
theorem complete_leap_or_dynamic_wep_idem (s_wsec r_wsec : NMSettingWirelessSecurity)
    (s_8021x : Option NMSetting8021x)
    (h : complete_leap_or_dynamic_wep s_wsec s_8021x = .ok r_wsec) :
    r_wsec.key_mgmt = some "ieee8021x" ∧
      complete_leap_or_dynamic_wep r_wsec s_8021x = .ok r_wsec := by
  unfold complete_leap_or_dynamic_wep at h
  cases hu : s_wsec.leap_username with
  | some u =>
    rw [hu] at h
    cases h8 : s_8021x with
    | some x =>
      rw [h8] at h
      cases h
    | none =>
      rw [h8] at h
      simp only [Except.ok.injEq] at h
      subst h
      refine ⟨rfl, ?_⟩
      simp [complete_leap_or_dynamic_wep, hu]
  | none =>
    rw [hu] at h
    simp only at h
    split_ifs at h with h1 h2
    cases h8 : s_8021x with
    | none =>
      rw [h8] at h
      cases h
    | some x =>
      rw [h8] at h
      simp only at h
      cases hv : nm_setting_802_1x_verify x with
      | some e =>
        rw [hv] at h
        cases h
      | none =>
        rw [hv] at h
        simp only [Except.ok.injEq] at h
        subst h
        refine ⟨rfl, ?_⟩
        simp [complete_leap_or_dynamic_wep, hu, hv]

/-- The rules of the privacy-only access point leave their own result
unchanged. -/
theorem complete_privacy_only_idem (s_wsec : Option NMSettingWirelessSecurity)
    (r_wsec : NMSettingWirelessSecurity) (s_8021x : Option NMSetting8021x)
    (h : complete_privacy_only s_wsec s_8021x = .ok r_wsec) :
    complete_privacy_only (some r_wsec) s_8021x = .ok r_wsec := by
  have hdyn : ∀ s : NMSettingWirelessSecurity,
      complete_leap_or_dynamic_wep s s_8021x = .ok r_wsec →
      complete_privacy_only (some r_wsec) s_8021x = .ok r_wsec := by
    intro s hs
    obtain ⟨hk, hr⟩ := complete_leap_or_dynamic_wep_idem s r_wsec s_8021x hs
    simp [complete_privacy_only, hk, hr]
  unfold complete_privacy_only at h
  cases hs : s_wsec with
  | none =>
    rw [hs] at h
    simp only [Except.ok.injEq] at h
    subst h
    simp [complete_privacy_only]
  | some s =>
    rw [hs] at h
    simp only at h
    cases hk : s.key_mgmt with
    | some key_mgmt =>
      rw [hk] at h
      simp only at h
      split_ifs at h with h1 h2
      · simp only [Except.ok.injEq] at h
        subst h
        have : key_mgmt = "none" := by simpa using h1
        simp [complete_privacy_only, hk, this]
      · exact hdyn s h
    | none =>
      rw [hk] at h
      simp only at h
      split_ifs at h with h1 h2
      · exact hdyn s h
      · simp only [Except.ok.injEq] at h
        subst h
        simp [complete_privacy_only]

/-- The rules of the WPA-capable access point leave their own result unchanged
when it carries a `psk` or is not `wpa-psk`. -/
theorem complete_wpa_idem (s_wsec : Option NMSettingWirelessSecurity)
    (r_wsec : NMSettingWirelessSecurity) (s_8021x : Option NMSetting8021x)
    (h : complete_wpa s_wsec s_8021x = .ok r_wsec)
    (hpsk : r_wsec.key_mgmt = some "wpa-psk" → r_wsec.psk ≠ none) :
    complete_wpa (some r_wsec) s_8021x = .ok r_wsec := by
  have heap : ∀ s : NMSettingWirelessSecurity, s.leap_username = none →
      complete_wpa_eap s s_8021x = .ok r_wsec →
      complete_wpa (some r_wsec) s_8021x = .ok r_wsec := by
    intro s hu hs
    unfold complete_wpa_eap at hs
    cases h8 : s_8021x with
    | none =>
      rw [h8] at hs
      cases hs
    | some x =>
      rw [h8] at hs
      simp only at hs
      cases hv : nm_setting_802_1x_verify x with
      | some e =>
        rw [hv] at hs
        cases hs
      | none =>
        rw [hv] at hs
        simp only [Except.ok.injEq] at hs
        subst hs
        simp [complete_wpa, complete_wpa_eap, hu, hv]
  have hwpa : ∀ s : NMSettingWirelessSecurity, s.leap_username = none →
      complete_wpa_psk s = .ok r_wsec →
      complete_wpa (some r_wsec) s_8021x = .ok r_wsec := by
    intro s hu hs
    unfold complete_wpa_psk at hs
    split_ifs at hs
    simp only [Except.ok.injEq] at hs
    have hk : r_wsec.key_mgmt = some "wpa-psk" := by rw [← hs]
    have hp : r_wsec.psk.isNone = false := by
      cases hr : r_wsec.psk with
      | none => exact absurd hr (hpsk hk)
      | some v => rfl
    subst hs
    simp only at hp
    simp [complete_wpa, complete_wpa_psk, hu, hp]
  unfold complete_wpa at h
  cases hs : s_wsec with
  | none =>
    rw [hs] at h
    simp only [Except.ok.injEq] at h
    subst h
    exact absurd rfl (hpsk rfl)
  | some s =>
    rw [hs] at h
    simp only at h
    by_cases h1 : (s.leap_username.isSome || s.key_mgmt == some "ieee8021x"
        || s.key_mgmt == some "none") = true
    · rw [if_pos h1] at h
      cases h
    rw [if_neg h1] at h
    by_cases h2 : (!(s.auth_alg == none || s.auth_alg == some "open")) = true
    · rw [if_pos h2] at h
      cases h
    rw [if_neg h2] at h
    have hu : s.leap_username = none := by
      cases hl : s.leap_username with
      | none => rfl
      | some u => simp [hl] at h1
    cases hk : s.key_mgmt with
    | some key_mgmt =>
      rw [hk] at h
      simp only at h
      by_cases h3 : (key_mgmt == "wpa-psk") = true
      · rw [if_pos h3] at h
        exact hwpa s hu h
      · rw [if_neg h3] at h
        by_cases h4 : (key_mgmt == "wpa-eap") = true
        · rw [if_pos h4] at h
          exact heap s hu h
        · rw [if_neg h4] at h
          cases h
    | none =>
      rw [hk] at h
      simp only at h
      by_cases h3 : s_8021x.isSome = true
      · rw [if_pos h3] at h
        exact heap s hu h
      · rw [if_neg h3] at h
        exact hwpa s hu h

/-- Where the completer returns its own result unchanged: for an open and for
a privacy-only access point always; for a WPA-capable one when the completed
security setting carries a `psk` or is not `wpa-psk`. -/
theorem complete_fixed_point (ap : NMAccessPoint) (connection : NMConnection)
    (lock_bssid : Bool) (result : NMConnection)
    (hok : nm_ap_utils_complete_connection ap connection lock_bssid = .ok result)
    (hpsk : classify ap = .WPA → ∀ s_wsec : NMSettingWirelessSecurity,
      result.s_wsec = some s_wsec → s_wsec.key_mgmt = some "wpa-psk" → s_wsec.psk ≠ none) :
    nm_ap_utils_complete_connection ap result lock_bssid = .ok result := by
  cases hclass : classify ap with
  | OPEN =>
    rw [complete_open_eq ap connection lock_bssid hclass] at hok
    split_ifs at hok
    simp only [Except.ok.injEq] at hok
    subst hok
    rw [complete_open_eq ap _ lock_bssid hclass]
    simp [complete_wireless]
  | WEP_OR_LEAP_OR_DYNWEP =>
    rw [complete_privacy_only_eq ap connection lock_bssid hclass] at hok
    cases hr : complete_privacy_only connection.s_wsec connection.s_8021x with
    | error e =>
      rw [hr] at hok
      cases hok
    | ok r_wsec =>
      rw [hr] at hok
      simp only [Except.ok.injEq] at hok
      subst hok
      rw [complete_privacy_only_eq ap _ lock_bssid hclass]
      simp only [complete_privacy_only_idem _ r_wsec _ hr]
      simp [complete_wireless]
  | WPA =>
    rw [complete_wpa_eq ap connection lock_bssid hclass] at hok
    cases hr : complete_wpa connection.s_wsec connection.s_8021x with
    | error e =>
      rw [hr] at hok
      cases hok
    | ok r_wsec =>
      rw [hr] at hok
      simp only [Except.ok.injEq] at hok
      subst hok
      rw [complete_wpa_eq ap _ lock_bssid hclass]
      simp only [complete_wpa_idem _ r_wsec _ hr (hpsk hclass r_wsec rfl)]
      simp [complete_wireless]

/-- The two sentences of the specification on `wpa-psk` (§4.W2) meet in the
connection of `test_wpa_ap_empty_connection`: for a connection without
security settings the rules of the WPA-capable access point synthesize
`key-mgmt = wpa-psk`, `auth-alg = open` without a `psk`, and on that connection
the rule "For `wpa-psk`, a PSK is required" fails. -/
theorem complete_synthesized_wpa_psk :
    complete_connection "blahblah" test_bssid .NM_802_11_MODE_INFRA NM_802_11_AP_FLAGS_PRIVACY
        WPA_PSK_CAPS NM_802_11_AP_SEC_NONE false {}
      = .ok { create_basic (g_byte_array_from_string "blahblah") none
                .NM_802_11_MODE_INFRA true with
              s_wsec := some { key_mgmt := some "wpa-psk", auth_alg := some "open" } } ∧
    complete_connection "blahblah" test_bssid .NM_802_11_MODE_INFRA NM_802_11_AP_FLAGS_PRIVACY
        WPA_PSK_CAPS NM_802_11_AP_SEC_NONE false
        { create_basic (g_byte_array_from_string "blahblah") none
            .NM_802_11_MODE_INFRA true with
          s_wsec := some { key_mgmt := some "wpa-psk", auth_alg := some "open" } }
      = .error .NM_SETTING_WIRELESS_SECURITY_ERROR_INVALID_PROPERTY := by
  decide

end NMWifi
